import Mathlib

/-!
# network_udp.cpp: UDP discovery, advertisement and NewGRF name negotiation

A shallow embedding of `src/network/network_udp.cpp`.

* C strings are lists of bytes without the terminating NUL.
* A `Packet` that is sent is the list of typed fields written into it; its
  serialized size is the 3-byte header plus the size of every field.
* A `Packet` that is received is read through a `PacketReader`, the receive
  functions of the packet class, which are not part of network_udp.cpp and are
  therefore a parameter of the handlers. `fieldReader` is one such reader,
  `cutReader` one for packets that end early.
* The constants of `core/config.h` and `newgrf_config.h` are collected in
  `Constants` and are a parameter as well.
* The global variables are the fields of `Globals`; a procedure returns the
  globals it leaves behind.
* A procedure that can leave the defined behaviour of the language (a call
  through a NULL pointer, a write past the end of an array, a failed
  assertion) returns an `Except Fault`.
* A procedure that network_udp.cpp runs through `ThreadObject::New` is recorded as
  `Started`, once, whether it got a thread of its own or was called in place;
  what it sends is given by the procedure itself, `NetworkUDPAdvertiseThread`.
  In the sequences of events of `udpStep` a procedure in a thread runs
  statement by statement (`threadStep`), and the handlers and ticks of the main
  thread may come between two of its statements.
* The counters are those of the program: the retries are a `uint8` and the
  frames `uint32`, and their arithmetic wraps.

Three parts follow: the definitions, lemmas on them, and the properties C1 to
C20.
-/

set_option autoImplicit false

namespace NetworkUDP

/-! ## Strings -/

/-- A C string: its bytes up to, and without, the terminating NUL. -/
abbrev CString := List Nat

/-- The C library `strlen`: the number of bytes before the NUL. -/
def strlen (s : CString) : Nat := s.length

/-- Modelled from the spec: `StrEmpty` of string_func.h, true when the first
byte of the string is the NUL. -/
def StrEmpty (s : CString) : Bool := s.isEmpty

/-- Modelled from the spec: `strecpy(dst, src, lastof(dst))` of string_func.h
for a destination buffer of `size` bytes ("strings length-bounded and
null-terminated within that bound"): at most `size - 1` bytes are copied and
the NUL is appended. The value is the content of `dst` afterwards. -/
def strecpy (src : CString) (size : Nat) : CString := src.take (size - 1)

/-- Modelled from the spec: `ttd_strlcpy(dst, src, size)` of string_func.h:
at most `size - 1` bytes are copied and the NUL is appended. The value is the
content of `dst` afterwards. -/
def ttd_strlcpy (src : CString) (size : Nat) : CString := src.take (size - 1)

/-! ## Constants -/

/-- The constants that network_udp.cpp takes from headers that are not part of
it.
Two conditions hold for every build and are hypotheses where they matter: a
packet is larger than its 3-byte header and a count byte (`4 ≤ SEND_MTU`, so
that `SEND_MTU - 4` of line 189 is the difference of natural numbers), and
the buffer of a name has room for the NUL (`1 ≤ NETWORK_GRF_NAME_LENGTH`). -/
structure Constants where
  /-- Number of bytes of a packet buffer (core/config.h). -/
  SEND_MTU : Nat
  /-- Size in bytes of the buffer for the name of a NewGRF (core/config.h). -/
  NETWORK_GRF_NAME_LENGTH : Nat
  /-- Maximum number of NewGRFs in a request or reply (core/config.h). -/
  NETWORK_MAX_GRF_COUNT : Nat
  /-- The name of a NewGRF whose real name is not known yet (newgrf_config.h). -/
  UNKNOWN_GRF_NAME_PLACEHOLDER : CString
deriving Repr

/-- The enum of lines 34-38: interval between advertising in ticks. -/
def ADVERTISE_NORMAL_INTERVAL : Nat := 30000

/-- The enum of lines 34-38: readvertise when no response after this many ticks. -/
def ADVERTISE_RETRY_INTERVAL : Nat := 300

/-- The enum of lines 34-38: give up readvertising after this much failed retries. -/
def ADVERTISE_RETRY_TIMES : Nat := 3

/-! ## NewGRF identification -/

/-- The `grfid` and `md5sum` members of a `GRFConfig`, as `Recv_GRFIdentifier`
fills them in. The 16-byte MD5 checksum is one number. -/
structure GRFIdentifier where
  grfid : Nat
  md5sum : Nat
deriving DecidableEq, Repr

/-- The members of `GRFConfig` that network_udp.cpp reads; `name` is `none` for a
NULL pointer. -/
structure GRFConfig where
  grfid : Nat
  md5sum : Nat
  filename : CString
  name : Option CString
deriving DecidableEq, Repr

/-- Modelled from the spec: `FindGRFConfig(grfid, md5sum)` of newgrf_config.cpp
("look up a local registry by exact match"): the first entry of the list of
all known NewGRFs with this id and this checksum, `none` for NULL. -/
def FindGRFConfig (all_grfs : List GRFConfig) (grfid md5sum : Nat) : Option GRFConfig :=
  all_grfs.find? (fun c => decide (c.grfid = grfid ∧ c.md5sum = md5sum))

/-- The expression `(f->name != NULL && !StrEmpty(f->name)) ? f->name : f->filename`
of lines 188 and 204. -/
def GRFConfig.replyName (f : GRFConfig) : CString :=
  match f.name with
  | some n => if !StrEmpty n then n else f.filename
  | none => f.filename

/-! ## Packets -/

/-- The packet types of core/udp.h that network_udp.cpp handles. -/
inductive PacketUDPType where
  | PACKET_UDP_CLIENT_FIND_SERVER
  | PACKET_UDP_SERVER_RESPONSE
  | PACKET_UDP_CLIENT_DETAIL_INFO
  | PACKET_UDP_SERVER_DETAIL_INFO
  | PACKET_UDP_SERVER_REGISTER
  | PACKET_UDP_MASTER_ACK_REGISTER
  | PACKET_UDP_CLIENT_GET_LIST
  | PACKET_UDP_MASTER_RESPONSE_LIST
  | PACKET_UDP_SERVER_UNREGISTER
  | PACKET_UDP_CLIENT_GET_NEWGRFS
  | PACKET_UDP_SERVER_NEWGRFS
  | PACKET_UDP_MASTER_SESSION_KEY
deriving DecidableEq, Repr

/-- One value written into a packet by a `Send_` function. -/
inductive Field where
  | uint8 (v : Nat)
  | uint16 (v : Nat)
  | uint32 (v : Nat)
  | uint64 (v : Nat)
  /-- The 16 bytes of an MD5 checksum, written by `Send_GRFIdentifier`. -/
  | md5sum (v : Nat)
  /-- The bytes of a string followed by the NUL, written by `Send_string`. -/
  | string (s : CString)
deriving DecidableEq, Repr

/-- Number of bytes that a field occupies in the packet. -/
def Field.size : Field → Nat
  | .uint8 _ => 1
  | .uint16 _ => 2
  | .uint32 _ => 4
  | .uint64 _ => 8
  | .md5sum _ => 16
  | .string s => strlen s + 1

/-- Modelled from the spec: the `Packet` class of core/packet.h for a packet
that is being written ("a fixed 3-byte header (total length, message type)
followed by typed fields"). -/
structure Packet where
  type : PacketUDPType
  fields : List Field
deriving DecidableEq, Repr

/-- The constructor `Packet(type)`: a packet with the header only. -/
def Packet.new (type : PacketUDPType) : Packet := ⟨type, []⟩

/-- The serialized size: 3 bytes of header and the fields. -/
def Packet.size (p : Packet) : Nat := 3 + (p.fields.map Field.size).sum

def Packet.Send_uint8 (p : Packet) (v : Nat) : Packet := { p with fields := p.fields ++ [.uint8 v] }

def Packet.Send_uint16 (p : Packet) (v : Nat) : Packet := { p with fields := p.fields ++ [.uint16 v] }

def Packet.Send_uint32 (p : Packet) (v : Nat) : Packet := { p with fields := p.fields ++ [.uint32 v] }

def Packet.Send_uint64 (p : Packet) (v : Nat) : Packet := { p with fields := p.fields ++ [.uint64 v] }

def Packet.Send_string (p : Packet) (s : CString) : Packet := { p with fields := p.fields ++ [.string s] }

/-- Modelled from the spec: `Send_GRFIdentifier` of core/udp.cpp, which writes
the id (4 bytes) and the checksum (16 bytes) of a NewGRF. -/
def Send_GRFIdentifier (p : Packet) (c : GRFConfig) : Packet :=
  { p with fields := p.fields ++ [.uint32 c.grfid, .md5sum c.md5sum] }

/-- The `sizeof(c.grfid)` of line 187. -/
def sizeof_grfid : Nat := 4

/-- The `sizeof(c.md5sum)` of line 187. -/
def sizeof_md5sum : Nat := 16

/-- The receive functions of a packet of type `P`: each returns the value read
and the packet with the read position moved on. They are not part of
network_udp.cpp; every handler takes them as a parameter. -/
structure PacketReader (P : Type) where
  Recv_uint8 : P → Nat × P
  Recv_GRFIdentifier : P → GRFIdentifier × P
  /-- `Recv_string(buffer, size)`: the first argument is the size of the buffer. -/
  Recv_string : Nat → P → CString × P

/-- A network address; only its identity matters here. -/
abbrev NetworkAddress := Nat

/-! ## The server answers a request for NewGRF names (lines 160-211) -/

/-- The local variables of the handler that live across the first loop, and
the calls of `FindGRFConfig` made so far. -/
structure GetNewGRFsState (P : Type) where
  /-- The packet `p` with its read position. -/
  p : P
  /-- The array `in_reply`, of which `in_reply_count` entries are filled. -/
  in_reply : List GRFConfig
  packet_len : Nat
  /-- The identifiers looked up with `FindGRFConfig`, in order. -/
  lookups : List GRFIdentifier

/-- The loop of lines 174-194; the first argument is the number of rounds
that are left, `num_grfs - i`. -/
def getNewGRFsLoop {P : Type} (K : Constants) (rd : PacketReader P) (all_grfs : List GRFConfig) :
    Nat → GetNewGRFsState P → GetNewGRFsState P
  | 0, s => s
  | n + 1, s =>
    let c := rd.Recv_GRFIdentifier s.p
    let s1 : GetNewGRFsState P := { s with p := c.2, lookups := s.lookups ++ [c.1] }
    match FindGRFConfig all_grfs c.1.grfid c.1.md5sum with
    | none => getNewGRFsLoop K rd all_grfs n s1
    | some f =>
      let packet_len := s1.packet_len + (sizeof_grfid + sizeof_md5sum +
        min (strlen f.replyName + 1) K.NETWORK_GRF_NAME_LENGTH)
      if packet_len > K.SEND_MTU - 4 then
        { s1 with packet_len := packet_len }
      else
        getNewGRFsLoop K rd all_grfs n
          { s1 with packet_len := packet_len, in_reply := s1.in_reply ++ [f] }

/-- The loop of lines 200-208, which writes the entries of the reply. -/
def sendNewGRFs (K : Constants) : List GRFConfig → Packet → Packet
  | [], packet => packet
  | f :: fs, packet =>
    let name := strecpy f.replyName K.NETWORK_GRF_NAME_LENGTH
    sendNewGRFs K fs ((Send_GRFIdentifier packet f).Send_string name)

/-- What a receive handler of the server leaves behind. -/
structure ServerResult (P : Type) where
  /-- The received packet with its read position. -/
  p : P
  /-- The identifiers looked up with `FindGRFConfig`, in order. -/
  lookups : List GRFIdentifier
  /-- The packets handed to `SendPacket`, with their destination. -/
  sent : List (Packet × NetworkAddress)

/-- The handler `DEF_UDP_RECEIVE_COMMAND(Server, PACKET_UDP_CLIENT_GET_NEWGRFS)`. -/
def Server_PACKET_UDP_CLIENT_GET_NEWGRFS {P : Type} (K : Constants) (rd : PacketReader P)
    (all_grfs : List GRFConfig) (p : P) (client_addr : NetworkAddress) : ServerResult P :=
  let r := rd.Recv_uint8 p
  let num_grfs := r.1 % 256
  if num_grfs > K.NETWORK_MAX_GRF_COUNT then ⟨r.2, [], []⟩
  else
    let s := getNewGRFsLoop K rd all_grfs num_grfs ⟨r.2, [], 0, []⟩
    let in_reply_count := s.in_reply.length
    if in_reply_count = 0 then ⟨s.p, s.lookups, []⟩
    else
      let packet := (Packet.new .PACKET_UDP_SERVER_NEWGRFS).Send_uint8 in_reply_count
      let packet := sendNewGRFs K s.in_reply packet
      ⟨s.p, s.lookups, [(packet, client_addr)]⟩

/-! ## Reading the handlers as functions of the decoded request -/

/-- The identifiers that `n` successive calls of `Recv_GRFIdentifier` read,
starting at `p`: the requested (id, checksum) pairs in request order. -/
def requestedIds {P : Type} (rd : PacketReader P) : Nat → P → List GRFIdentifier
  | 0, _ => []
  | n + 1, p => (rd.Recv_GRFIdentifier p).1 :: requestedIds rd n (rd.Recv_GRFIdentifier p).2

/-- The bytes that line 187 counts for one entry of the reply. -/
def entryLen (K : Constants) (f : GRFConfig) : Nat :=
  sizeof_grfid + sizeof_md5sum + min (strlen f.replyName + 1) K.NETWORK_GRF_NAME_LENGTH

/-- The cumulative size of a list of entries, as line 187 counts it. -/
def entriesLen (K : Constants) (fs : List GRFConfig) : Nat := (fs.map (entryLen K)).sum

/-- The registry entries that match the requested identifiers, in request order. -/
def matchedConfigs (all_grfs : List GRFConfig) (ids : List GRFIdentifier) : List GRFConfig :=
  ids.filterMap (fun c => FindGRFConfig all_grfs c.grfid c.md5sum)

/-- The entries that are taken from the front of `fs` until one does not fit
any more, when `len` bytes are used already. -/
def fitting (K : Constants) : List GRFConfig → Nat → List GRFConfig
  | [], _ => []
  | f :: fs, len =>
    if len + entryLen K f > K.SEND_MTU - 4 then [] else f :: fitting K fs (len + entryLen K f)

/-- The fields that lines 204-207 write for one entry of the reply. -/
def entryFields (K : Constants) (f : GRFConfig) : List Field :=
  [.uint32 f.grfid, .md5sum f.md5sum, .string (strecpy f.replyName K.NETWORK_GRF_NAME_LENGTH)]

/-- The value of `in_reply` after the loop of lines 174-194. -/
def inReply {P : Type} (K : Constants) (rd : PacketReader P) (all_grfs : List GRFConfig)
    (p : P) : List GRFConfig :=
  (getNewGRFsLoop K rd all_grfs ((rd.Recv_uint8 p).1 % 256) ⟨(rd.Recv_uint8 p).2, [], 0, []⟩).in_reply

/-! ## The client receives the names of NewGRFs (lines 308-338) -/

/-- One entry of the table of NewGRFs that are unknown to this client, kept
by `FindUnknownGRFName`. -/
structure UnknownGRF where
  grfid : Nat
  md5sum : Nat
  name : CString
deriving DecidableEq, Repr

/-- The search of `FindUnknownGRFName`: the position of the first entry of
the table with this id and this checksum. -/
def findUnknownGRF : List UnknownGRF → Nat → Nat → Option Nat
  | [], _, _ => none
  | u :: us, grfid, md5sum =>
    if u.grfid = grfid ∧ u.md5sum = md5sum then some 0
    else (findUnknownGRF us grfid md5sum).map (fun i => i + 1)

/-- Modelled from the spec: `FindUnknownGRFName(grfid, md5sum, create)` of
network.cpp, the lookup in the "unknown name" table by (id, checksum). The
pointer to the name that it returns is the position of the entry in the
table, `none` for NULL; with `create` a missing entry is added in front with
the placeholder as its name. -/
def FindUnknownGRFName (K : Constants) (unknown_grfs : List UnknownGRF) (grfid md5sum : Nat)
    (create : Bool) : List UnknownGRF × Option Nat :=
  match findUnknownGRF unknown_grfs grfid md5sum with
  | some i => (unknown_grfs, some i)
  | none =>
    if create then
      (⟨grfid, md5sum, ttd_strlcpy K.UNKNOWN_GRF_NAME_PLACEHOLDER K.NETWORK_GRF_NAME_LENGTH⟩ ::
        unknown_grfs, some 0)
    else (unknown_grfs, none)

/-- The string that the pointer `unknown_name` points to. -/
def nameAt (unknown_grfs : List UnknownGRF) (unknown_name : Nat) : Option CString :=
  (unknown_grfs.get? unknown_name).map (fun u => u.name)

/-- Writing a string through the pointer `unknown_name`. -/
def writeName : List UnknownGRF → Nat → CString → List UnknownGRF
  | [], _, _ => []
  | u :: us, 0, s => { u with name := s } :: us
  | u :: us, i + 1, s => u :: writeName us i s

/-- The loop of lines 318-337; the first argument is the number of rounds
that are left, `num_grfs - i`. -/
def clientNewGRFsLoop {P : Type} (K : Constants) (rd : PacketReader P) :
    Nat → P → List UnknownGRF → P × List UnknownGRF
  | 0, p, unknown_grfs => (p, unknown_grfs)
  | n + 1, p, unknown_grfs =>
    let c := rd.Recv_GRFIdentifier p
    let name := rd.Recv_string K.NETWORK_GRF_NAME_LENGTH c.2
    if StrEmpty name.1 then clientNewGRFsLoop K rd n name.2 unknown_grfs
    else
      let f := FindUnknownGRFName K unknown_grfs c.1.grfid c.1.md5sum false
      match f.2 with
      | none => clientNewGRFsLoop K rd n name.2 f.1
      | some unknown_name =>
        if nameAt f.1 unknown_name = some K.UNKNOWN_GRF_NAME_PLACEHOLDER then
          clientNewGRFsLoop K rd n name.2
            (writeName f.1 unknown_name (ttd_strlcpy name.1 K.NETWORK_GRF_NAME_LENGTH))
        else clientNewGRFsLoop K rd n name.2 f.1

/-- What the receive handler of the client leaves behind. -/
structure ClientResult (P : Type) where
  /-- The received packet with its read position. -/
  p : P
  /-- The table of unknown NewGRFs. -/
  unknown_grfs : List UnknownGRF

/-- The handler `DEF_UDP_RECEIVE_COMMAND(Client, PACKET_UDP_SERVER_NEWGRFS)`. -/
def Client_PACKET_UDP_SERVER_NEWGRFS {P : Type} (K : Constants) (rd : PacketReader P)
    (unknown_grfs : List UnknownGRF) (p : P) : ClientResult P :=
  let r := rd.Recv_uint8 p
  let num_grfs := r.1 % 256
  if num_grfs > K.NETWORK_MAX_GRF_COUNT then ⟨r.2, unknown_grfs⟩
  else
    let s := clientNewGRFsLoop K rd num_grfs r.2 unknown_grfs
    ⟨s.1, s.2⟩

/-- The name stored in the table for an (id, checksum) pair, `none` when the
table has no entry for it. -/
def storedName (unknown_grfs : List UnknownGRF) (grfid md5sum : Nat) : Option CString :=
  match findUnknownGRF unknown_grfs grfid md5sum with
  | some i => nameAt unknown_grfs i
  | none => none

/-- The (identifier, name) pairs that `n` rounds of the loop of lines
318-337 read, starting at `p`, in the order of the rounds. For a reply that
holds the entries that its count announces these are the entries of the
reply; for a reply that ends early, what the rounds after its end read is
among them. -/
def replyEntries {P : Type} (K : Constants) (rd : PacketReader P) :
    Nat → P → List (GRFIdentifier × CString)
  | 0, _ => []
  | n + 1, p =>
    let c := rd.Recv_GRFIdentifier p
    let name := rd.Recv_string K.NETWORK_GRF_NAME_LENGTH c.2
    (c.1, name.1) :: replyEntries K rd n name.2

/-! ## A packet given by its fields -/

/-- Modelled from the spec: the receive functions for a packet that arrived
with a given list of fields. A read that does not find its field at the read
position yields zero (the empty string) and ends the packet, as a read past
the end of the packet does ("never read past the declared bounds"). -/
def fieldReader : PacketReader (List Field) where
  Recv_uint8 := fun p =>
    match p with
    | .uint8 v :: rest => (v, rest)
    | _ => (0, [])
  Recv_GRFIdentifier := fun p =>
    match p with
    | .uint32 g :: .md5sum m :: rest => (⟨g, m⟩, rest)
    | _ => (⟨0, 0⟩, [])
  Recv_string := fun size p =>
    match p with
    | .string s :: rest => (s.take (size - 1), rest)
    | _ => ([], [])

/-- A received packet that may end early, given by the fields it holds,
together with the bytes that the array `name` of line 320 holds. -/
structure CutReply where
  fields : List Field
  name : CString
deriving DecidableEq, Repr

/-- The receive functions of core/packet.cpp, which is not part of
network_udp.cpp, on a packet that may end early: a read at the end of the
packet yields zero and ends the packet, and `Recv_string` at the end of the
packet returns without writing to its buffer, so that the array `name` of line
320 still holds the bytes that the round before left in it. -/
def cutReader : PacketReader CutReply where
  Recv_uint8 := fun p =>
    match p.fields with
    | .uint8 v :: rest => (v, { p with fields := rest })
    | _ => (0, { p with fields := [] })
  Recv_GRFIdentifier := fun p =>
    match p.fields with
    | .uint32 g :: .md5sum m :: rest => (⟨g, m⟩, { p with fields := rest })
    | _ => (⟨0, 0⟩, { p with fields := [] })
  Recv_string := fun size p =>
    match p.fields with
    | .string s :: rest => (s.take (size - 1), ⟨rest, s.take (size - 1)⟩)
    | _ => (p.name, { p with fields := [] })

/-- A reply that announces two entries and ends after the first, which names
the NewGRF 7 `B`. -/
def cutReply : CutReply := ⟨[.uint8 2, .uint32 7, .md5sum 107, .string [66]], []⟩

/-- A reply that announces three entries and ends after the first, which names
the NewGRF 9 `C`. -/
def shortReply : CutReply := ⟨[.uint8 3, .uint32 9, .md5sum 109, .string [67]], []⟩

/-! ## Advertising to the master server (lines 470-519) -/

/-- The constants of the master server protocol (core/config.h). -/
structure MasterServerConstants where
  NETWORK_MASTER_SERVER_HOST : NetworkAddress
  NETWORK_MASTER_SERVER_WELCOME_MESSAGE : CString
  NETWORK_MASTER_SERVER_VERSION : Nat
deriving Repr

/-- The global variables of network_udp.cpp, and those of network_internal.h
and the settings that it reads and writes. A socket is `true` when the pointer is not
NULL. The declarations of the counters are not part of network_udp.cpp:
`_network_advertise_retries` is a `uint8`, `_frame_counter` and
`_network_last_advertise_frame` are `uint32`. The fields hold the values, below
`2 ^ 8` and `2 ^ 32`; the arithmetic on them wraps (`advertiseAttempt`,
`advertiseRetry`, `NetworkUDPAdvertise`). -/
structure Globals where
  _networking : Bool
  _network_server : Bool
  _network_udp_server : Bool
  /-- The setting `_settings_client.network.server_advertise`. -/
  server_advertise : Bool
  /-- The setting `_settings_client.network.server_port`. -/
  server_port : Nat
  _network_need_advertise : Bool
  _network_advertise_retries : Nat
  _network_last_advertise_frame : Nat
  _frame_counter : Nat
  _session_key : Nat
  _udp_client_socket : Bool
  _udp_server_socket : Bool
  _udp_master_socket : Bool
  _network_udp_broadcast : Nat
deriving DecidableEq, Repr

/-- The procedures of network_udp.cpp that run in a thread of their own. -/
inductive ThreadProc where
  | NetworkUDPAdvertiseThread
  | NetworkUDPRemoveAdvertiseThread
deriving DecidableEq, Repr

/-- A procedure that was started, and whether `ThreadObject::New` gave it a
thread (`true`) or it was called in place (`false`). -/
structure Started where
  proc : ThreadProc
  in_thread : Bool
deriving DecidableEq, Repr

/-- The pattern `if (!ThreadObject::New(proc, NULL)) proc(NULL);`. -/
def startThread (thread_ok : Bool) (proc : ThreadProc) : List Started :=
  if thread_ok then [⟨proc, true⟩] else [⟨proc, false⟩]

/-- The procedure `NetworkUDPAdvertiseThread`: the packets it hands to the
master socket, with their destination. -/
def NetworkUDPAdvertiseThread (M : MasterServerConstants) (g : Globals) :
    List (Packet × NetworkAddress) :=
  let out_addr := M.NETWORK_MASTER_SERVER_HOST
  let p := Packet.new .PACKET_UDP_SERVER_REGISTER
  let p := p.Send_string M.NETWORK_MASTER_SERVER_WELCOME_MESSAGE
  let p := p.Send_uint8 M.NETWORK_MASTER_SERVER_VERSION
  let p := p.Send_uint16 g.server_port
  let p := p.Send_uint64 g._session_key
  if g._udp_master_socket then [(p, out_addr)] else []

/-- Lines 513-518 of `NetworkUDPAdvertise`: the attempt itself. The decrement
of line 513 is that of a `uint8`: at zero it wraps to 255. -/
def advertiseAttempt (thread_ok : Bool) (g : Globals) : Globals × List Started :=
  ({ g with
      _network_advertise_retries := (g._network_advertise_retries + 255) % 2 ^ 8
      _network_last_advertise_frame := g._frame_counter },
    startThread thread_ok .NetworkUDPAdvertiseThread)

/-- Lines 509-518 of `NetworkUDPAdvertise`: the check of the retry interval
and the attempt. The sum of line 509 is one of `uint32`: it wraps at
`2 ^ 32`. -/
def advertiseRetry (thread_ok : Bool) (g : Globals) : Globals × List Started :=
  if (g._network_last_advertise_frame + ADVERTISE_RETRY_INTERVAL) % 2 ^ 32 > g._frame_counter then
    (g, [])
  else advertiseAttempt thread_ok g

/-- The procedure `NetworkUDPAdvertise`: the globals afterwards and the
procedures it started. The sum of line 504 is one of `uint32`: it wraps at
`2 ^ 32`. -/
def NetworkUDPAdvertise (thread_ok : Bool) (g : Globals) : Globals × List Started :=
  if !g._networking || !g._network_server || !g._network_udp_server || !g.server_advertise then
    (g, [])
  else if g._network_need_advertise then
    advertiseAttempt thread_ok
      { g with _network_need_advertise := false, _network_advertise_retries := ADVERTISE_RETRY_TIMES }
  else if g._network_advertise_retries = 0 then
    if (g._network_last_advertise_frame + ADVERTISE_NORMAL_INTERVAL) % 2 ^ 32 > g._frame_counter then
      (g, [])
    else advertiseRetry thread_ok { g with _network_advertise_retries := ADVERTISE_RETRY_TIMES }
  else advertiseRetry thread_ok g

/-- A sequence of ticks. Between two ticks the rest of the program may change
every global variable except the retries: each
tick comes with the outcome of `ThreadObject::New` and with globals `e` that
give the value of every other variable at that tick. The result lists, for
each tick, the globals before and after the call of `NetworkUDPAdvertise`. -/
def advertiseRun (g : Globals) : List (Bool × Globals) → List (Globals × Globals)
  | [] => []
  | (thread_ok, e) :: rest =>
    let before := { e with _network_advertise_retries := g._network_advertise_retries }
    let after := (NetworkUDPAdvertise thread_ok before).1
    (before, after) :: advertiseRun after rest

/-! ## Notions used to state the properties -/

/-- The (id, checksum) pair of a registry entry. -/
def GRFConfig.ident (f : GRFConfig) : GRFIdentifier := ⟨f.grfid, f.md5sum⟩

/-- The (id, checksum) pair of an entry of the table of unknown NewGRFs. -/
def UnknownGRF.ident (u : UnknownGRF) : GRFIdentifier := ⟨u.grfid, u.md5sum⟩

/-- One round of the loop of lines 318-337 as a function of the entry read. -/
def resolveOne (K : Constants) (unknown_grfs : List UnknownGRF) (e : GRFIdentifier × CString) :
    List UnknownGRF :=
  if StrEmpty e.2 then unknown_grfs
  else
    match findUnknownGRF unknown_grfs e.1.grfid e.1.md5sum with
    | none => unknown_grfs
    | some unknown_name =>
      if nameAt unknown_grfs unknown_name = some K.UNKNOWN_GRF_NAME_PLACEHOLDER then
        writeName unknown_grfs unknown_name (ttd_strlcpy e.2 K.NETWORK_GRF_NAME_LENGTH)
      else unknown_grfs

/-- How an entry `u` of the table of unknown NewGRFs and the entry `v` at the
same position afterwards are related, when the reply mentions the pairs
`mentioned`: same id and checksum, and the same name if the name was not the
placeholder or the pair is not mentioned. -/
def NameKept (K : Constants) (mentioned : List GRFIdentifier) (u v : UnknownGRF) : Prop :=
  v.grfid = u.grfid ∧ v.md5sum = u.md5sum ∧
  (u.name ≠ K.UNKNOWN_GRF_NAME_PLACEHOLDER → v.name = u.name) ∧
  (u.ident ∉ mentioned → v.name = u.name)

/-- Constants for the examples: packets of 1460 bytes, names of 80 bytes, at
most 55 NewGRFs, the placeholder `<Unknown>`. -/
def sampleConstants : Constants :=
  ⟨1460, 80, 55, [60, 85, 110, 107, 110, 111, 119, 110, 62]⟩

/-- Master server constants for the examples. -/
def sampleMaster : MasterServerConstants := ⟨1, [79, 112, 101, 110, 84, 84, 68], 2⟩

/-- A registry for the examples that knows the NewGRF 7 only. -/
def sampleRegistry : List GRFConfig := [⟨7, 107, [55, 46, 103, 114, 102], some [83, 101, 118, 101, 110]⟩]

/-- The request for the names of the NewGRFs 7 and 9. -/
def sampleRequest : List Field := [.uint8 2, .uint32 7, .md5sum 107, .uint32 9, .md5sum 109]

/-- An advertising server for the examples: networking, server, UDP server
role and the advertise setting are on, no request is pending, no retries are
left, the sockets exist. -/
def advertisingServer : Globals :=
  { _networking := true, _network_server := true, _network_udp_server := true,
    server_advertise := true, server_port := 3979, _network_need_advertise := false,
    _network_advertise_retries := 0, _network_last_advertise_frame := 0, _frame_counter := 0,
    _session_key := 9, _udp_client_socket := true, _udp_server_socket := true,
    _udp_master_socket := true, _network_udp_broadcast := 0 }

/-- The last attempt was at frame 100 and it is frame 450: the retry interval
has elapsed, the normal interval has not. -/
def waitingServer : Globals :=
  { advertisingServer with _network_last_advertise_frame := 100, _frame_counter := 450 }

/-- No retries are left and the normal interval has just elapsed. -/
def expiredServer : Globals := { advertisingServer with _frame_counter := 30000 }

/-- Two retries are left, the last attempt was at frame 100 and it is frame 400. -/
def retryingServer : Globals :=
  { advertisingServer with
      _network_advertise_retries := 2, _network_last_advertise_frame := 100, _frame_counter := 400 }

/-- The last attempt was at frame `2 ^ 32 - 6` and it is frame `2 ^ 32 - 1`,
five ticks later, with `retries` retries left: the sums of lines 504 and 509
wrap. -/
def wrappedServer (retries : Nat) : Globals :=
  { advertisingServer with
      _network_advertise_retries := retries, _network_last_advertise_frame := 4294967290,
      _frame_counter := 4294967295 }

/-- A registration request is pending one frame after the last attempt, with
`retries` retries left. -/
def requestedServer (retries : Nat) : Globals :=
  { advertisingServer with
      _network_need_advertise := true, _network_advertise_retries := retries,
      _network_last_advertise_frame := 100, _frame_counter := 101 }

/-- The state before the first `NetworkUDPInitialize` and after
`NetworkUDPClose`: the three sockets are NULL. -/
def closedServer : Globals :=
  { advertisingServer with
      _udp_client_socket := false, _udp_server_socket := false, _udp_master_socket := false }

/-- A registry entry whose name has 100 bytes. -/
def longNameConfig : GRFConfig := ⟨7, 107, [55, 46, 103, 114, 102], some (List.replicate 100 65)⟩

/-- A request that names the NewGRF 7 fifteen times. With `longNameConfig` as
the registry every entry of the reply takes 4 + 16 + 80 bytes, and 14 of them
fit into `1460 - 4` bytes. -/
def fifteenRequests : List Field :=
  .uint8 15 :: (List.replicate 15 [Field.uint32 7, Field.md5sum 107]).flatten

/-! ## The master server answers, and the advertisement is removed (lines 55-68, 441-468) -/

/-- The ways in which a procedure leaves the defined behaviour of the language. -/
inductive Fault where
  /-- A member function is called through a NULL pointer. -/
  | null_pointer_dereference
  /-- An array is written at an index that is not below its size. -/
  | array_index_out_of_bounds
  /-- The condition of an `assert` is false. -/
  | assertion_failed
deriving DecidableEq, Repr

/-- The procedure `NetworkUDPRemoveAdvertiseThread`: the packets it hands to
the master socket, with their destination. -/
def NetworkUDPRemoveAdvertiseThread (M : MasterServerConstants) (g : Globals) :
    List (Packet × NetworkAddress) :=
  let out_addr := M.NETWORK_MASTER_SERVER_HOST
  let p := Packet.new .PACKET_UDP_SERVER_UNREGISTER
  let p := p.Send_uint8 M.NETWORK_MASTER_SERVER_VERSION
  let p := p.Send_uint16 g.server_port
  if g._udp_master_socket then [(p, out_addr)] else []

/-- The procedure `NetworkUDPRemoveAdvertise`: the globals afterwards and the
procedures it started. -/
def NetworkUDPRemoveAdvertise (thread_ok : Bool) (g : Globals) : Globals × List Started :=
  if !g._networking || !g._network_server || !g._network_udp_server then (g, [])
  else (g, startThread thread_ok .NetworkUDPRemoveAdvertiseThread)

/-- The handler `DEF_UDP_RECEIVE_COMMAND(Master, PACKET_UDP_MASTER_ACK_REGISTER)`. -/
def Master_PACKET_UDP_MASTER_ACK_REGISTER (thread_ok : Bool) (g : Globals) :
    Globals × List Started :=
  let g1 := { g with _network_advertise_retries := 0 }
  if !g1.server_advertise then NetworkUDPRemoveAdvertise thread_ok g1 else (g1, [])

/-- The handler `DEF_UDP_RECEIVE_COMMAND(Master, PACKET_UDP_MASTER_SESSION_KEY)`;
`Recv_uint64` is the receive function of the packet, whose value is stored in
a variable of 64 bits. -/
def Master_PACKET_UDP_MASTER_SESSION_KEY {P : Type} (Recv_uint64 : P → Nat × P) (p : P)
    (g : Globals) : Globals × P :=
  ({ g with _session_key := (Recv_uint64 p).1 % 2 ^ 64 }, (Recv_uint64 p).2)

/-- What a procedure that was started sends when it runs with the globals `g`. -/
def runThreadProc (M : MasterServerConstants) (g : Globals) :
    ThreadProc → List (Packet × NetworkAddress)
  | .NetworkUDPAdvertiseThread => NetworkUDPAdvertiseThread M g
  | .NetworkUDPRemoveAdvertiseThread => NetworkUDPRemoveAdvertiseThread M g

/-! ## The sockets are created and closed (lines 521-564) -/

/-- The procedure `NetworkUDPClose`; the calls of `Close` go through the three
socket pointers. -/
def NetworkUDPClose (g : Globals) : Except Fault Globals :=
  if !g._udp_server_socket then .error .null_pointer_dereference
  else if !g._udp_master_socket then .error .null_pointer_dereference
  else if !g._udp_client_socket then .error .null_pointer_dereference
  else
    .ok { g with
      _udp_client_socket := false, _udp_server_socket := false, _udp_master_socket := false,
      _network_udp_server := false, _network_udp_broadcast := 0 }

/-- Lines 526-544 of `NetworkUDPInitialize`: the assertion and the creation of
the three sockets. -/
def createSockets (g : Globals) : Except Fault Globals :=
  if !(!g._udp_client_socket && !g._udp_server_socket && !g._udp_master_socket) then
    .error .assertion_failed
  else
    .ok { g with
      _udp_client_socket := true, _udp_server_socket := true, _udp_master_socket := true,
      _network_udp_server := false, _network_udp_broadcast := 0 }

/-- The procedure `NetworkUDPInitialize`. -/
def NetworkUDPInitialize (g : Globals) : Except Fault Globals :=
  if g._udp_server_socket then
    match NetworkUDPClose g with
    | .ok g1 => createSockets g1
    | .error f => .error f
  else createSockets g

/-- A call of one of the two procedures that create and close the sockets. -/
inductive SocketCall where
  | NetworkUDPInitialize
  | NetworkUDPClose
deriving DecidableEq, Repr

/-- One call. -/
def runSocketCall : SocketCall → Globals → Except Fault Globals
  | .NetworkUDPInitialize, g => NetworkUDPInitialize g
  | .NetworkUDPClose, g => NetworkUDPClose g

/-- A sequence of calls, which ends at the first fault. -/
def runSocketCalls : Globals → List SocketCall → Except Fault Globals
  | g, [] => .ok g
  | g, c :: rest =>
    match runSocketCall c g with
    | .ok g1 => runSocketCalls g1 rest
    | .error f => .error f

/-- Every `NetworkUDPClose` of the sequence is called while a socket exists. -/
def closedWhileOpen : Globals → List SocketCall → Prop
  | _, [] => True
  | g, c :: rest =>
    (c = .NetworkUDPClose →
      (g._udp_client_socket || g._udp_server_socket || g._udp_master_socket) = true) ∧
    match runSocketCall c g with
    | .ok g1 => closedWhileOpen g1 rest
    | .error _ => True

/-- The three sockets are all NULL. -/
def socketsNull (g : Globals) : Prop :=
  g._udp_client_socket = false ∧ g._udp_server_socket = false ∧ g._udp_master_socket = false

/-- The three sockets all exist. -/
def socketsOpen (g : Globals) : Prop :=
  g._udp_client_socket = true ∧ g._udp_server_socket = true ∧ g._udp_master_socket = true

/-! ## The advertisement as a sequence of events -/

/-- A procedure that runs in a thread of its own, with what it has read so
far: `port` is the value of the setting `server_port` once line 482 (line 452
of `NetworkUDPRemoveAdvertiseThread`) has run, `key` the value of
`_session_key` once line 483 has run. -/
structure Running where
  proc : ThreadProc
  port : Option Nat
  key : Option Nat
deriving DecidableEq, Repr

/-- The next statement of a procedure that runs in a thread of its own, with
the globals as they are at that moment: line 482 (452) reads the port, line
483 reads the session key, and lines 485-487 (454-456) send the packet that
was assembled, under the mutex, if the master socket exists. The result is the
procedure afterwards, `none` when it has ended, and the packets sent. -/
def threadStep (M : MasterServerConstants) (g : Globals) (t : Running) :
    Option Running × List (Packet × NetworkAddress) :=
  match t.port with
  | none => (some { t with port := some g.server_port }, [])
  | some port =>
    match t.proc with
    | .NetworkUDPAdvertiseThread =>
      match t.key with
      | none => (some { t with key := some g._session_key }, [])
      | some key =>
        let p := Packet.new .PACKET_UDP_SERVER_REGISTER
        let p := p.Send_string M.NETWORK_MASTER_SERVER_WELCOME_MESSAGE
        let p := p.Send_uint8 M.NETWORK_MASTER_SERVER_VERSION
        let p := p.Send_uint16 port
        let p := p.Send_uint64 key
        (none, if g._udp_master_socket then [(p, M.NETWORK_MASTER_SERVER_HOST)] else [])
    | .NetworkUDPRemoveAdvertiseThread =>
      let p := Packet.new .PACKET_UDP_SERVER_UNREGISTER
      let p := p.Send_uint8 M.NETWORK_MASTER_SERVER_VERSION
      let p := p.Send_uint16 port
      (none, if g._udp_master_socket then [(p, M.NETWORK_MASTER_SERVER_HOST)] else [])

/-- The procedures that `started` lists: those that got a thread of their own
start to run there, having read nothing yet (first component); the others run
in place, in the thread of the caller, with the globals `g` and send their
packets (second component). -/
def dispatchStarted (M : MasterServerConstants) (g : Globals) :
    List Started → List Running × List (Packet × NetworkAddress)
  | [] => ([], [])
  | st :: rest =>
    let r := dispatchStarted M g rest
    if st.in_thread then (⟨st.proc, none, none⟩ :: r.1, r.2)
    else (r.1, runThreadProc M g st.proc ++ r.2)

/-- The globals, and the procedures that run in a thread of their own. The
handlers and the ticks run in the main thread, one after the other; between
two of them, and between two statements of a procedure in a thread, anything
else may happen. -/
structure UDPState where
  g : Globals
  pending : List Running
deriving DecidableEq, Repr

/-- What happens to the advertisement. -/
inductive UDPEvent where
  /-- A SessionKey message arrives whose `Recv_uint64` yields `key`. -/
  | sessionKey (key : Nat)
  /-- An AckRegister message arrives. -/
  | ackRegister (thread_ok : Bool)
  /-- A tick calls `NetworkUDPAdvertise`. -/
  | advertise (thread_ok : Bool)
  /-- A call of `NetworkUDPInitialize` or `NetworkUDPClose`. -/
  | socketCall (c : SocketCall)
  /-- The rest of the program changes global variables: the globals become `e`
  except for `_session_key`, which is static, and the three sockets. -/
  | environment (e : Globals)
  /-- The procedure at position `i` of those that run in a thread of their own
  runs its next statement. -/
  | threadRuns (i : Nat)
deriving DecidableEq, Repr

/-- One event: the state afterwards and the packets sent. -/
def udpStep (M : MasterServerConstants) (s : UDPState) :
    UDPEvent → Except Fault (UDPState × List (Packet × NetworkAddress))
  | .sessionKey key =>
    .ok (⟨(Master_PACKET_UDP_MASTER_SESSION_KEY (fun k : Nat => (k, k)) key s.g).1, s.pending⟩, [])
  | .ackRegister thread_ok =>
    let r := Master_PACKET_UDP_MASTER_ACK_REGISTER thread_ok s.g
    let d := dispatchStarted M r.1 r.2
    .ok (⟨r.1, s.pending ++ d.1⟩, d.2)
  | .advertise thread_ok =>
    let r := NetworkUDPAdvertise thread_ok s.g
    let d := dispatchStarted M r.1 r.2
    .ok (⟨r.1, s.pending ++ d.1⟩, d.2)
  | .socketCall c =>
    match runSocketCall c s.g with
    | .ok g1 => .ok (⟨g1, s.pending⟩, [])
    | .error f => .error f
  | .environment e =>
    .ok (⟨{ e with
        _session_key := s.g._session_key, _udp_client_socket := s.g._udp_client_socket,
        _udp_server_socket := s.g._udp_server_socket,
        _udp_master_socket := s.g._udp_master_socket }, s.pending⟩, [])
  | .threadRuns i =>
    match s.pending.get? i with
    | some t =>
      match threadStep M s.g t with
      | (some t1, sent) => .ok (⟨s.g, s.pending.set i t1⟩, sent)
      | (none, sent) => .ok (⟨s.g, s.pending.eraseIdx i⟩, sent)
    | none => .ok (s, [])

/-- A sequence of events, which ends at the first fault. -/
def udpRun (M : MasterServerConstants) : UDPState → List UDPEvent → Except Fault UDPState
  | s, [] => .ok s
  | s, e :: rest =>
    match udpStep M s e with
    | .ok r => udpRun M r.1 rest
    | .error f => .error f

/-- The 64-bit value of the last SessionKey message when `e` follows events
for which it was `key`. -/
def keyAfter (key : Nat) : UDPEvent → Nat
  | .sessionKey v => v % 2 ^ 64
  | _ => key

/-- The 64-bit value of the last SessionKey message of a sequence of events,
zero when it has none. -/
def lastSessionKey (evs : List UDPEvent) : Nat := evs.foldl keyAfter 0

/-! ## Searching for games (lines 358-439) -/

/-- The constants of the enumeration `ServerListType` (core/udp.h), which is
not part of network_udp.cpp. Its enumerators are not negative. It is a plain
enumeration: a value of it is compared as an `int`, and the conversion of line
293 keeps the value of `Recv_uint8() - 1`, the `-1` of the byte 0 included. -/
structure ListTypeConstants where
  SLT_AUTODETECT : Nat
  SLT_END : Nat
deriving Repr

/-- The procedure `NetworkUDPBroadCast`; `socket` is `true` when the pointer
is not NULL. -/
def NetworkUDPBroadCast (socket : Bool) :
    List NetworkAddress → Except Fault (List (Packet × NetworkAddress))
  | [] => .ok []
  | addr :: rest =>
    if !socket then .error .null_pointer_dereference
    else
      match NetworkUDPBroadCast socket rest with
      | .ok sent => .ok ((Packet.new .PACKET_UDP_CLIENT_FIND_SERVER, addr) :: sent)
      | .error f => .error f

/-- The procedure `NetworkUDPQueryMasterServer`: the packets handed to the
client socket. -/
def NetworkUDPQueryMasterServer (M : MasterServerConstants) (L : ListTypeConstants)
    (g : Globals) : Except Fault (List (Packet × NetworkAddress)) :=
  let p := Packet.new .PACKET_UDP_CLIENT_GET_LIST
  let out_addr := M.NETWORK_MASTER_SERVER_HOST
  let p := p.Send_uint8 M.NETWORK_MASTER_SERVER_VERSION
  let p := p.Send_uint8 L.SLT_AUTODETECT
  if !g._udp_client_socket then .error .null_pointer_dereference
  else .ok [(p, out_addr)]

/-- The procedure `NetworkUDPSearchGame`; `_broadcast_list` is the list of
broadcast addresses of core/host.h. -/
def NetworkUDPSearchGame (_broadcast_list : List NetworkAddress) (g : Globals) :
    Except Fault (Globals × List (Packet × NetworkAddress)) :=
  if g._network_udp_broadcast > 0 then .ok (g, [])
  else
    match NetworkUDPBroadCast g._udp_client_socket _broadcast_list with
    | .ok sent => .ok ({ g with _network_udp_broadcast := 300 }, sent)
    | .error f => .error f

/-- The struct `NetworkUDPQueryServerInfo`: an address and whether the user
entered it. -/
structure NetworkUDPQueryServerInfo where
  address : NetworkAddress
  manually : Bool
deriving DecidableEq, Repr

/-- What `NetworkUDPQueryServerThread` leaves behind. -/
structure QueryServerResult where
  /-- The item handed to `NetworkGameListAddItemDelayed`: its address and its
  `manually`; its names are the strings of the address. -/
  item : NetworkUDPQueryServerInfo
  /-- The packets handed to the client socket. -/
  sent : List (Packet × NetworkAddress)
deriving DecidableEq, Repr

/-- The procedure `NetworkUDPQueryServerThread`. -/
def NetworkUDPQueryServerThread (info : NetworkUDPQueryServerInfo) (g : Globals) :
    QueryServerResult :=
  let p := Packet.new .PACKET_UDP_CLIENT_FIND_SERVER
  ⟨info, if g._udp_client_socket then [(p, info.address)] else []⟩

/-- The procedure `NetworkUDPQueryServer`: `NetworkUDPQueryServerThread` runs
once, in place when the address is resolved or `ThreadObject::New` fails and
in a thread of its own otherwise; either way with the globals `g`. -/
def NetworkUDPQueryServer (is_resolved thread_ok : Bool) (address : NetworkAddress)
    (manually : Bool) (g : Globals) : QueryServerResult × Bool :=
  let info : NetworkUDPQueryServerInfo := ⟨address, manually⟩
  if is_resolved || !thread_ok then (NetworkUDPQueryServerThread info g, false)
  else (NetworkUDPQueryServerThread info g, true)

/-! ## The client receives the list of the master server (lines 285-305) -/

/-- The receive functions that the handler of the master server list uses,
and `HasClientQuit`, which is true once a read went past the end of the
packet. They are not part of network_udp.cpp; the handler takes them as a
parameter. -/
structure ListReader (P : Type) where
  Recv_uint8 : P → Nat × P
  Recv_uint16 : P → Nat × P
  Recv_uint32 : P → Nat × P
  HasClientQuit : P → Bool

/-- The constructor `NetworkAddress(ip, port)` for an address and a port of 16
bits. -/
def addressOfIp (ip port : Nat) : NetworkAddress := ip * 65536 + port % 65536

/-- The test `type < SLT_END` of line 295 for
`type = (ServerListType)(p->Recv_uint8() - 1)`, where `byte` is the value of
`Recv_uint8`: a comparison of integers, in which the `-1` of the byte 0 is
below `SLT_END`. -/
def listTypeBelowEnd (L : ListTypeConstants) (byte : Nat) : Bool :=
  decide (((byte % 256 : Nat) : Int) - 1 < (L.SLT_END : Int))

/-- What the handler of the master server list leaves behind. -/
structure ResponseListResult (P : Type) where
  /-- The received packet with its read position. -/
  p : P
  /-- The calls of `NetworkUDPQueryServer`, in order: the address, and
  `manually`, which is the default `false` of the declaration. -/
  queries : List NetworkUDPQueryServerInfo

/-- The loop of lines 296-303; the first argument is the value of `i`. -/
def responseListLoop {P : Type} (rd : ListReader P) (TO_LE32 : Nat → Nat) :
    Nat → P → ResponseListResult P
  | 0, p => ⟨p, []⟩
  | i + 1, p =>
    let ip := rd.Recv_uint32 p
    let port := rd.Recv_uint16 ip.2
    if rd.HasClientQuit port.2 then ⟨port.2, []⟩
    else
      let r := responseListLoop rd TO_LE32 i port.2
      ⟨r.p, ⟨addressOfIp (TO_LE32 ip.1) port.1, false⟩ :: r.queries⟩

/-- The handler `DEF_UDP_RECEIVE_COMMAND(Client, PACKET_UDP_MASTER_RESPONSE_LIST)`;
`TO_LE32` is the macro of endian_func.hpp. -/
def Client_PACKET_UDP_MASTER_RESPONSE_LIST {P : Type} (L : ListTypeConstants)
    (rd : ListReader P) (TO_LE32 : Nat → Nat) (p : P) : ResponseListResult P :=
  let type := rd.Recv_uint8 p
  if listTypeBelowEnd L type.1 then
    let n := rd.Recv_uint16 type.2
    responseListLoop rd TO_LE32 (n.1 % 65536) n.2
  else ⟨type.2, []⟩

/-- The rounds of the loop of lines 296-303 when it is not left early: for each
round the address and the port read, and whether `HasClientQuit` holds after
reading them, that is, whether the packet ended before the pair was complete. -/
def listRounds {P : Type} (rd : ListReader P) : Nat → P → List ((Nat × Nat) × Bool)
  | 0, _ => []
  | n + 1, p =>
    let ip := rd.Recv_uint32 p
    let port := rd.Recv_uint16 ip.2
    ((ip.1, port.1), rd.HasClientQuit port.2) :: listRounds rd n port.2

/-- The read position after `k` rounds of the loop of lines 296-303. -/
def afterRounds {P : Type} (rd : ListReader P) : Nat → P → P
  | 0, p => p
  | k + 1, p => afterRounds rd k (rd.Recv_uint16 (rd.Recv_uint32 p).2).2

/-- Modelled from the spec: a received packet as the bytes after its header, a
read position, and the flag that `HasClientQuit` returns ("must never panic or
read past the declared bounds"). -/
structure BytePacket where
  buffer : List Nat
  pos : Nat
  has_quit : Bool
deriving DecidableEq, Repr

/-- Modelled from the spec: reading `n` bytes as a number, lowest byte first
("fixed-width integers in a canonical byte order"). When the flag is set or
fewer than `n` bytes are left, the flag is set, zero is read and the position
stays. -/
def BytePacket.recv (n : Nat) (p : BytePacket) : Nat × BytePacket :=
  if p.has_quit || p.pos + n > p.buffer.length then (0, { p with has_quit := true })
  else
    (((p.buffer.drop p.pos).take n).foldr (fun b acc => b % 256 + 256 * acc) 0,
      { p with pos := p.pos + n })

/-- Modelled from the spec: the receive functions of a packet of bytes. -/
def byteReader : ListReader BytePacket where
  Recv_uint8 := BytePacket.recv 1
  Recv_uint16 := BytePacket.recv 2
  Recv_uint32 := BytePacket.recv 4
  HasClientQuit := fun p => p.has_quit

/-! ## The client receives a game (lines 225-283, 340-356) -/

/-- The values of `GRFStatus` (newgrf_config.h). -/
inductive GRFStatus where
  | GCS_UNKNOWN
  | GCS_DISABLED
  | GCS_NOT_FOUND
  | GCS_INITIALISED
  | GCS_ACTIVATED
deriving DecidableEq, Repr

/-- A `GRFConfig` of the content list of a game: the members of `GRFConfig`
above, its `status` and the bit `GCF_COPY` of its `flags`. The `name` is the
string that the pointer points to when the list is read. -/
structure ListedGRFConfig extends GRFConfig where
  status : GRFStatus
  GCF_COPY : Bool
deriving DecidableEq, Repr

/-- The procedure `ClientNetworkUDPSocketHandler::HandleIncomingNetworkGameInfoGRFConfig`:
the table of unknown NewGRFs and the `config` afterwards. The member `info`,
which is copied with the name, is not part of `GRFConfig` here. -/
def HandleIncomingNetworkGameInfoGRFConfig (K : Constants) (all_grfs : List GRFConfig)
    (unknown_grfs : List UnknownGRF) (config : ListedGRFConfig) :
    List UnknownGRF × ListedGRFConfig :=
  match FindGRFConfig all_grfs config.grfid config.md5sum with
  | none =>
    let r := FindUnknownGRFName K unknown_grfs config.grfid config.md5sum true
    (r.1, { config with
      name := match r.2 with
        | some unknown_name => nameAt r.1 unknown_name
        | none => none
      status := .GCS_NOT_FOUND, GCF_COPY := true })
  | some f =>
    (unknown_grfs, { config with filename := f.filename, name := f.name, GCF_COPY := true })

/-- The members of `NetworkGameInfo` that the handler reads or writes. -/
structure NetworkGameInfo where
  hostname : CString
  server_revision : CString
  grfconfig : List ListedGRFConfig
  compatible : Bool
  version_compatible : Bool
deriving DecidableEq, Repr

/-- The members of `NetworkGameList` that the handler reads or writes. -/
structure NetworkGameList where
  info : NetworkGameInfo
  address : NetworkAddress
  online : Bool
deriving DecidableEq, Repr

/-- The local variables of the loop of lines 252-257: `compatible` stands for
`item->info.compatible`, and `in_request` for the first `in_request_count`
entries of the array of that name. -/
structure InRequestState where
  compatible : Bool
  in_request : List ListedGRFConfig
deriving DecidableEq, Repr

/-- The loop of lines 252-257 over the list that starts at `c`. The array
`in_request` has `NETWORK_MAX_GRF_COUNT` entries; `strcmp` reads the name. -/
def inRequestLoop (K : Constants) : List ListedGRFConfig → InRequestState →
    Except Fault InRequestState
  | [], s => .ok s
  | c :: next, s =>
    let s1 : InRequestState :=
      if c.status = .GCS_NOT_FOUND then { s with compatible := false } else s
    if c.status ≠ .GCS_NOT_FOUND then inRequestLoop K next s1
    else
      match c.name with
      | none => .error .null_pointer_dereference
      | some name =>
        if name ≠ K.UNKNOWN_GRF_NAME_PLACEHOLDER then inRequestLoop K next s1
        else if s1.in_request.length < K.NETWORK_MAX_GRF_COUNT then
          inRequestLoop K next { s1 with in_request := s1.in_request ++ [c] }
        else .error .array_index_out_of_bounds

/-- The loop of lines 265-267, which writes the entries of the request. -/
def sendInRequest : List ListedGRFConfig → Packet → Packet
  | [], packet => packet
  | c :: cs, packet => sendInRequest cs (Send_GRFIdentifier packet c.toGRFConfig)

/-- What the handler of a server response leaves behind. -/
structure ServerResponseResult where
  item : NetworkGameList
  /-- The packets handed to `SendPacket`, with their destination. -/
  sent : List (Packet × NetworkAddress)
deriving DecidableEq, Repr

/-- The handler `DEF_UDP_RECEIVE_COMMAND(Client, PACKET_UDP_SERVER_RESPONSE)`
from line 239 on. The argument `item` is the item that
`NetworkGameListAddItem` returned, with the game that `Recv_NetworkGameInfo`
read into it; `sizeof_hostname` is `sizeof(item->info.hostname)` and
`client_hostname` the string of `client_addr->GetHostname()`. The result is
`none` when the handler returns at line 230. -/
def Client_PACKET_UDP_SERVER_RESPONSE (K : Constants)
    (IsNetworkCompatibleVersion : CString → Bool) (sizeof_hostname : Nat)
    (_network_udp_server : Bool) (item : NetworkGameList) (client_hostname : CString) :
    Except Fault (Option ServerResponseResult) :=
  if _network_udp_server then .ok none
  else
    match inRequestLoop K item.info.grfconfig ⟨true, []⟩ with
    | .error f => .error f
    | .ok s =>
      let in_request_count := s.in_request.length
      let sent : List (Packet × NetworkAddress) :=
        if in_request_count > 0 then
          let packet := (Packet.new .PACKET_UDP_CLIENT_GET_NEWGRFS).Send_uint8 (in_request_count % 256)
          [(sendInRequest s.in_request packet, item.address)]
        else []
      let hostname :=
        if StrEmpty item.info.hostname then client_hostname.take (sizeof_hostname - 1)
        else item.info.hostname
      let version_compatible := IsNetworkCompatibleVersion item.info.server_revision
      .ok (some ⟨{ item with
          info := { item.info with
            hostname := hostname, version_compatible := version_compatible,
            compatible := s.compatible && version_compatible }
          online := true }, sent⟩)

/-- The entries of a content list that line 254 lets through: those that are
not found and whose name is the placeholder. -/
def toRequest (K : Constants) (cs : List ListedGRFConfig) : List ListedGRFConfig :=
  cs.filter (fun c => decide (c.status = .GCS_NOT_FOUND ∧
    c.name = some K.UNKNOWN_GRF_NAME_PLACEHOLDER))

/-- A NewGRF that is not found and whose name is the placeholder. -/
def unknownListed (grfid : Nat) : ListedGRFConfig :=
  { grfid := grfid, md5sum := 100 + grfid, filename := [],
    name := some sampleConstants.UNKNOWN_GRF_NAME_PLACEHOLDER,
    status := .GCS_NOT_FOUND, GCF_COPY := true }

/-- A game as received, with the given content list. -/
def sampleItem (cs : List ListedGRFConfig) : NetworkGameList :=
  { info := { hostname := [], server_revision := [49], grfconfig := cs, compatible := false,
              version_compatible := false },
    address := 77, online := false }

/-- Constants of `ServerListType` for the examples: two list types, an
enumeration of 32 bits. -/
def sampleListTypes : ListTypeConstants := ⟨2, 2⟩

/-- The address that line 302 makes of one round of the loop. -/
def queryOfRound (TO_LE32 : Nat → Nat) (r : (Nat × Nat) × Bool) : NetworkUDPQueryServerInfo :=
  ⟨addressOfIp (TO_LE32 r.1.1) r.1.2, false⟩

/-- A list of the master server: type 1, two pairs, the addresses 1.2.3.4 and
7.8.9.10 lowest byte first with the ports 1541 and 3083. -/
def sampleList : BytePacket := ⟨[1, 2, 0, 1, 2, 3, 4, 5, 6, 7, 8, 9, 10, 11, 12], 0, false⟩

/-- The list `sampleList` with the type byte 0. -/
def zeroTypeList : BytePacket := ⟨[0, 2, 0, 1, 2, 3, 4, 5, 6, 7, 8, 9, 10, 11, 12], 0, false⟩

/-- The list `sampleList` with the type byte 3, which is above `SLT_END`. -/
def aboveEndList : BytePacket := ⟨[3, 2, 0, 1, 2, 3, 4, 5, 6, 7, 8, 9, 10, 11, 12], 0, false⟩

/-- The list `sampleList` without its last byte. -/
def cutList : BytePacket := ⟨[1, 2, 0, 1, 2, 3, 4, 5, 6, 7, 8, 9, 10, 11], 0, false⟩

/-- A reply that names the NewGRF 7 four times: with an empty name, with the
placeholder, with `B` and with `C`. -/
def fourNames : List Field :=
  [.uint8 4, .uint32 7, .md5sum 107, .string [],
    .uint32 7, .md5sum 107, .string sampleConstants.UNKNOWN_GRF_NAME_PLACEHOLDER,
    .uint32 7, .md5sum 107, .string [66], .uint32 7, .md5sum 107, .string [67]]

/-- A NewGRF of a content list that the registry knows. -/
def foundListed : ListedGRFConfig :=
  { grfid := 7, md5sum := 107, filename := [55, 46, 103, 114, 102],
    name := some [83, 101, 118, 101, 110], status := .GCS_UNKNOWN, GCF_COPY := true }

theorem getNewGRFsLoop_in_reply {P : Type} (K : Constants) (rd : PacketReader P)
    (all_grfs : List GRFConfig) (n : Nat) (s : GetNewGRFsState P) :
    (getNewGRFsLoop K rd all_grfs n s).in_reply =
      s.in_reply ++ fitting K (matchedConfigs all_grfs (requestedIds rd n s.p)) s.packet_len := by
  induction n generalizing s with
  | zero => simp [getNewGRFsLoop, requestedIds, matchedConfigs, fitting]
  | succ n ih =>
    rw [getNewGRFsLoop]
    simp only [requestedIds, matchedConfigs, List.filterMap_cons]
    cases hf : FindGRFConfig all_grfs (rd.Recv_GRFIdentifier s.p).1.grfid
        (rd.Recv_GRFIdentifier s.p).1.md5sum with
    | none => simp only [ih, matchedConfigs]
    | some f =>
      simp only [fitting, entryLen]
      split
      · simp
      · simp only [ih, matchedConfigs, List.append_assoc, List.singleton_append]

theorem fitting_isInitial (K : Constants) (fs : List GRFConfig) (len : Nat) :
    fitting K fs len <+: fs := by
  induction fs generalizing len with
  | nil => simp [fitting]
  | cons f fs ih =>
    rw [fitting]
    split
    · exact List.nil_prefix
    · exact (List.prefix_cons_inj f).mpr (ih _)

theorem fitting_len (K : Constants) (fs : List GRFConfig) (len : Nat)
    (h : len ≤ K.SEND_MTU - 4) : len + entriesLen K (fitting K fs len) ≤ K.SEND_MTU - 4 := by
  induction fs generalizing len with
  | nil => simpa [fitting, entriesLen] using h
  | cons f fs ih =>
    rw [fitting]
    split
    · simpa [entriesLen] using h
    · have := ih (len + entryLen K f) (by omega)
      simp only [entriesLen, List.map_cons, List.sum_cons] at this ⊢
      omega

theorem fitting_longest (K : Constants) (fs q : List GRFConfig) (len : Nat)
    (hq : q <+: fs) (h : len + entriesLen K q ≤ K.SEND_MTU - 4) : q <+: fitting K fs len := by
  induction fs generalizing len q with
  | nil =>
    have : q = [] := List.prefix_nil.mp hq
    subst this
    exact List.nil_prefix
  | cons f fs ih =>
    cases q with
    | nil => exact List.nil_prefix
    | cons g q =>
      obtain ⟨hg, hq'⟩ := List.cons_prefix_cons.mp hq
      subst hg
      simp only [entriesLen, List.map_cons, List.sum_cons] at h
      rw [fitting, if_neg (by omega)]
      exact (List.prefix_cons_inj g).mpr (ih q _ hq' (by simp only [entriesLen]; omega))

theorem sendNewGRFs_fields (K : Constants) (fs : List GRFConfig) (packet : Packet) :
    (sendNewGRFs K fs packet).type = packet.type ∧
    (sendNewGRFs K fs packet).fields = packet.fields ++ (fs.map (entryFields K)).flatten := by
  induction fs generalizing packet with
  | nil => simp [sendNewGRFs]
  | cons f fs ih =>
    rw [sendNewGRFs]
    simp [ih, Send_GRFIdentifier, Packet.Send_string, entryFields]

theorem entryFields_size (K : Constants) (h : 1 ≤ K.NETWORK_GRF_NAME_LENGTH) (f : GRFConfig) :
    ((entryFields K f).map Field.size).sum = entryLen K f := by
  simp only [entryFields, entryLen, Field.size, strecpy, strlen, sizeof_grfid, sizeof_md5sum,
    List.map_cons, List.map_nil, List.sum_cons, List.sum_nil, List.length_take]
  omega

theorem entries_size (K : Constants) (h : 1 ≤ K.NETWORK_GRF_NAME_LENGTH) (fs : List GRFConfig) :
    (((fs.map (entryFields K)).flatten).map Field.size).sum = entriesLen K fs := by
  induction fs with
  | nil => simp [entriesLen]
  | cons f fs ih =>
    simp only [List.map_cons, List.flatten_cons, List.map_append, List.sum_append, ih,
      entryFields_size K h, entriesLen, List.sum_cons]

/-- The handler in terms of `inReply`: nothing is sent for an oversized count
or an empty `in_reply`, otherwise one packet with the count and the entries. -/
theorem server_sent {P : Type} (K : Constants) (rd : PacketReader P) (all_grfs : List GRFConfig)
    (p : P) (client_addr : NetworkAddress) :
    (Server_PACKET_UDP_CLIENT_GET_NEWGRFS K rd all_grfs p client_addr).sent =
      if (rd.Recv_uint8 p).1 % 256 > K.NETWORK_MAX_GRF_COUNT then []
      else if inReply K rd all_grfs p = [] then []
      else [(⟨.PACKET_UDP_SERVER_NEWGRFS, Field.uint8 (inReply K rd all_grfs p).length ::
          ((inReply K rd all_grfs p).map (entryFields K)).flatten⟩, client_addr)] := by
  unfold Server_PACKET_UDP_CLIENT_GET_NEWGRFS inReply
  simp only []
  split
  · rfl
  · split
    · rename_i h; rw [if_pos (List.length_eq_zero.mp h)]
    · rename_i h
      rw [if_neg (fun h2 => h (by rw [h2]; rfl))]
      have := sendNewGRFs_fields K
        (getNewGRFsLoop K rd all_grfs ((rd.Recv_uint8 p).1 % 256) ⟨(rd.Recv_uint8 p).2, [], 0, []⟩).in_reply
        ((Packet.new .PACKET_UDP_SERVER_NEWGRFS).Send_uint8
          (getNewGRFsLoop K rd all_grfs ((rd.Recv_uint8 p).1 % 256) ⟨(rd.Recv_uint8 p).2, [], 0, []⟩).in_reply.length)
      cases hp : sendNewGRFs K _ _ with
      | mk t fl =>
        rw [hp] at this
        simp only [Packet.new, Packet.Send_uint8, List.nil_append, List.singleton_append] at this
        rw [this.1, this.2]

theorem inReply_eq {P : Type} (K : Constants) (rd : PacketReader P) (all_grfs : List GRFConfig)
    (p : P) :
    inReply K rd all_grfs p = fitting K (matchedConfigs all_grfs
      (requestedIds rd ((rd.Recv_uint8 p).1 % 256) (rd.Recv_uint8 p).2)) 0 := by
  simp [inReply, getNewGRFsLoop_in_reply]

theorem FindGRFConfig_some {all_grfs : List GRFConfig} {grfid md5sum : Nat} {f : GRFConfig}
    (h : FindGRFConfig all_grfs grfid md5sum = some f) :
    f ∈ all_grfs ∧ f.grfid = grfid ∧ f.md5sum = md5sum := by
  unfold FindGRFConfig at h
  have h1 := List.find?_some h
  have h2 := List.mem_of_find?_eq_some h
  simp only [decide_eq_true_eq] at h1
  exact ⟨h2, h1.1, h1.2⟩

theorem matchedConfigs_ident (all_grfs : List GRFConfig) (ids : List GRFIdentifier) :
    (matchedConfigs all_grfs ids).map GRFConfig.ident =
      ids.filter (fun c => (FindGRFConfig all_grfs c.grfid c.md5sum).isSome) := by
  induction ids with
  | nil => simp [matchedConfigs]
  | cons c cs ih =>
    unfold matchedConfigs at ih ⊢
    cases hf : FindGRFConfig all_grfs c.grfid c.md5sum with
    | none => simp [List.filterMap_cons, hf, ih]
    | some f =>
      obtain ⟨-, hg, hm⟩ := FindGRFConfig_some hf
      have hc : f.ident = c := by
        cases c; simp only [GRFConfig.ident] at *; simp [hg, hm]
      simp [List.filterMap_cons, hf, ih, hc]

theorem matchedConfigs_found (all_grfs : List GRFConfig) (ids : List GRFIdentifier)
    (f : GRFConfig) (h : f ∈ matchedConfigs all_grfs ids) :
    f ∈ all_grfs ∧ f.ident ∈ ids ∧ FindGRFConfig all_grfs f.grfid f.md5sum = some f := by
  unfold matchedConfigs at h
  obtain ⟨c, hc, hf⟩ := List.mem_filterMap.mp h
  obtain ⟨hmem, hg, hm⟩ := FindGRFConfig_some hf
  refine ⟨hmem, ?_, by rw [hg, hm]; exact hf⟩
  have : f.ident = c := by
    cases c; simp only [GRFConfig.ident] at *; simp [hg, hm]
  rw [this]; exact hc

theorem requestedIds_length {P : Type} (rd : PacketReader P) (n : Nat) (p : P) :
    (requestedIds rd n p).length = n := by
  induction n generalizing p with
  | zero => rfl
  | succ n ih => simp [requestedIds, ih]

theorem matchedConfigs_length_le (all_grfs : List GRFConfig) (ids : List GRFIdentifier) :
    (matchedConfigs all_grfs ids).length ≤ ids.length :=
  List.length_filterMap_le _ _

theorem entriesLen_eq_sent_bytes (K : Constants) (h : 1 ≤ K.NETWORK_GRF_NAME_LENGTH)
    (fs : List GRFConfig) :
    (fs.map (fun f => 4 + 16 + (strlen (strecpy f.replyName K.NETWORK_GRF_NAME_LENGTH) + 1))).sum =
      entriesLen K fs := by
  induction fs with
  | nil => simp [entriesLen]
  | cons f fs ih =>
    simp only [List.map_cons, List.sum_cons]
    rw [ih]
    simp only [entriesLen, List.map_cons, List.sum_cons, entryLen, sizeof_grfid, sizeof_md5sum,
      strecpy, strlen, List.length_take]
    omega

/-- The entries of the reply as a list of registry entries: `in_reply`, or
nothing when the count is refused. -/
theorem server_sent_entries {P : Type} (K : Constants) (rd : PacketReader P)
    (all_grfs : List GRFConfig) (p : P) (client_addr : NetworkAddress) :
    ∃ entries : List GRFConfig,
      (entries = [] ∨ ((rd.Recv_uint8 p).1 % 256 ≤ K.NETWORK_MAX_GRF_COUNT ∧
        entries = inReply K rd all_grfs p)) ∧
      ((rd.Recv_uint8 p).1 % 256 ≤ K.NETWORK_MAX_GRF_COUNT → entries = inReply K rd all_grfs p) ∧
      (Server_PACKET_UDP_CLIENT_GET_NEWGRFS K rd all_grfs p client_addr).sent =
        if entries = [] then []
        else [(⟨.PACKET_UDP_SERVER_NEWGRFS, Field.uint8 entries.length ::
          (entries.map (entryFields K)).flatten⟩, client_addr)] := by
  rw [server_sent]
  by_cases hc : (rd.Recv_uint8 p).1 % 256 > K.NETWORK_MAX_GRF_COUNT
  · exact ⟨[], Or.inl rfl, fun h => absurd hc (by omega), by simp [hc]⟩
  · exact ⟨inReply K rd all_grfs p, Or.inr ⟨by omega, rfl⟩, fun _ => rfl, by simp [hc]⟩

/-! ## Lemmas on the reply handler of the client -/

theorem FindUnknownGRFName_find (K : Constants) (t : List UnknownGRF) (grfid md5sum : Nat) :
    FindUnknownGRFName K t grfid md5sum false = (t, findUnknownGRF t grfid md5sum) := by
  unfold FindUnknownGRFName
  cases findUnknownGRF t grfid md5sum <;> simp

theorem clientNewGRFsLoop_table {P : Type} (K : Constants) (rd : PacketReader P) (n : Nat) (p : P)
    (t : List UnknownGRF) :
    (clientNewGRFsLoop K rd n p t).2 = (replyEntries K rd n p).foldl (resolveOne K) t := by
  induction n generalizing p t with
  | zero => rfl
  | succ n ih =>
    rw [clientNewGRFsLoop]
    simp only [replyEntries, List.foldl_cons, resolveOne, FindUnknownGRFName_find]
    by_cases hs : StrEmpty (rd.Recv_string K.NETWORK_GRF_NAME_LENGTH (rd.Recv_GRFIdentifier p).2).1 = true
    · simp only [hs, if_true]
      exact ih _ _
    · simp only [hs, if_false]
      cases findUnknownGRF t (rd.Recv_GRFIdentifier p).1.grfid (rd.Recv_GRFIdentifier p).1.md5sum with
      | none => exact ih _ _
      | some i =>
        simp only []
        by_cases hn : nameAt t i = some K.UNKNOWN_GRF_NAME_PLACEHOLDER
        · simp only [hn, if_true]
          exact ih _ _
        · simp only [hn, if_false]
          exact ih _ _

theorem resolveOne_cons (K : Constants) (u : UnknownGRF) (us : List UnknownGRF)
    (e : GRFIdentifier × CString) :
    resolveOne K (u :: us) e =
      if StrEmpty e.2 then u :: us
      else if u.grfid = e.1.grfid ∧ u.md5sum = e.1.md5sum then
        (if u.name = K.UNKNOWN_GRF_NAME_PLACEHOLDER then
          { u with name := ttd_strlcpy e.2 K.NETWORK_GRF_NAME_LENGTH } :: us
         else u :: us)
      else u :: resolveOne K us e := by
  unfold resolveOne
  by_cases hs : StrEmpty e.2 = true
  · simp [hs]
  · simp only [hs, if_false, findUnknownGRF]
    by_cases hk : u.grfid = e.1.grfid ∧ u.md5sum = e.1.md5sum
    · simp [hk, nameAt, writeName]
    · simp only [hk, if_false]
      cases findUnknownGRF us e.1.grfid e.1.md5sum with
      | none => simp
      | some i =>
        simp only [Option.map_some', nameAt, List.get?_cons_succ, writeName]
        split_ifs <;> rfl

theorem nameKept_refl (K : Constants) (S : List GRFIdentifier) (t : List UnknownGRF) :
    List.Forall₂ (NameKept K S) t t := by
  induction t with
  | nil => exact List.Forall₂.nil
  | cons u us ih => exact List.Forall₂.cons ⟨rfl, rfl, fun _ => rfl, fun _ => rfl⟩ ih

theorem nameKept_resolveOne (K : Constants) (t : List UnknownGRF) (e : GRFIdentifier × CString) :
    List.Forall₂ (NameKept K [e.1]) t (resolveOne K t e) := by
  induction t with
  | nil =>
    unfold resolveOne
    split
    · exact List.Forall₂.nil
    · simp only [findUnknownGRF]; exact List.Forall₂.nil
  | cons u us ih =>
    rw [resolveOne_cons]
    split
    · exact nameKept_refl K _ _
    · split
      · rename_i hk
        split
        · rename_i hn
          refine List.Forall₂.cons ⟨rfl, rfl, fun h => absurd hn h, fun h => ?_⟩
            (nameKept_refl K _ _)
          exfalso
          apply h
          simp only [UnknownGRF.ident, List.mem_singleton, hk.1, hk.2]
        · exact nameKept_refl K _ _
      · exact List.Forall₂.cons ⟨rfl, rfl, fun _ => rfl, fun _ => rfl⟩ ih

theorem nameKept_step (K : Constants) (c : GRFIdentifier) (S : List GRFIdentifier)
    (t t1 t2 : List UnknownGRF) (h1 : List.Forall₂ (NameKept K [c]) t t1)
    (h2 : List.Forall₂ (NameKept K S) t1 t2) : List.Forall₂ (NameKept K (c :: S)) t t2 := by
  induction h1 generalizing t2 with
  | nil => cases h2; exact List.Forall₂.nil
  | @cons u v us vs hab _ ih =>
    cases h2 with
    | @cons _ w _ ws hbc h2 =>
      refine List.Forall₂.cons ?_ (ih _ h2)
      obtain ⟨hg, hm, hn, hs⟩ := hab
      obtain ⟨hg2, hm2, hn2, hs2⟩ := hbc
      refine ⟨hg2.trans hg, hm2.trans hm, fun h => ?_, fun h => ?_⟩
      · have e1 := hn h
        rw [hn2 (by rw [e1]; exact h), e1]
      · have hc : u.ident ≠ c ∧ u.ident ∉ S := by
          simpa [List.mem_cons, not_or] using h
        have e1 := hs (by simpa [List.mem_singleton] using hc.1)
        have hid : v.ident = u.ident := congrArg₂ GRFIdentifier.mk hg hm
        rw [hs2 (by rw [hid]; exact hc.2), e1]

theorem nameKept_foldl (K : Constants) (es : List (GRFIdentifier × CString))
    (t : List UnknownGRF) :
    List.Forall₂ (NameKept K (es.map Prod.fst)) t (es.foldl (resolveOne K) t) := by
  induction es generalizing t with
  | nil => exact nameKept_refl K _ _
  | cons e es ih =>
    simp only [List.map_cons, List.foldl_cons]
    exact nameKept_step K e.1 _ t _ _ (nameKept_resolveOne K t e) (ih _)

theorem storedName_cons (u : UnknownGRF) (us : List UnknownGRF) (grfid md5sum : Nat) :
    storedName (u :: us) grfid md5sum =
      if u.grfid = grfid ∧ u.md5sum = md5sum then some u.name else storedName us grfid md5sum := by
  unfold storedName
  simp only [findUnknownGRF]
  by_cases hk : u.grfid = grfid ∧ u.md5sum = md5sum
  · simp [hk, nameAt]
  · simp only [hk, if_false]
    cases findUnknownGRF us grfid md5sum <;> simp [nameAt]

theorem storedName_kept (K : Constants) (S : List GRFIdentifier) (t t2 : List UnknownGRF)
    (h : List.Forall₂ (NameKept K S) t t2) (grfid md5sum : Nat) :
    (storedName t grfid md5sum ≠ some K.UNKNOWN_GRF_NAME_PLACEHOLDER →
      storedName t2 grfid md5sum = storedName t grfid md5sum) ∧
    (⟨grfid, md5sum⟩ ∉ S → storedName t2 grfid md5sum = storedName t grfid md5sum) := by
  induction h with
  | nil => exact ⟨fun _ => rfl, fun _ => rfl⟩
  | @cons u v us vs huv _ ih =>
    obtain ⟨hg, hm, hn, hs⟩ := huv
    rw [storedName_cons, storedName_cons, hg, hm]
    by_cases hk : u.grfid = grfid ∧ u.md5sum = md5sum
    · simp only [hk, and_self, if_true]
      refine ⟨fun h => ?_, fun h => ?_⟩
      · rw [hn (fun h2 => h (by rw [h2]))]
      · rw [hs (by simpa [UnknownGRF.ident, hk.1, hk.2] using h)]
    · simp only [hk, if_false]
      exact ih

theorem client_table {P : Type} (K : Constants) (rd : PacketReader P) (t : List UnknownGRF)
    (p : P) :
    List.Forall₂ (NameKept K ((replyEntries K rd ((rd.Recv_uint8 p).1 % 256)
      (rd.Recv_uint8 p).2).map Prod.fst)) t (Client_PACKET_UDP_SERVER_NEWGRFS K rd t p).unknown_grfs := by
  unfold Client_PACKET_UDP_SERVER_NEWGRFS
  simp only []
  split
  · exact nameKept_refl K _ _
  · simp only [clientNewGRFsLoop_table]
    exact nameKept_foldl K _ _

/-! ## Lemmas on the advertisement -/

/-- One tick: the retries do not grow unless the tick reloads them, which it
does only when it finds the request flag set or no retries left. As long as
the sum of line 504 does not wrap, a tick that finds no retries left reloads
only when the normal interval has elapsed, and a reloading tick leaves
`ADVERTISE_RETRY_TIMES - 1`. -/
theorem advertise_retries_step (thread_ok : Bool) (g : Globals) :
    ((NetworkUDPAdvertise thread_ok g).1._network_advertise_retries ≤
        g._network_advertise_retries ∨
      ((g._network_need_advertise = true ∨ g._network_advertise_retries = 0) ∧
        ADVERTISE_RETRY_TIMES - 1 ≤ (NetworkUDPAdvertise thread_ok g).1._network_advertise_retries ∧
        (NetworkUDPAdvertise thread_ok g).1._network_advertise_retries ≤ ADVERTISE_RETRY_TIMES)) ∧
    (g._network_last_advertise_frame + ADVERTISE_NORMAL_INTERVAL < 2 ^ 32 →
      (NetworkUDPAdvertise thread_ok g).1._network_advertise_retries ≤
        g._network_advertise_retries ∨
      ((g._network_need_advertise = true ∨ (g._network_advertise_retries = 0 ∧
          g._network_last_advertise_frame + ADVERTISE_NORMAL_INTERVAL ≤ g._frame_counter)) ∧
        (NetworkUDPAdvertise thread_ok g).1._network_advertise_retries =
          ADVERTISE_RETRY_TIMES - 1)) := by
  unfold NetworkUDPAdvertise advertiseRetry advertiseAttempt
  simp only [ADVERTISE_NORMAL_INTERVAL, ADVERTISE_RETRY_INTERVAL, ADVERTISE_RETRY_TIMES]
  split_ifs with h1 h2 h3 h4 h5 h6
  · exact ⟨Or.inl (Nat.le_refl _), fun _ => Or.inl (Nat.le_refl _)⟩
  · exact ⟨Or.inr ⟨Or.inl h2, by norm_num, by norm_num⟩, fun _ => Or.inr ⟨Or.inl h2, by norm_num⟩⟩
  · exact ⟨Or.inl (Nat.le_refl _), fun _ => Or.inl (Nat.le_refl _)⟩
  · refine ⟨Or.inr ⟨Or.inr h3, by norm_num, by norm_num⟩, fun hw => ?_⟩
    exfalso
    omega
  · refine ⟨Or.inr ⟨Or.inr h3, by norm_num, by norm_num⟩, fun hw => Or.inr ⟨Or.inr ⟨h3, ?_⟩, by norm_num⟩⟩
    omega
  · exact ⟨Or.inl (Nat.le_refl _), fun _ => Or.inl (Nat.le_refl _)⟩
  · have hle : (g._network_advertise_retries + 255) % 2 ^ 8 ≤ g._network_advertise_retries := by
      omega
    exact ⟨Or.inl hle, fun _ => Or.inl hle⟩

/-- The decrement of line 513 is only applied to a counter of at least 1:
a call of `NetworkUDPAdvertise` changes nothing, or reloads the retries and
returns at line 510, or is the attempt of lines 513-518 made with a counter
between 1 and `ADVERTISE_RETRY_TIMES`. -/
theorem advertise_decrement_positive (thread_ok : Bool) (g : Globals)
    (hbound : g._network_advertise_retries ≤ ADVERTISE_RETRY_TIMES) :
    NetworkUDPAdvertise thread_ok g = (g, []) ∨
    NetworkUDPAdvertise thread_ok g =
      ({ g with _network_advertise_retries := ADVERTISE_RETRY_TIMES }, []) ∨
    ∃ g1 : Globals, 1 ≤ g1._network_advertise_retries ∧
      g1._network_advertise_retries ≤ ADVERTISE_RETRY_TIMES ∧
      NetworkUDPAdvertise thread_ok g = advertiseAttempt thread_ok g1 := by
  unfold NetworkUDPAdvertise advertiseRetry
  simp only [ADVERTISE_NORMAL_INTERVAL, ADVERTISE_RETRY_INTERVAL]
  split_ifs with h1 h2 h3 h4 h5 h6
  · exact Or.inl rfl
  · exact Or.inr (Or.inr ⟨_, by simp [ADVERTISE_RETRY_TIMES], Nat.le_refl _, rfl⟩)
  · exact Or.inl rfl
  · exact Or.inr (Or.inl rfl)
  · exact Or.inr (Or.inr ⟨_, by simp [ADVERTISE_RETRY_TIMES], Nat.le_refl _, rfl⟩)
  · exact Or.inl rfl
  · exact Or.inr (Or.inr ⟨g, by omega, hbound, rfl⟩)

/-- On an advertising server with no request pending and retries left, a tick
is the test of line 509 and the attempt. -/
theorem advertise_with_retries (thread_ok : Bool) (g : Globals)
    (hnet : g._networking = true) (hserver : g._network_server = true)
    (hudp : g._network_udp_server = true) (hadv : g.server_advertise = true)
    (hneed : g._network_need_advertise = false) (hretries : 0 < g._network_advertise_retries) :
    NetworkUDPAdvertise thread_ok g =
      if (g._network_last_advertise_frame + ADVERTISE_RETRY_INTERVAL) % 2 ^ 32 > g._frame_counter
      then (g, [])
      else ({ g with
          _network_advertise_retries := (g._network_advertise_retries + 255) % 2 ^ 8
          _network_last_advertise_frame := g._frame_counter },
        [⟨.NetworkUDPAdvertiseThread, thread_ok⟩]) := by
  have hne : g._network_advertise_retries ≠ 0 := by omega
  unfold NetworkUDPAdvertise advertiseRetry advertiseAttempt startThread
  simp only [hnet, hserver, hudp, hadv, hneed, hne]
  cases thread_ok <;> simp

/-- The procedure `NetworkUDPAdvertiseThread` hands one Register packet to the
master socket when that exists. -/
theorem advertiseThread_packet (M : MasterServerConstants) (g : Globals)
    (hs : g._udp_master_socket = true) :
    NetworkUDPAdvertiseThread M g =
      [(⟨.PACKET_UDP_SERVER_REGISTER,
        [.string M.NETWORK_MASTER_SERVER_WELCOME_MESSAGE,
          .uint8 M.NETWORK_MASTER_SERVER_VERSION, .uint16 g.server_port,
          .uint64 g._session_key]⟩, M.NETWORK_MASTER_SERVER_HOST)] := by
  simp [NetworkUDPAdvertiseThread, hs, Packet.new, Packet.Send_string, Packet.Send_uint8,
    Packet.Send_uint16, Packet.Send_uint64]

/-! ## Lemmas on the sockets -/

theorem initialize_of_all_or_none (g : Globals) (h : socketsNull g ∨ socketsOpen g) :
    ∃ g1, NetworkUDPInitialize g = .ok g1 ∧ socketsOpen g1 ∧ g1._network_udp_server = false ∧
      g1._network_udp_broadcast = 0 := by
  have e : NetworkUDPInitialize g = .ok { g with
      _udp_client_socket := true, _udp_server_socket := true, _udp_master_socket := true,
      _network_udp_server := false, _network_udp_broadcast := 0 } := by
    rcases h with ⟨hc, hs, hm⟩ | ⟨hc, hs, hm⟩
    · simp [NetworkUDPInitialize, createSockets, hc, hs, hm]
    · simp [NetworkUDPInitialize, NetworkUDPClose, createSockets, hc, hs, hm]
  exact ⟨_, e, ⟨rfl, rfl, rfl⟩, rfl, rfl⟩

theorem close_of_open (g : Globals) (h : socketsOpen g) :
    ∃ g1, NetworkUDPClose g = .ok g1 ∧ socketsNull g1 ∧ g1._network_udp_server = false ∧
      g1._network_udp_broadcast = 0 := by
  obtain ⟨hc, hs, hm⟩ := h
  have e : NetworkUDPClose g = .ok { g with
      _udp_client_socket := false, _udp_server_socket := false, _udp_master_socket := false,
      _network_udp_server := false, _network_udp_broadcast := 0 } := by
    simp [NetworkUDPClose, hc, hs, hm]
  exact ⟨_, e, ⟨rfl, rfl, rfl⟩, rfl, rfl⟩

theorem open_of_some_socket (g : Globals) (h : socketsNull g ∨ socketsOpen g)
    (hsome : (g._udp_client_socket || g._udp_server_socket || g._udp_master_socket) = true) :
    socketsOpen g := by
  rcases h with ⟨hc, hs, hm⟩ | h
  · simp [hc, hs, hm] at hsome
  · exact h

theorem runSocketCalls_all_or_none (g : Globals) (calls : List SocketCall)
    (h : socketsNull g ∨ socketsOpen g) (hc : closedWhileOpen g calls) :
    ∃ g1, runSocketCalls g calls = .ok g1 ∧ (socketsNull g1 ∨ socketsOpen g1) := by
  induction calls generalizing g with
  | nil => exact ⟨g, rfl, h⟩
  | cons c rest ih =>
    obtain ⟨hopen, hrest⟩ := hc
    cases c with
    | NetworkUDPInitialize =>
      obtain ⟨g1, hg1, ho, -, -⟩ := initialize_of_all_or_none g h
      simp only [runSocketCall, hg1] at hrest
      obtain ⟨g2, hg2, hinv⟩ := ih g1 (Or.inr ho) hrest
      exact ⟨g2, by simp only [runSocketCalls, runSocketCall, hg1, hg2], hinv⟩
    | NetworkUDPClose =>
      obtain ⟨g1, hg1, hn, -, -⟩ := close_of_open g (open_of_some_socket g h (hopen rfl))
      simp only [runSocketCall, hg1] at hrest
      obtain ⟨g2, hg2, hinv⟩ := ih g1 (Or.inl hn) hrest
      exact ⟨g2, by simp only [runSocketCalls, runSocketCall, hg1, hg2], hinv⟩

/-! ## Lemmas on the session key -/

theorem advertise_session_key (thread_ok : Bool) (g : Globals) :
    (NetworkUDPAdvertise thread_ok g).1._session_key = g._session_key := by
  unfold NetworkUDPAdvertise advertiseRetry advertiseAttempt
  split_ifs <;> rfl

theorem ack_register_session_key (thread_ok : Bool) (g : Globals) :
    (Master_PACKET_UDP_MASTER_ACK_REGISTER thread_ok g).1._session_key = g._session_key := by
  unfold Master_PACKET_UDP_MASTER_ACK_REGISTER NetworkUDPRemoveAdvertise
  simp only []
  split_ifs <;> rfl

theorem socketCall_session_key (c : SocketCall) (g g1 : Globals) (h : runSocketCall c g = .ok g1) :
    g1._session_key = g._session_key := by
  cases c <;>
  simp only [runSocketCall, NetworkUDPInitialize, NetworkUDPClose, createSockets] at h <;>
  cases hs : g._udp_server_socket <;> cases hm : g._udp_master_socket <;>
  cases hc : g._udp_client_socket <;>
  simp [hs, hm, hc] at h <;>
  (subst h; rfl)

/-- The session key after one event. -/
theorem udpStep_session_key (M : MasterServerConstants) (s : UDPState) (e : UDPEvent)
    (r : UDPState × List (Packet × NetworkAddress)) (h : udpStep M s e = .ok r) :
    r.1.g._session_key = keyAfter s.g._session_key e := by
  cases e with
  | sessionKey key =>
    simp only [udpStep, Except.ok.injEq] at h
    rw [← h]; rfl
  | ackRegister thread_ok =>
    simp only [udpStep, Except.ok.injEq] at h
    rw [← h]; exact ack_register_session_key thread_ok s.g
  | advertise thread_ok =>
    simp only [udpStep, Except.ok.injEq] at h
    rw [← h]; exact advertise_session_key thread_ok s.g
  | socketCall c =>
    simp only [udpStep] at h
    cases hc : runSocketCall c s.g with
    | error f => rw [hc] at h; exact Except.noConfusion h
    | ok g1 =>
      rw [hc] at h
      simp only [Except.ok.injEq] at h
      rw [← h]; exact socketCall_session_key c s.g g1 hc
  | environment e =>
    simp only [udpStep, Except.ok.injEq] at h
    rw [← h]; rfl
  | threadRuns i =>
    simp only [udpStep] at h
    cases hp : s.pending.get? i with
    | none => rw [hp] at h; simp only [Except.ok.injEq] at h; rw [← h]; rfl
    | some t =>
      rw [hp] at h
      simp only [] at h
      rcases hts : threadStep M s.g t with ⟨_ | t1, sent⟩
      · rw [hts] at h; simp only [Except.ok.injEq] at h; rw [← h]; rfl
      · rw [hts] at h; simp only [Except.ok.injEq] at h; rw [← h]; rfl

theorem udpRun_session_key (M : MasterServerConstants) (evs : List UDPEvent) (s s1 : UDPState)
    (h : udpRun M s evs = .ok s1) :
    s1.g._session_key = evs.foldl keyAfter s.g._session_key := by
  induction evs generalizing s with
  | nil =>
    simp only [udpRun, Except.ok.injEq] at h
    rw [← h]; rfl
  | cons e rest ih =>
    simp only [udpRun] at h
    cases hs : udpStep M s e with
    | error f => rw [hs] at h; exact Except.noConfusion h
    | ok r =>
      rw [hs] at h
      have h1 := ih r.1 h
      have h2 := udpStep_session_key M s e r hs
      rw [h1, List.foldl_cons, h2]

/-- A run of events followed by one more event. -/
theorem udpRun_snoc (M : MasterServerConstants) (evs : List UDPEvent) (e : UDPEvent)
    (s s2 : UDPState) (h : udpRun M s (evs ++ [e]) = .ok s2) :
    ∃ s1 r, udpRun M s evs = .ok s1 ∧ udpStep M s1 e = .ok r ∧ r.1 = s2 := by
  induction evs generalizing s with
  | nil =>
    simp only [List.nil_append, udpRun] at h
    cases hs : udpStep M s e with
    | error f => rw [hs] at h; exact Except.noConfusion h
    | ok r =>
      rw [hs] at h
      simp only [Except.ok.injEq] at h
      exact ⟨s, r, rfl, hs, h⟩
  | cons e1 rest ih =>
    simp only [List.cons_append, udpRun] at h ⊢
    cases hs : udpStep M s e1 with
    | error f => rw [hs] at h; exact Except.noConfusion h
    | ok r1 =>
      rw [hs] at h
      exact ih r1.1 h

/-- A Register packet that a procedure sends when it runs in place carries
the welcome message, the version, the server port and the session key of the
globals with which the procedure runs. -/
theorem runThreadProc_register (M : MasterServerConstants) (g : Globals) (proc : ThreadProc)
    (x : Packet × NetworkAddress) (hx : x ∈ runThreadProc M g proc)
    (ht : x.1.type = .PACKET_UDP_SERVER_REGISTER) :
    x.1.fields = [.string M.NETWORK_MASTER_SERVER_WELCOME_MESSAGE,
      .uint8 M.NETWORK_MASTER_SERVER_VERSION, .uint16 g.server_port, .uint64 g._session_key] ∧
    x.2 = M.NETWORK_MASTER_SERVER_HOST := by
  cases proc with
  | NetworkUDPAdvertiseThread =>
    simp only [runThreadProc, NetworkUDPAdvertiseThread] at hx
    split_ifs at hx
    · rw [List.mem_singleton] at hx
      rw [hx]
      simp [Packet.new, Packet.Send_string, Packet.Send_uint8, Packet.Send_uint16,
        Packet.Send_uint64]
    · exact absurd hx (List.not_mem_nil x)
  | NetworkUDPRemoveAdvertiseThread =>
    simp only [runThreadProc, NetworkUDPRemoveAdvertiseThread] at hx
    split_ifs at hx
    · rw [List.mem_singleton] at hx
      rw [hx] at ht
      simp [Packet.new, Packet.Send_uint8, Packet.Send_uint16] at ht
    · exact absurd hx (List.not_mem_nil x)

theorem dispatchStarted_mem (M : MasterServerConstants) (g : Globals) (started : List Started)
    (x : Packet × NetworkAddress) (hx : x ∈ (dispatchStarted M g started).2) :
    ∃ proc, x ∈ runThreadProc M g proc := by
  induction started with
  | nil => exact absurd hx (List.not_mem_nil x)
  | cons st rest ih =>
    simp only [dispatchStarted] at hx
    split_ifs at hx
    · exact ih hx
    · rcases List.mem_append.mp hx with h | h
      · exact ⟨st.proc, h⟩
      · exact ih h

/-- A procedure that starts in a thread of its own has not read the key. -/
theorem dispatchStarted_key (M : MasterServerConstants) (g : Globals) (started : List Started)
    (t : Running) (ht : t ∈ (dispatchStarted M g started).1) : t.key = none := by
  induction started with
  | nil => exact absurd ht (List.not_mem_nil t)
  | cons st rest ih =>
    simp only [dispatchStarted] at ht
    split_ifs at ht
    · rcases List.mem_cons.mp ht with h | h
      · rw [h]
      · exact ih h
    · exact ih ht

/-- The three statements of a procedure in a thread, run one after the other
with the same globals, send what the procedure sends when it runs in place. -/
theorem threadStep_in_place (M : MasterServerConstants) (g : Globals) :
    threadStep M g ⟨.NetworkUDPAdvertiseThread, none, none⟩ =
      (some ⟨.NetworkUDPAdvertiseThread, some g.server_port, none⟩, []) ∧
    threadStep M g ⟨.NetworkUDPAdvertiseThread, some g.server_port, none⟩ =
      (some ⟨.NetworkUDPAdvertiseThread, some g.server_port, some g._session_key⟩, []) ∧
    threadStep M g ⟨.NetworkUDPAdvertiseThread, some g.server_port, some g._session_key⟩ =
      (none, runThreadProc M g .NetworkUDPAdvertiseThread) ∧
    threadStep M g ⟨.NetworkUDPRemoveAdvertiseThread, none, none⟩ =
      (some ⟨.NetworkUDPRemoveAdvertiseThread, some g.server_port, none⟩, []) ∧
    threadStep M g ⟨.NetworkUDPRemoveAdvertiseThread, some g.server_port, none⟩ =
      (none, runThreadProc M g .NetworkUDPRemoveAdvertiseThread) :=
  ⟨rfl, rfl, rfl, rfl, rfl⟩

/-- What a statement of a procedure in a thread does to the key it has read:
it keeps it, or it reads the session key of the globals. -/
theorem threadStep_key (M : MasterServerConstants) (g : Globals) (t t1 : Running)
    (sent : List (Packet × NetworkAddress)) (h : threadStep M g t = (some t1, sent)) :
    t1.key = t.key ∨ t1.key = some g._session_key := by
  unfold threadStep at h
  cases hp : t.port with
  | none =>
    rw [hp] at h
    simp only [Prod.mk.injEq, Option.some.injEq] at h
    rw [← h.1]
    exact Or.inl rfl
  | some port =>
    rw [hp] at h
    cases hq : t.proc with
    | NetworkUDPAdvertiseThread =>
      rw [hq] at h
      cases hk : t.key with
      | none =>
        rw [hk] at h
        simp only [Prod.mk.injEq, Option.some.injEq] at h
        rw [← h.1]
        exact Or.inr rfl
      | some key =>
        rw [hk] at h
        simp at h
    | NetworkUDPRemoveAdvertiseThread =>
      rw [hq] at h
      simp at h

/-- A Register packet that a statement of a procedure in a thread sends
carries the port and the key that the procedure has read. -/
theorem threadStep_register (M : MasterServerConstants) (g : Globals) (t : Running)
    (x : Packet × NetworkAddress) (hx : x ∈ (threadStep M g t).2)
    (ht : x.1.type = .PACKET_UDP_SERVER_REGISTER) :
    ∃ port key, t.port = some port ∧ t.key = some key ∧
      x.1.fields = [.string M.NETWORK_MASTER_SERVER_WELCOME_MESSAGE,
        .uint8 M.NETWORK_MASTER_SERVER_VERSION, .uint16 port, .uint64 key] ∧
      x.2 = M.NETWORK_MASTER_SERVER_HOST := by
  unfold threadStep at hx
  cases hp : t.port with
  | none => rw [hp] at hx; exact absurd hx (List.not_mem_nil x)
  | some port =>
    rw [hp] at hx
    cases hq : t.proc with
    | NetworkUDPAdvertiseThread =>
      rw [hq] at hx
      cases hk : t.key with
      | none => rw [hk] at hx; exact absurd hx (List.not_mem_nil x)
      | some key =>
        rw [hk] at hx
        simp only [] at hx
        split_ifs at hx
        · rw [List.mem_singleton] at hx
          rw [hx]
          exact ⟨port, key, rfl, rfl, by
            simp [Packet.new, Packet.Send_string, Packet.Send_uint8, Packet.Send_uint16,
              Packet.Send_uint64], rfl⟩
        · exact absurd hx (List.not_mem_nil x)
    | NetworkUDPRemoveAdvertiseThread =>
      rw [hq] at hx
      simp only [] at hx
      split_ifs at hx
      · rw [List.mem_singleton] at hx
        rw [hx] at ht
        simp [Packet.new, Packet.Send_uint8, Packet.Send_uint16] at ht
      · exact absurd hx (List.not_mem_nil x)

/-- Every key that a procedure in a thread has read was the session key after
some number of the events so far. -/
def KeysRead (evs : List UDPEvent) (pending : List Running) : Prop :=
  ∀ t ∈ pending, ∀ k, t.key = some k → ∃ n, n ≤ evs.length ∧ k = lastSessionKey (evs.take n)

theorem keysRead_snoc (evs : List UDPEvent) (e : UDPEvent) (pending : List Running)
    (h : KeysRead evs pending) : KeysRead (evs ++ [e]) pending := by
  intro t ht k hk
  obtain ⟨n, hn, hkey⟩ := h t ht k hk
  refine ⟨n, ?_, ?_⟩
  · rw [List.length_append]; exact Nat.le_trans hn (Nat.le_add_right _ _)
  · rw [List.take_append_of_le_length hn]; exact hkey

theorem lastSessionKey_snoc (evs : List UDPEvent) (e : UDPEvent) :
    lastSessionKey (evs ++ [e]) = keyAfter (lastSessionKey evs) e := by
  unfold lastSessionKey
  rw [List.foldl_append]
  rfl

/-- One event keeps the session key the last one received, and the keys read
by the procedures in threads keys of the past. -/
theorem udpStep_keysRead (M : MasterServerConstants) (evs : List UDPEvent) (s : UDPState)
    (e : UDPEvent) (r : UDPState × List (Packet × NetworkAddress))
    (hkey : s.g._session_key = lastSessionKey evs) (hread : KeysRead evs s.pending)
    (h : udpStep M s e = .ok r) :
    r.1.g._session_key = lastSessionKey (evs ++ [e]) ∧ KeysRead (evs ++ [e]) r.1.pending := by
  refine ⟨?_, ?_⟩
  · rw [udpStep_session_key M s e r h, hkey, lastSessionKey_snoc]
  · have hold := keysRead_snoc evs e s.pending hread
    have hnew : ∀ (g : Globals) (started : List Started),
        KeysRead (evs ++ [e]) (s.pending ++ (dispatchStarted M g started).1) := by
      intro g started t ht k hk
      rcases List.mem_append.mp ht with h1 | h1
      · exact hold t h1 k hk
      · rw [dispatchStarted_key M g started t h1] at hk
        exact Option.noConfusion hk
    cases e with
    | sessionKey key =>
      simp only [udpStep, Except.ok.injEq] at h
      rw [← h]; exact hold
    | ackRegister thread_ok =>
      simp only [udpStep, Except.ok.injEq] at h
      rw [← h]; exact hnew _ _
    | advertise thread_ok =>
      simp only [udpStep, Except.ok.injEq] at h
      rw [← h]; exact hnew _ _
    | socketCall c =>
      simp only [udpStep] at h
      cases hc : runSocketCall c s.g with
      | error f => rw [hc] at h; exact Except.noConfusion h
      | ok g1 =>
        rw [hc] at h
        simp only [Except.ok.injEq] at h
        rw [← h]; exact hold
    | environment e1 =>
      simp only [udpStep, Except.ok.injEq] at h
      rw [← h]; exact hold
    | threadRuns i =>
      simp only [udpStep] at h
      cases hp : s.pending.get? i with
      | none => rw [hp] at h; simp only [Except.ok.injEq] at h; rw [← h]; exact hold
      | some t =>
        rw [hp] at h
        simp only [] at h
        have htmem : t ∈ s.pending := List.get?_mem hp
        rcases hts : threadStep M s.g t with ⟨_ | t1, sent⟩
        · rw [hts] at h; simp only [Except.ok.injEq] at h
          rw [← h]
          intro u hu k hk
          exact hold u (List.mem_of_mem_eraseIdx hu) k hk
        · rw [hts] at h; simp only [Except.ok.injEq] at h
          rw [← h]
          intro u hu k hk
          rcases List.mem_or_eq_of_mem_set hu with h1 | h1
          · exact hold u h1 k hk
          · rw [h1] at hk
            rcases threadStep_key M s.g t t1 sent hts with h2 | h2
            · rw [h2] at hk
              exact hold t htmem k hk
            · rw [h2] at hk
              refine ⟨evs.length, ?_, ?_⟩
              · rw [List.length_append]; exact Nat.le_add_right _ _
              · rw [List.take_append_of_le_length (Nat.le_refl _), List.take_length, ← hkey]
                exact (Option.some.inj hk).symm

/-- After a run of events that began with a session key of zero and no
procedure in a thread, the session key is the last one received and the keys
read by the procedures in threads are keys of the past. -/
theorem udpRun_keysRead (M : MasterServerConstants) (evs : List UDPEvent) (s0 s : UDPState)
    (hkey : s0.g._session_key = 0) (hstart : s0.pending = [])
    (hrun : udpRun M s0 evs = .ok s) :
    s.g._session_key = lastSessionKey evs ∧ KeysRead evs s.pending := by
  induction evs using List.reverseRecOn generalizing s with
  | nil =>
    simp only [udpRun, Except.ok.injEq] at hrun
    rw [← hrun]
    refine ⟨hkey, fun t ht => ?_⟩
    rw [hstart] at ht
    exact absurd ht (List.not_mem_nil t)
  | append_singleton evs e ih =>
    obtain ⟨s1, r, h1, h2, h3⟩ := udpRun_snoc M evs e s0 s hrun
    have hi := ih s1 h1
    rw [← h3]
    exact udpStep_keysRead M evs s1 e r hi.1 hi.2 h2

/-- A Register packet sent at an event carries a session key of the past; when
the procedure ran in place, it carries the session key that the globals held
before the event. -/
theorem udpStep_register (M : MasterServerConstants) (evs : List UDPEvent) (s : UDPState)
    (e : UDPEvent) (r : UDPState × List (Packet × NetworkAddress))
    (hkey : s.g._session_key = lastSessionKey evs) (hread : KeysRead evs s.pending)
    (h : udpStep M s e = .ok r)
    (x : Packet × NetworkAddress) (hx : x ∈ r.2) (ht : x.1.type = .PACKET_UDP_SERVER_REGISTER) :
    (∃ port n, n ≤ evs.length ∧
      x.1.fields = [.string M.NETWORK_MASTER_SERVER_WELCOME_MESSAGE,
        .uint8 M.NETWORK_MASTER_SERVER_VERSION, .uint16 port,
        .uint64 (lastSessionKey (evs.take n))] ∧
      x.2 = M.NETWORK_MASTER_SERVER_HOST) ∧
    ((∃ thread_ok, e = .advertise thread_ok ∨ e = .ackRegister thread_ok) →
      x.1.fields = [.string M.NETWORK_MASTER_SERVER_WELCOME_MESSAGE,
        .uint8 M.NETWORK_MASTER_SERVER_VERSION, .uint16 r.1.g.server_port,
        .uint64 (lastSessionKey evs)]) := by
  have hplace : ∀ g : Globals, g._session_key = s.g._session_key →
      (∃ proc, x ∈ runThreadProc M g proc) →
      x.1.fields = [.string M.NETWORK_MASTER_SERVER_WELCOME_MESSAGE,
        .uint8 M.NETWORK_MASTER_SERVER_VERSION, .uint16 g.server_port,
        .uint64 (lastSessionKey evs)] ∧ x.2 = M.NETWORK_MASTER_SERVER_HOST := by
    intro g hg hproc
    obtain ⟨proc, hp⟩ := hproc
    have := runThreadProc_register M g proc x hp ht
    rw [hg, hkey] at this
    exact this
  cases e with
  | sessionKey key =>
    simp only [udpStep, Except.ok.injEq] at h
    rw [← h] at hx; exact absurd hx (List.not_mem_nil x)
  | ackRegister thread_ok =>
    simp only [udpStep, Except.ok.injEq] at h
    rw [← h] at hx ⊢
    have := hplace _ (ack_register_session_key thread_ok s.g) (dispatchStarted_mem M _ _ x hx)
    exact ⟨⟨_, evs.length, Nat.le_refl _, by rw [List.take_length]; exact this.1, this.2⟩,
      fun _ => this.1⟩
  | advertise thread_ok =>
    simp only [udpStep, Except.ok.injEq] at h
    rw [← h] at hx ⊢
    have := hplace _ (advertise_session_key thread_ok s.g) (dispatchStarted_mem M _ _ x hx)
    exact ⟨⟨_, evs.length, Nat.le_refl _, by rw [List.take_length]; exact this.1, this.2⟩,
      fun _ => this.1⟩
  | socketCall c =>
    simp only [udpStep] at h
    cases hc : runSocketCall c s.g with
    | error f => rw [hc] at h; exact Except.noConfusion h
    | ok g1 =>
      rw [hc] at h
      simp only [Except.ok.injEq] at h
      rw [← h] at hx; exact absurd hx (List.not_mem_nil x)
  | environment e1 =>
    simp only [udpStep, Except.ok.injEq] at h
    rw [← h] at hx; exact absurd hx (List.not_mem_nil x)
  | threadRuns i =>
    refine ⟨?_, fun hin => ?_⟩
    · simp only [udpStep] at h
      cases hp : s.pending.get? i with
      | none =>
        rw [hp] at h; simp only [Except.ok.injEq] at h
        rw [← h] at hx; exact absurd hx (List.not_mem_nil x)
      | some t =>
        rw [hp] at h
        simp only [] at h
        have hsent : x ∈ (threadStep M s.g t).2 := by
          rcases hts : threadStep M s.g t with ⟨_ | t1, sent⟩
          · rw [hts] at h; simp only [Except.ok.injEq] at h
            rw [← h] at hx; exact hx
          · rw [hts] at h; simp only [Except.ok.injEq] at h
            rw [← h] at hx; exact hx
        obtain ⟨port, key, -, hk, hf, ha⟩ := threadStep_register M s.g t x hsent ht
        obtain ⟨n, hn, hkn⟩ := hread t (List.get?_mem hp) key hk
        exact ⟨port, n, hn, by rw [← hkn]; exact hf, ha⟩
    · obtain ⟨thread_ok, h1 | h1⟩ := hin <;> exact UDPEvent.noConfusion h1

/-! ## Lemmas on the list of the master server -/

theorem responseListLoop_complete {P : Type} (rd : ListReader P) (TO_LE32 : Nat → Nat) (n : Nat)
    (q : P) (h : ∀ r ∈ listRounds rd n q, r.2 = false) :
    (responseListLoop rd TO_LE32 n q).p = afterRounds rd n q ∧
    (responseListLoop rd TO_LE32 n q).queries = (listRounds rd n q).map (queryOfRound TO_LE32) := by
  induction n generalizing q with
  | zero => exact ⟨rfl, rfl⟩
  | succ n ih =>
    simp only [listRounds, List.mem_cons, forall_eq_or_imp] at h
    obtain ⟨h0, hrest⟩ := h
    have := ih _ hrest
    simp only [responseListLoop, h0, Bool.false_eq_true, if_false, afterRounds, listRounds,
      List.map_cons, queryOfRound]
    exact ⟨this.1, by rw [this.2]⟩

theorem responseListLoop_cut {P : Type} (rd : ListReader P) (TO_LE32 : Nat → Nat) (n k : Nat)
    (q : P) (hcomplete : ∀ r ∈ (listRounds rd n q).take k, r.2 = false)
    (hcut : ((listRounds rd n q).get? k).map Prod.snd = some true) :
    (responseListLoop rd TO_LE32 n q).p = afterRounds rd (k + 1) q ∧
    (responseListLoop rd TO_LE32 n q).queries =
      ((listRounds rd n q).take k).map (queryOfRound TO_LE32) := by
  induction n generalizing q k with
  | zero => simp [listRounds] at hcut
  | succ n ih =>
    cases k with
    | zero =>
      simp only [listRounds, List.get?_cons_zero, Option.map_some', Option.some.injEq] at hcut
      simp only [responseListLoop, hcut, if_true, afterRounds, List.take_zero, List.map_nil,
        and_self]
    | succ k =>
      simp only [listRounds, List.take_succ_cons, List.mem_cons, forall_eq_or_imp] at hcomplete
      simp only [listRounds, List.get?_cons_succ] at hcut
      obtain ⟨h0, hrest⟩ := hcomplete
      have := ih k _ hrest hcut
      simp only [responseListLoop, h0, Bool.false_eq_true, if_false, listRounds,
        List.take_succ_cons, List.map_cons, queryOfRound]
      exact ⟨this.1, by rw [this.2]⟩

theorem listTypeBelowEnd_iff (L : ListTypeConstants) (byte : Nat) :
    listTypeBelowEnd L byte = true ↔ byte % 256 ≤ L.SLT_END := by
  unfold listTypeBelowEnd
  simp only [decide_eq_true_eq]
  omega

/-! ## Lemmas on the resolution of a placeholder -/

theorem ttd_strlcpy_placeholder (K : Constants)
    (h : K.UNKNOWN_GRF_NAME_PLACEHOLDER.length < K.NETWORK_GRF_NAME_LENGTH - 1) :
    ttd_strlcpy K.UNKNOWN_GRF_NAME_PLACEHOLDER K.NETWORK_GRF_NAME_LENGTH =
      K.UNKNOWN_GRF_NAME_PLACEHOLDER := by
  unfold ttd_strlcpy
  exact List.take_of_length_le (by omega)

theorem ttd_strlcpy_real (K : Constants) (name : CString)
    (h : K.UNKNOWN_GRF_NAME_PLACEHOLDER.length < K.NETWORK_GRF_NAME_LENGTH - 1)
    (hne : name ≠ K.UNKNOWN_GRF_NAME_PLACEHOLDER) :
    ttd_strlcpy name K.NETWORK_GRF_NAME_LENGTH ≠ K.UNKNOWN_GRF_NAME_PLACEHOLDER := by
  unfold ttd_strlcpy
  by_cases hl : name.length ≤ K.NETWORK_GRF_NAME_LENGTH - 1
  · rw [List.take_of_length_le hl]; exact hne
  · intro hcon
    have := congrArg List.length hcon
    rw [List.length_take] at this
    omega

/-- One round of the loop for a pair whose stored name is the placeholder. -/
theorem storedName_resolveOne (K : Constants) (t : List UnknownGRF) (e : GRFIdentifier × CString)
    (grfid md5sum : Nat)
    (h : storedName t grfid md5sum = some K.UNKNOWN_GRF_NAME_PLACEHOLDER) :
    storedName (resolveOne K t e) grfid md5sum =
      if e.1 = ⟨grfid, md5sum⟩ ∧ e.2 ≠ [] then some (ttd_strlcpy e.2 K.NETWORK_GRF_NAME_LENGTH)
      else some K.UNKNOWN_GRF_NAME_PLACEHOLDER := by
  obtain ⟨⟨eg, em⟩, name⟩ := e
  have hcond : ((⟨eg, em⟩ : GRFIdentifier) = ⟨grfid, md5sum⟩ ∧ name ≠ []) ↔
      ((eg = grfid ∧ em = md5sum) ∧ StrEmpty name = false) := by
    simp [StrEmpty]
  show storedName (resolveOne K t (⟨eg, em⟩, name)) grfid md5sum =
    if (⟨eg, em⟩ : GRFIdentifier) = ⟨grfid, md5sum⟩ ∧ name ≠ [] then
      some (ttd_strlcpy name K.NETWORK_GRF_NAME_LENGTH)
    else some K.UNKNOWN_GRF_NAME_PLACEHOLDER
  rw [if_congr hcond rfl rfl]
  induction t with
  | nil => simp [storedName, findUnknownGRF] at h
  | cons u us ih =>
    rw [storedName_cons] at h
    rw [resolveOne_cons]
    show storedName (if StrEmpty name = true then u :: us
      else if u.grfid = eg ∧ u.md5sum = em then
        (if u.name = K.UNKNOWN_GRF_NAME_PLACEHOLDER then
          { u with name := ttd_strlcpy name K.NETWORK_GRF_NAME_LENGTH } :: us
         else u :: us)
      else u :: resolveOne K us (⟨eg, em⟩, name)) grfid md5sum = _
    cases hs : StrEmpty name with
    | true =>
      have hr : ¬ ((eg = grfid ∧ em = md5sum) ∧ true = false) := by simp
      rw [if_pos rfl, if_neg hr, storedName_cons]
      exact h
    | false =>
      have hl : ¬ (false = true) := by simp
      have hr : ((eg = grfid ∧ em = md5sum) ∧ false = false) ↔ (eg = grfid ∧ em = md5sum) := by
        simp
      rw [if_neg hl, if_congr hr rfl rfl]
      by_cases hk : u.grfid = grfid ∧ u.md5sum = md5sum
      · rw [if_pos hk] at h
        have hname : u.name = K.UNKNOWN_GRF_NAME_PLACEHOLDER := Option.some.inj h
        by_cases he : eg = grfid ∧ em = md5sum
        · have hue : u.grfid = eg ∧ u.md5sum = em := ⟨hk.1.trans he.1.symm, hk.2.trans he.2.symm⟩
          rw [if_pos hue, if_pos hname, if_pos he, storedName_cons, if_pos hk]
        · have hue : ¬ (u.grfid = eg ∧ u.md5sum = em) := by
            intro hc; exact he ⟨hc.1.symm.trans hk.1, hc.2.symm.trans hk.2⟩
          rw [if_neg hue, if_neg he, storedName_cons, if_pos hk, hname]
      · rw [if_neg hk] at h
        by_cases hue : u.grfid = eg ∧ u.md5sum = em
        · have he : ¬ (eg = grfid ∧ em = md5sum) := by
            intro hc; exact hk ⟨hue.1.trans hc.1, hue.2.trans hc.2⟩
          rw [if_pos hue, if_neg he]
          by_cases hn : u.name = K.UNKNOWN_GRF_NAME_PLACEHOLDER
          · rw [if_pos hn, storedName_cons, if_neg hk]; exact h
          · rw [if_neg hn, storedName_cons, if_neg hk]; exact h
        · rw [if_neg hue, storedName_cons, if_neg hk]
          have := ih h
          rw [hs, if_congr hr rfl rfl] at this
          exact this

/-- The stored name of a pair that holds the placeholder after a list of
entries: the cut name of the first entry for the pair whose name is neither
empty nor the placeholder. -/
theorem storedName_foldl (K : Constants) (es : List (GRFIdentifier × CString))
    (t : List UnknownGRF) (grfid md5sum : Nat)
    (hph : K.UNKNOWN_GRF_NAME_PLACEHOLDER.length < K.NETWORK_GRF_NAME_LENGTH - 1)
    (h : storedName t grfid md5sum = some K.UNKNOWN_GRF_NAME_PLACEHOLDER) :
    storedName (es.foldl (resolveOne K) t) grfid md5sum =
      match es.find? (fun e => decide (e.1 = ⟨grfid, md5sum⟩ ∧ e.2 ≠ [] ∧
          e.2 ≠ K.UNKNOWN_GRF_NAME_PLACEHOLDER)) with
      | some e => some (ttd_strlcpy e.2 K.NETWORK_GRF_NAME_LENGTH)
      | none => some K.UNKNOWN_GRF_NAME_PLACEHOLDER := by
  induction es generalizing t with
  | nil => simpa using h
  | cons e es ih =>
    have hstep := storedName_resolveOne K t e grfid md5sum h
    rw [List.foldl_cons]
    by_cases hp : e.1 = ⟨grfid, md5sum⟩ ∧ e.2 ≠ [] ∧ e.2 ≠ K.UNKNOWN_GRF_NAME_PLACEHOLDER
    · rw [List.find?_cons_of_pos _ (by simpa using hp)]
      rw [if_pos ⟨hp.1, hp.2.1⟩] at hstep
      have hreal := ttd_strlcpy_real K e.2 hph hp.2.2
      have hkept := (storedName_kept K _ _ _ (nameKept_foldl K es (resolveOne K t e))
        grfid md5sum).1 (by rw [hstep]; exact fun hc => hreal (Option.some.inj hc))
      rw [hkept, hstep]
    · rw [List.find?_cons_of_neg _ (by simpa using hp)]
      apply ih
      rw [hstep]
      by_cases hc : e.1 = ⟨grfid, md5sum⟩ ∧ e.2 ≠ []
      · rw [if_pos hc]
        have : e.2 = K.UNKNOWN_GRF_NAME_PLACEHOLDER := by
          by_contra hne; exact hp ⟨hc.1, hc.2, hne⟩
        rw [this, ttd_strlcpy_placeholder K hph]
      · rw [if_neg hc]

theorem resolveOne_foldl_filter (K : Constants) (es : List (GRFIdentifier × CString))
    (t : List UnknownGRF) :
    es.foldl (resolveOne K) t = (es.filter (fun e => !StrEmpty e.2)).foldl (resolveOne K) t := by
  induction es generalizing t with
  | nil => rfl
  | cons e es ih =>
    by_cases hs : StrEmpty e.2 = true
    · have : resolveOne K t e = t := by simp [resolveOne, hs]
      rw [List.foldl_cons, this, List.filter_cons_of_neg (by simp [hs])]
      exact ih t
    · rw [List.foldl_cons, List.filter_cons_of_pos (by simpa using hs), List.foldl_cons]
      exact ih _

/-! ## Lemmas on the handler of a server response -/

theorem inRequestLoop_fits (K : Constants) (cs : List ListedGRFConfig) (s : InRequestState)
    (hnames : ∀ c ∈ cs, c.status = .GCS_NOT_FOUND → c.name ≠ none)
    (hfit : s.in_request.length + (toRequest K cs).length ≤ K.NETWORK_MAX_GRF_COUNT) :
    inRequestLoop K cs s =
      .ok ⟨s.compatible && cs.all (fun c => decide (c.status ≠ .GCS_NOT_FOUND)),
        s.in_request ++ toRequest K cs⟩ := by
  induction cs generalizing s with
  | nil => simp [inRequestLoop, toRequest]
  | cons c next ih =>
    have hnext : ∀ d ∈ next, d.status = .GCS_NOT_FOUND → d.name ≠ none :=
      fun d hd => hnames d (List.mem_cons_of_mem c hd)
    by_cases hst : c.status = .GCS_NOT_FOUND
    · cases hname : c.name with
      | none => exact absurd hname (hnames c (List.mem_cons_self c next) hst)
      | some name =>
        by_cases hph : name = K.UNKNOWN_GRF_NAME_PLACEHOLDER
        · have hreq : toRequest K (c :: next) = c :: toRequest K next := by
            simp [toRequest, hst, hname, hph]
          rw [hreq, List.length_cons] at hfit
          have hlt : s.in_request.length < K.NETWORK_MAX_GRF_COUNT := by omega
          simp only [inRequestLoop, hst, if_true, ne_eq, not_true_eq_false, if_false, hname, hph,
            hlt]
          rw [ih _ hnext (by simp only [List.length_append, List.length_singleton]; omega), hreq]
          simp [hst]
        · have hreq : toRequest K (c :: next) = toRequest K next := by
            simp [toRequest, hst, hname, hph]
          rw [hreq] at hfit
          simp only [inRequestLoop, hst, if_true, ne_eq, not_true_eq_false, if_false, hname, hph,
            not_false_eq_true]
          rw [ih ⟨false, s.in_request⟩ hnext hfit, hreq]
          simp [hst]
    · have hreq : toRequest K (c :: next) = toRequest K next := by
        simp [toRequest, hst]
      rw [hreq] at hfit
      simp only [inRequestLoop, hst, if_false, ne_eq, not_false_eq_true, if_true]
      rw [ih _ hnext hfit, hreq]
      simp [hst]

theorem inRequestLoop_overflows (K : Constants) (cs : List ListedGRFConfig) (s : InRequestState)
    (hnames : ∀ c ∈ cs, c.status = .GCS_NOT_FOUND → c.name ≠ none)
    (hlen : s.in_request.length ≤ K.NETWORK_MAX_GRF_COUNT)
    (hover : K.NETWORK_MAX_GRF_COUNT < s.in_request.length + (toRequest K cs).length) :
    inRequestLoop K cs s = .error .array_index_out_of_bounds := by
  induction cs generalizing s with
  | nil => simp [toRequest] at hover; omega
  | cons c next ih =>
    have hnext : ∀ d ∈ next, d.status = .GCS_NOT_FOUND → d.name ≠ none :=
      fun d hd => hnames d (List.mem_cons_of_mem c hd)
    by_cases hst : c.status = .GCS_NOT_FOUND
    · cases hname : c.name with
      | none => exact absurd hname (hnames c (List.mem_cons_self c next) hst)
      | some name =>
        by_cases hph : name = K.UNKNOWN_GRF_NAME_PLACEHOLDER
        · have hreq : toRequest K (c :: next) = c :: toRequest K next := by
            simp [toRequest, hst, hname, hph]
          rw [hreq, List.length_cons] at hover
          by_cases hlt : s.in_request.length < K.NETWORK_MAX_GRF_COUNT
          · simp only [inRequestLoop, hst, if_true, ne_eq, not_true_eq_false, if_false, hname,
              hph, hlt]
            exact ih _ hnext (by simp only [List.length_append, List.length_singleton]; omega)
              (by simp only [List.length_append, List.length_singleton]; omega)
          · simp only [inRequestLoop, hst, if_true, ne_eq, not_true_eq_false, if_false, hname,
              hph, hlt]
        · have hreq : toRequest K (c :: next) = toRequest K next := by
            simp [toRequest, hst, hname, hph]
          rw [hreq] at hover
          simp only [inRequestLoop, hst, if_true, ne_eq, not_true_eq_false, if_false, hname, hph,
            not_false_eq_true]
          exact ih ⟨false, s.in_request⟩ hnext hlen hover
    · have hreq : toRequest K (c :: next) = toRequest K next := by
        simp [toRequest, hst]
      rw [hreq] at hover
      simp only [inRequestLoop, hst, if_false, ne_eq, not_false_eq_true, if_true]
      exact ih _ hnext hlen hover

theorem sendInRequest_fields (cs : List ListedGRFConfig) (packet : Packet) :
    sendInRequest cs packet =
      ⟨packet.type, packet.fields ++
        (cs.map (fun c => [Field.uint32 c.grfid, Field.md5sum c.md5sum])).flatten⟩ := by
  induction cs generalizing packet with
  | nil => simp [sendInRequest]
  | cons c cs ih =>
    rw [sendInRequest, ih]
    simp [Send_GRFIdentifier]

/-- The handler when the entries to request fit into `in_request`. -/
theorem server_response_fits (K : Constants) (IsNetworkCompatibleVersion : CString → Bool)
    (sizeof_hostname : Nat) (item : NetworkGameList) (client_hostname : CString)
    (hnames : ∀ c ∈ item.info.grfconfig, c.status = .GCS_NOT_FOUND → c.name ≠ none)
    (hfit : (toRequest K item.info.grfconfig).length ≤ K.NETWORK_MAX_GRF_COUNT) :
    Client_PACKET_UDP_SERVER_RESPONSE K IsNetworkCompatibleVersion sizeof_hostname false item
        client_hostname =
      .ok (some ⟨{ item with
          info := { item.info with
            hostname := if StrEmpty item.info.hostname then
                client_hostname.take (sizeof_hostname - 1)
              else item.info.hostname
            version_compatible := IsNetworkCompatibleVersion item.info.server_revision
            compatible :=
              item.info.grfconfig.all (fun c => decide (c.status ≠ .GCS_NOT_FOUND)) &&
                IsNetworkCompatibleVersion item.info.server_revision }
          online := true },
        if toRequest K item.info.grfconfig = [] then []
        else [(⟨.PACKET_UDP_CLIENT_GET_NEWGRFS,
          Field.uint8 ((toRequest K item.info.grfconfig).length % 256) ::
            ((toRequest K item.info.grfconfig).map
              (fun c => [Field.uint32 c.grfid, Field.md5sum c.md5sum])).flatten⟩,
          item.address)]⟩) := by
  unfold Client_PACKET_UDP_SERVER_RESPONSE
  rw [inRequestLoop_fits K _ ⟨true, []⟩ hnames (by simpa using hfit)]
  simp only [Bool.false_eq_true, if_false, Bool.true_and, List.nil_append, sendInRequest_fields,
    Packet.new, Packet.Send_uint8, List.singleton_append]
  by_cases he : toRequest K item.info.grfconfig = []
  · simp [he]
  · have : (toRequest K item.info.grfconfig).length > 0 := List.length_pos.mpr he
    simp [he, this]

/-- What `HandleIncomingNetworkGameInfoGRFConfig` leaves in a config that was
not marked as not found before: it is marked so exactly when the registry
does not know it, and then it has a name. -/
theorem handleIncoming_named (K : Constants) (all_grfs : List GRFConfig)
    (unknown_grfs : List UnknownGRF) (config : ListedGRFConfig)
    (hfresh : config.status ≠ .GCS_NOT_FOUND) :
    ((HandleIncomingNetworkGameInfoGRFConfig K all_grfs unknown_grfs config).2.status =
        .GCS_NOT_FOUND ↔ FindGRFConfig all_grfs config.grfid config.md5sum = none) ∧
    ((HandleIncomingNetworkGameInfoGRFConfig K all_grfs unknown_grfs config).2.status =
        .GCS_NOT_FOUND →
      (HandleIncomingNetworkGameInfoGRFConfig K all_grfs unknown_grfs config).2.name ≠ none) := by
  unfold HandleIncomingNetworkGameInfoGRFConfig
  cases hf : FindGRFConfig all_grfs config.grfid config.md5sum with
  | some f => simp [hfresh]
  | none =>
    simp only [true_and, forall_const, and_self, iff_true]
    unfold FindUnknownGRFName
    cases hu : findUnknownGRF unknown_grfs config.grfid config.md5sum with
    | none => simp [nameAt]
    | some i =>
      simp only [nameAt]
      have hi : ∀ (t : List UnknownGRF) (j : Nat),
          findUnknownGRF t config.grfid config.md5sum = some j → j < t.length := by
        intro t
        induction t with
        | nil => intro j hj; simp [findUnknownGRF] at hj
        | cons u us ih =>
          intro j hj
          simp only [findUnknownGRF] at hj
          split_ifs at hj
          · simp only [Option.some.injEq] at hj
            rw [← hj]; simp
          · cases hr : findUnknownGRF us config.grfid config.md5sum with
            | none => rw [hr] at hj; simp at hj
            | some k =>
              rw [hr] at hj
              simp only [Option.map_some', Option.some.injEq] at hj
              have := ih k hr
              rw [← hj]; simp only [List.length_cons]; omega
      have := hi _ i hu
      rw [List.get?_eq_get this]
      simp

/-! ## The claims -/

/-- C1: every ContentNames reply that the server builds for a GetContentNames
request, whatever the count byte, the requested pairs and the registry are,
has a serialized size of at most `SEND_MTU` bytes; the size is 3 header bytes,
1 count byte and, for each entry, 4 bytes of id, 16 bytes of checksum and the
bytes of the name with its NUL after the name was cut to fit a buffer of
`NETWORK_GRF_NAME_LENGTH` bytes. -/
theorem reply_size_le_SEND_MTU {P : Type} (K : Constants) (rd : PacketReader P)
    (all_grfs : List GRFConfig) (p : P) (client_addr : NetworkAddress)
    (hmtu : 4 ≤ K.SEND_MTU) (hname : 1 ≤ K.NETWORK_GRF_NAME_LENGTH) :
    ∀ x ∈ (Server_PACKET_UDP_CLIENT_GET_NEWGRFS K rd all_grfs p client_addr).sent,
      x.1.size ≤ K.SEND_MTU ∧
      ∃ entries : List GRFConfig,
        x.1.fields = Field.uint8 entries.length :: (entries.map (fun f =>
          [Field.uint32 f.grfid, Field.md5sum f.md5sum,
            Field.string (strecpy f.replyName K.NETWORK_GRF_NAME_LENGTH)])).flatten ∧
        x.1.size = 3 + 1 + (entries.map (fun f =>
          4 + 16 + (strlen (strecpy f.replyName K.NETWORK_GRF_NAME_LENGTH) + 1))).sum ∧
        ∀ f ∈ entries,
          strlen (strecpy f.replyName K.NETWORK_GRF_NAME_LENGTH) + 1 ≤ K.NETWORK_GRF_NAME_LENGTH := by
  intro x hx
  obtain ⟨entries, hor, -, hsent⟩ := server_sent_entries K rd all_grfs p client_addr
  rw [hsent] at hx
  by_cases he : entries = []
  · simp [he] at hx
  · rw [if_neg he, List.mem_singleton] at hx
    subst hx
    have hin : entries = inReply K rd all_grfs p := by
      rcases hor with h | h
      · exact absurd h he
      · exact h.2
    have hfit : 0 + entriesLen K entries ≤ K.SEND_MTU - 4 := by
      rw [hin, inReply_eq]
      exact fitting_len K _ 0 (Nat.zero_le _)
    have hsize : Packet.size ⟨.PACKET_UDP_SERVER_NEWGRFS, Field.uint8 entries.length ::
        (entries.map (entryFields K)).flatten⟩ = 3 + 1 + entriesLen K entries := by
      simp only [Packet.size, List.map_cons, List.sum_cons, Field.size, entries_size K hname]
      omega
    refine ⟨by rw [hsize]; omega, entries, rfl, ?_, ?_⟩
    · rw [hsize, entriesLen_eq_sent_bytes K hname]
    · intro f _
      simp only [strecpy, strlen, List.length_take]
      omega

/-- The witness of C1: fifteen requests for a NewGRF whose name has 100 bytes,
with names of 80 bytes and packets of 1460 bytes; the reply has 1404 bytes. -/
theorem reply_size_le_SEND_MTU_witness :
    4 ≤ sampleConstants.SEND_MTU ∧ 1 ≤ sampleConstants.NETWORK_GRF_NAME_LENGTH ∧
    (Server_PACKET_UDP_CLIENT_GET_NEWGRFS sampleConstants fieldReader [longNameConfig]
        fifteenRequests 5).sent.map (fun x => x.1.size) = [1404] ∧
    ∀ x ∈ (Server_PACKET_UDP_CLIENT_GET_NEWGRFS sampleConstants fieldReader [longNameConfig]
        fifteenRequests 5).sent,
      x.1.size ≤ sampleConstants.SEND_MTU ∧
      ∃ entries : List GRFConfig,
        x.1.fields = Field.uint8 entries.length :: (entries.map (fun f =>
          [Field.uint32 f.grfid, Field.md5sum f.md5sum,
            Field.string (strecpy f.replyName sampleConstants.NETWORK_GRF_NAME_LENGTH)])).flatten ∧
        x.1.size = 3 + 1 + (entries.map (fun f =>
          4 + 16 + (strlen (strecpy f.replyName sampleConstants.NETWORK_GRF_NAME_LENGTH) + 1))).sum ∧
        ∀ f ∈ entries,
          strlen (strecpy f.replyName sampleConstants.NETWORK_GRF_NAME_LENGTH) + 1 ≤
            sampleConstants.NETWORK_GRF_NAME_LENGTH :=
  ⟨by decide, by decide, by decide,
    reply_size_le_SEND_MTU sampleConstants fieldReader [longNameConfig] fifteenRequests 5
      (by decide) (by decide)⟩

/-- C2: for a GetContentNames request whose count is at most
`NETWORK_MAX_GRF_COUNT`, the entries of the ContentNames reply are the longest
initial segment of the registry entries matched by the requested pairs, in
request order, whose cumulative size (4 + 16 + min(length of name + 1,
`NETWORK_GRF_NAME_LENGTH`) per entry) is at most `SEND_MTU - 4`; no reply is
sent when that segment is empty. Hence a matched entry is missing only if the
matched entries up to and including it exceed the budget. -/
theorem reply_entries_longest_fitting {P : Type} (K : Constants) (rd : PacketReader P)
    (all_grfs : List GRFConfig) (p : P) (client_addr : NetworkAddress)
    (hcount : (rd.Recv_uint8 p).1 % 256 ≤ K.NETWORK_MAX_GRF_COUNT) :
    ∃ entries : List GRFConfig,
      (Server_PACKET_UDP_CLIENT_GET_NEWGRFS K rd all_grfs p client_addr).sent =
        (if entries = [] then []
         else [(⟨.PACKET_UDP_SERVER_NEWGRFS, Field.uint8 entries.length ::
          (entries.map (entryFields K)).flatten⟩, client_addr)]) ∧
      entries <+: matchedConfigs all_grfs
        (requestedIds rd ((rd.Recv_uint8 p).1 % 256) (rd.Recv_uint8 p).2) ∧
      entriesLen K entries ≤ K.SEND_MTU - 4 ∧
      (∀ q : List GRFConfig,
        q <+: matchedConfigs all_grfs
          (requestedIds rd ((rd.Recv_uint8 p).1 % 256) (rd.Recv_uint8 p).2) →
        entriesLen K q ≤ K.SEND_MTU - 4 → q.length ≤ entries.length) ∧
      (∀ k : Nat, entries.length ≤ k →
        k < (matchedConfigs all_grfs
          (requestedIds rd ((rd.Recv_uint8 p).1 % 256) (rd.Recv_uint8 p).2)).length →
        K.SEND_MTU - 4 < entriesLen K ((matchedConfigs all_grfs
          (requestedIds rd ((rd.Recv_uint8 p).1 % 256) (rd.Recv_uint8 p).2)).take (k + 1))) := by
  obtain ⟨entries, -, hin, hsent⟩ := server_sent_entries K rd all_grfs p client_addr
  have he := hin hcount
  rw [inReply_eq] at he
  have hlong : ∀ q : List GRFConfig,
      q <+: matchedConfigs all_grfs
        (requestedIds rd ((rd.Recv_uint8 p).1 % 256) (rd.Recv_uint8 p).2) →
      entriesLen K q ≤ K.SEND_MTU - 4 → q.length ≤ entries.length := by
    intro q hq hlen
    rw [he]
    exact (fitting_longest K _ q 0 hq (by omega)).length_le
  refine ⟨entries, hsent, ?_, ?_, hlong, ?_⟩
  · rw [he]; exact fitting_isInitial K _ 0
  · have := fitting_len K (matchedConfigs all_grfs
      (requestedIds rd ((rd.Recv_uint8 p).1 % 256) (rd.Recv_uint8 p).2)) 0 (Nat.zero_le _)
    rw [he]; omega
  · intro k hk hkm
    by_contra hcon
    have := hlong _ (List.take_prefix (k + 1) _) (by omega)
    rw [List.length_take] at this
    omega

/-- The witness of C2: fifteen requests for a NewGRF whose name has 100 bytes;
14 entries of 100 bytes fit into `1460 - 4` bytes and the reply has 14 entries. -/
theorem reply_entries_longest_fitting_witness :
    (fieldReader.Recv_uint8 fifteenRequests).1 % 256 ≤ sampleConstants.NETWORK_MAX_GRF_COUNT ∧
    (Server_PACKET_UDP_CLIENT_GET_NEWGRFS sampleConstants fieldReader [longNameConfig]
        fifteenRequests 5).sent =
      [(⟨.PACKET_UDP_SERVER_NEWGRFS, .uint8 14 :: (List.replicate 14
        [Field.uint32 7, Field.md5sum 107, Field.string (List.replicate 79 65)]).flatten⟩, 5)] ∧
    (matchedConfigs [longNameConfig]
      (requestedIds fieldReader ((fieldReader.Recv_uint8 fifteenRequests).1 % 256)
        (fieldReader.Recv_uint8 fifteenRequests).2)).length = 15 ∧
    ∃ entries : List GRFConfig,
      (Server_PACKET_UDP_CLIENT_GET_NEWGRFS sampleConstants fieldReader [longNameConfig]
          fifteenRequests 5).sent =
        (if entries = [] then []
         else [(⟨.PACKET_UDP_SERVER_NEWGRFS, Field.uint8 entries.length ::
          (entries.map (entryFields sampleConstants)).flatten⟩, 5)]) ∧
      entries <+: matchedConfigs [longNameConfig]
        (requestedIds fieldReader ((fieldReader.Recv_uint8 fifteenRequests).1 % 256)
          (fieldReader.Recv_uint8 fifteenRequests).2) ∧
      entriesLen sampleConstants entries ≤ sampleConstants.SEND_MTU - 4 ∧
      (∀ q : List GRFConfig,
        q <+: matchedConfigs [longNameConfig]
          (requestedIds fieldReader ((fieldReader.Recv_uint8 fifteenRequests).1 % 256)
            (fieldReader.Recv_uint8 fifteenRequests).2) →
        entriesLen sampleConstants q ≤ sampleConstants.SEND_MTU - 4 →
        q.length ≤ entries.length) ∧
      (∀ k : Nat, entries.length ≤ k →
        k < (matchedConfigs [longNameConfig]
          (requestedIds fieldReader ((fieldReader.Recv_uint8 fifteenRequests).1 % 256)
            (fieldReader.Recv_uint8 fifteenRequests).2)).length →
        sampleConstants.SEND_MTU - 4 < entriesLen sampleConstants ((matchedConfigs [longNameConfig]
          (requestedIds fieldReader ((fieldReader.Recv_uint8 fifteenRequests).1 % 256)
            (fieldReader.Recv_uint8 fifteenRequests).2)).take (k + 1))) :=
  ⟨by decide, by decide, by decide,
    reply_entries_longest_fitting sampleConstants fieldReader [longNameConfig]
      fifteenRequests 5 (by decide)⟩

/-- The refutation of C3 as it is written: the registry knows the NewGRF 7
under a name of 100 bytes; the entry of the reply carries the first 79 bytes
of it, which is not the name of the registry entry. -/
theorem reply_name_cut_counterexample :
    (Server_PACKET_UDP_CLIENT_GET_NEWGRFS sampleConstants fieldReader [longNameConfig]
        sampleRequest 5).sent =
      [(⟨.PACKET_UDP_SERVER_NEWGRFS,
        [.uint8 1, .uint32 7, .md5sum 107, .string (List.replicate 79 65)]⟩, 5)] ∧
    FindGRFConfig [longNameConfig] 7 107 = some longNameConfig ∧
    longNameConfig.name = some (List.replicate 100 65) ∧
    List.replicate 79 65 ≠ List.replicate 100 65 := by
  decide

/-- C3, amended: every entry of the ContentNames reply is a requested (id,
checksum) pair that `FindGRFConfig` finds in the registry by exact match; the
entries keep the order of the request; each entry carries the name of the
registry entry (its filename when the name is absent or empty) cut to at most
`NETWORK_GRF_NAME_LENGTH - 1` bytes; the count byte is the number of entries,
which fits a byte;
a requested pair that is not in the registry never appears and does not stop
the pairs after it from being processed: with a count of at most
`NETWORK_MAX_GRF_COUNT`, the entries are an initial segment of all matched
pairs, and all of them when they fit together. The request for 7 and 9 with
only 7 known yields exactly one entry, for 7. -/
theorem reply_entries_matched_in_order {P : Type} (K : Constants) (rd : PacketReader P)
    (all_grfs : List GRFConfig) (p : P) (client_addr : NetworkAddress) :
    (∃ entries : List GRFConfig,
      (Server_PACKET_UDP_CLIENT_GET_NEWGRFS K rd all_grfs p client_addr).sent =
        (if entries = [] then []
         else [(⟨.PACKET_UDP_SERVER_NEWGRFS, Field.uint8 entries.length ::
          (entries.map (fun f => [Field.uint32 f.grfid, Field.md5sum f.md5sum,
            Field.string (strecpy f.replyName K.NETWORK_GRF_NAME_LENGTH)])).flatten⟩,
          client_addr)]) ∧
      entries.length < 256 ∧
      (entries.map GRFConfig.ident).Sublist
        (requestedIds rd ((rd.Recv_uint8 p).1 % 256) (rd.Recv_uint8 p).2) ∧
      (∀ f ∈ entries, f ∈ all_grfs ∧ FindGRFConfig all_grfs f.grfid f.md5sum = some f) ∧
      (∀ c ∈ requestedIds rd ((rd.Recv_uint8 p).1 % 256) (rd.Recv_uint8 p).2,
        FindGRFConfig all_grfs c.grfid c.md5sum = none → c ∉ entries.map GRFConfig.ident) ∧
      ((rd.Recv_uint8 p).1 % 256 ≤ K.NETWORK_MAX_GRF_COUNT →
        entries <+: matchedConfigs all_grfs
          (requestedIds rd ((rd.Recv_uint8 p).1 % 256) (rd.Recv_uint8 p).2) ∧
        (entriesLen K (matchedConfigs all_grfs
            (requestedIds rd ((rd.Recv_uint8 p).1 % 256) (rd.Recv_uint8 p).2)) ≤ K.SEND_MTU - 4 →
          entries = matchedConfigs all_grfs
            (requestedIds rd ((rd.Recv_uint8 p).1 % 256) (rd.Recv_uint8 p).2)))) ∧
    (Server_PACKET_UDP_CLIENT_GET_NEWGRFS sampleConstants fieldReader sampleRegistry
        sampleRequest client_addr).sent =
      [(⟨.PACKET_UDP_SERVER_NEWGRFS,
        [.uint8 1, .uint32 7, .md5sum 107, .string [83, 101, 118, 101, 110]]⟩, client_addr)] := by
  refine ⟨?_, ?_⟩
  · obtain ⟨entries, hor, hin, hsent⟩ := server_sent_entries K rd all_grfs p client_addr
    have hpre : entries <+: matchedConfigs all_grfs
        (requestedIds rd ((rd.Recv_uint8 p).1 % 256) (rd.Recv_uint8 p).2) := by
      rcases hor with h | h
      · rw [h]; exact List.nil_prefix
      · rw [h.2, inReply_eq]; exact fitting_isInitial K _ 0
    have hfound : ∀ f ∈ entries, f ∈ all_grfs ∧
        FindGRFConfig all_grfs f.grfid f.md5sum = some f := by
      intro f hf
      have := matchedConfigs_found all_grfs _ f (hpre.mem hf)
      exact ⟨this.1, this.2.2⟩
    refine ⟨entries, hsent, ?_, ?_, hfound, ?_, ?_⟩
    · have h1 := hpre.length_le
      have h2 := matchedConfigs_length_le all_grfs
        (requestedIds rd ((rd.Recv_uint8 p).1 % 256) (rd.Recv_uint8 p).2)
      rw [requestedIds_length] at h2
      omega
    · have h1 := (List.IsPrefix.map GRFConfig.ident hpre).sublist
      rw [matchedConfigs_ident] at h1
      exact h1.trans (List.filter_sublist _)
    · intro c _ hnone hmem
      obtain ⟨f, hf, hfc⟩ := List.mem_map.mp hmem
      have := (hfound f hf).2
      have hg : f.grfid = c.grfid := by rw [← hfc]; rfl
      have hm : f.md5sum = c.md5sum := by rw [← hfc]; rfl
      rw [hg, hm, hnone] at this
      exact Option.noConfusion this
    · intro hcount
      refine ⟨hpre, fun hlen => ?_⟩
      have he := hin hcount
      rw [inReply_eq] at he
      have := fitting_longest K _ _ 0 List.prefix_rfl (by omega : 0 + entriesLen K (matchedConfigs
        all_grfs (requestedIds rd ((rd.Recv_uint8 p).1 % 256) (rd.Recv_uint8 p).2)) ≤ K.SEND_MTU - 4)
      rw [← he] at this
      exact hpre.eq_of_length_le this.length_le
  · have h : (Server_PACKET_UDP_CLIENT_GET_NEWGRFS sampleConstants fieldReader sampleRegistry
        sampleRequest client_addr).sent =
        (Server_PACKET_UDP_CLIENT_GET_NEWGRFS sampleConstants fieldReader sampleRegistry
          sampleRequest 0).sent.map (fun x => (x.1, client_addr)) := by
      simp only [server_sent]
      split
      · rfl
      · split <;> rfl
    have h0 : (Server_PACKET_UDP_CLIENT_GET_NEWGRFS sampleConstants fieldReader sampleRegistry
        sampleRequest 0).sent =
        [(⟨.PACKET_UDP_SERVER_NEWGRFS,
          [.uint8 1, .uint32 7, .md5sum 107, .string [83, 101, 118, 101, 110]]⟩, 0)] := by
      decide
    rw [h, h0]
    rfl

/-- C4: a GetContentNames request whose count byte is greater than
`NETWORK_MAX_GRF_COUNT` is rejected as a whole by the server: after the count
byte nothing more is read from the packet, `FindGRFConfig` is not called and
no reply is sent. The client treats a ContentNames reply with such a count in
the same way: nothing more is read and the table of names is unchanged. -/
theorem oversized_count_rejected {P : Type} (K : Constants) (rd : PacketReader P)
    (all_grfs : List GRFConfig) (unknown_grfs : List UnknownGRF) (p : P)
    (client_addr : NetworkAddress)
    (hcount : (rd.Recv_uint8 p).1 % 256 > K.NETWORK_MAX_GRF_COUNT) :
    ((Server_PACKET_UDP_CLIENT_GET_NEWGRFS K rd all_grfs p client_addr).p = (rd.Recv_uint8 p).2 ∧
      (Server_PACKET_UDP_CLIENT_GET_NEWGRFS K rd all_grfs p client_addr).lookups = [] ∧
      (Server_PACKET_UDP_CLIENT_GET_NEWGRFS K rd all_grfs p client_addr).sent = []) ∧
    ((Client_PACKET_UDP_SERVER_NEWGRFS K rd unknown_grfs p).p = (rd.Recv_uint8 p).2 ∧
      (Client_PACKET_UDP_SERVER_NEWGRFS K rd unknown_grfs p).unknown_grfs = unknown_grfs) := by
  simp [Server_PACKET_UDP_CLIENT_GET_NEWGRFS, Client_PACKET_UDP_SERVER_NEWGRFS, hcount]

/-- The witness of C4: a count of 200 where at most 55 are allowed, in front
of a pair that the registry knows and a name for a pair of the table. -/
theorem oversized_count_rejected_witness :
    (fieldReader.Recv_uint8 [.uint8 200, .uint32 7, .md5sum 107, .string [83]]).1 % 256 >
      sampleConstants.NETWORK_MAX_GRF_COUNT ∧
    ((Server_PACKET_UDP_CLIENT_GET_NEWGRFS sampleConstants fieldReader sampleRegistry
          [.uint8 200, .uint32 7, .md5sum 107, .string [83]] 5).p =
        (fieldReader.Recv_uint8 [.uint8 200, .uint32 7, .md5sum 107, .string [83]]).2 ∧
      (Server_PACKET_UDP_CLIENT_GET_NEWGRFS sampleConstants fieldReader sampleRegistry
          [.uint8 200, .uint32 7, .md5sum 107, .string [83]] 5).lookups = [] ∧
      (Server_PACKET_UDP_CLIENT_GET_NEWGRFS sampleConstants fieldReader sampleRegistry
          [.uint8 200, .uint32 7, .md5sum 107, .string [83]] 5).sent = []) ∧
    ((Client_PACKET_UDP_SERVER_NEWGRFS sampleConstants fieldReader
          [⟨7, 107, sampleConstants.UNKNOWN_GRF_NAME_PLACEHOLDER⟩]
          [.uint8 200, .uint32 7, .md5sum 107, .string [83]]).p =
        (fieldReader.Recv_uint8 [.uint8 200, .uint32 7, .md5sum 107, .string [83]]).2 ∧
      (Client_PACKET_UDP_SERVER_NEWGRFS sampleConstants fieldReader
          [⟨7, 107, sampleConstants.UNKNOWN_GRF_NAME_PLACEHOLDER⟩]
          [.uint8 200, .uint32 7, .md5sum 107, .string [83]]).unknown_grfs =
        [⟨7, 107, sampleConstants.UNKNOWN_GRF_NAME_PLACEHOLDER⟩]) :=
  ⟨by decide, oversized_count_rejected sampleConstants fieldReader sampleRegistry
    [⟨7, 107, sampleConstants.UNKNOWN_GRF_NAME_PLACEHOLDER⟩]
    [.uint8 200, .uint32 7, .md5sum 107, .string [83]] 5 (by decide)⟩

/-- The evaluation for C5: the table holds the placeholder for the pairs
(0, 0) and (7, 107); the reply announces two entries and ends after the first,
which names (7, 107) `B`. The second round of the loop reads past the end of
the packet: it reads the pair (0, 0), finds `B` still in the array `name`, and
renames (0, 0), which the reply does not mention. For every reply, a stored
name that was not the placeholder stays as it was, and so does the name of
every pair that is not among the pairs read in the rounds of the loop; the ids
and checksums of the table do not change. -/
theorem truncated_reply_renames_evaluated :
    storedName [⟨0, 0, sampleConstants.UNKNOWN_GRF_NAME_PLACEHOLDER⟩,
      ⟨7, 107, sampleConstants.UNKNOWN_GRF_NAME_PLACEHOLDER⟩] 0 0 =
      some sampleConstants.UNKNOWN_GRF_NAME_PLACEHOLDER ∧
    cutReply.fields = [.uint8 2, .uint32 7, .md5sum 107, .string [66]] ∧
    replyEntries sampleConstants cutReader 2 (cutReader.Recv_uint8 cutReply).2 =
      [(⟨7, 107⟩, [66]), (⟨0, 0⟩, [66])] ∧
    (Client_PACKET_UDP_SERVER_NEWGRFS sampleConstants cutReader
      [⟨0, 0, sampleConstants.UNKNOWN_GRF_NAME_PLACEHOLDER⟩,
        ⟨7, 107, sampleConstants.UNKNOWN_GRF_NAME_PLACEHOLDER⟩] cutReply).unknown_grfs =
      [⟨0, 0, [66]⟩, ⟨7, 107, [66]⟩] ∧
    storedName (Client_PACKET_UDP_SERVER_NEWGRFS sampleConstants cutReader
      [⟨0, 0, sampleConstants.UNKNOWN_GRF_NAME_PLACEHOLDER⟩,
        ⟨7, 107, sampleConstants.UNKNOWN_GRF_NAME_PLACEHOLDER⟩] cutReply).unknown_grfs 0 0 =
      some [66] ∧
    (∀ (P : Type) (K : Constants) (rd : PacketReader P) (unknown_grfs : List UnknownGRF) (p : P),
      List.Forall₂ (fun u v => v.grfid = u.grfid ∧ v.md5sum = u.md5sum ∧
          (u.name ≠ K.UNKNOWN_GRF_NAME_PLACEHOLDER → v.name = u.name) ∧
          (u.ident ∉ (replyEntries K rd ((rd.Recv_uint8 p).1 % 256) (rd.Recv_uint8 p).2).map
            Prod.fst → v.name = u.name))
        unknown_grfs (Client_PACKET_UDP_SERVER_NEWGRFS K rd unknown_grfs p).unknown_grfs ∧
      ∀ grfid md5sum : Nat,
        (storedName unknown_grfs grfid md5sum ≠ some K.UNKNOWN_GRF_NAME_PLACEHOLDER →
          storedName (Client_PACKET_UDP_SERVER_NEWGRFS K rd unknown_grfs p).unknown_grfs
            grfid md5sum = storedName unknown_grfs grfid md5sum) ∧
        ((⟨grfid, md5sum⟩ : GRFIdentifier) ∉
            (replyEntries K rd ((rd.Recv_uint8 p).1 % 256) (rd.Recv_uint8 p).2).map Prod.fst →
          storedName (Client_PACKET_UDP_SERVER_NEWGRFS K rd unknown_grfs p).unknown_grfs
            grfid md5sum = storedName unknown_grfs grfid md5sum)) :=
  ⟨by decide, rfl, by decide, by decide, by decide,
    fun _ K rd unknown_grfs p => ⟨client_table K rd unknown_grfs p,
      fun grfid md5sum =>
        storedName_kept K _ _ _ (client_table K rd unknown_grfs p) grfid md5sum⟩⟩

/-- The refutation of C6 as it is written: there is no client state with a
real name A for a pair and no reply carrying a non-empty real name B other
than A for that pair after which the stored name is B. In the example the
table holds the name `A` for the NewGRF 7, the reply carries the name `B` for
it, and the stored name is `A` afterwards. -/
theorem real_name_overwritten_counterexample :
    (¬ ∃ (P : Type) (K : Constants) (rd : PacketReader P) (unknown_grfs : List UnknownGRF) (p : P)
        (grfid md5sum : Nat) (A B : CString),
        storedName unknown_grfs grfid md5sum = some A ∧ A ≠ K.UNKNOWN_GRF_NAME_PLACEHOLDER ∧
        B ≠ [] ∧ B ≠ K.UNKNOWN_GRF_NAME_PLACEHOLDER ∧ B ≠ A ∧
        (⟨grfid, md5sum⟩, B) ∈
          replyEntries K rd ((rd.Recv_uint8 p).1 % 256) (rd.Recv_uint8 p).2 ∧
        storedName (Client_PACKET_UDP_SERVER_NEWGRFS K rd unknown_grfs p).unknown_grfs
          grfid md5sum = some B) ∧
    storedName (Client_PACKET_UDP_SERVER_NEWGRFS sampleConstants fieldReader [⟨7, 107, [65]⟩]
      [.uint8 1, .uint32 7, .md5sum 107, .string [66]]).unknown_grfs 7 107 = some [65] := by
  refine ⟨?_, by decide⟩
  rintro ⟨P, K, rd, t, p, grfid, md5sum, A, B, hA, hreal, -, -, hBA, -, hB⟩
  have h := (storedName_kept K _ _ _ (client_table K rd t p) grfid md5sum).1
    (by rw [hA]; exact fun h => hreal (Option.some.inj h))
  rw [hB, hA] at h
  exact hBA (Option.some.inj h)

/-- C6, amended: a content name that has been resolved to a real name is not
overwritten by a reply that carries a different real name: for every client
state in which the (id, checksum) pair holds a name A that is not the
placeholder, and every ContentNames reply, the stored name after handling the
reply is A, and so is no name B different from A. -/
theorem real_name_not_overwritten {P : Type} (K : Constants) (rd : PacketReader P)
    (unknown_grfs : List UnknownGRF) (p : P) (grfid md5sum : Nat) (A : CString)
    (hA : storedName unknown_grfs grfid md5sum = some A)
    (hreal : A ≠ K.UNKNOWN_GRF_NAME_PLACEHOLDER) :
    storedName (Client_PACKET_UDP_SERVER_NEWGRFS K rd unknown_grfs p).unknown_grfs grfid md5sum =
      some A ∧
    ∀ B : CString, B ≠ A →
      storedName (Client_PACKET_UDP_SERVER_NEWGRFS K rd unknown_grfs p).unknown_grfs
        grfid md5sum ≠ some B := by
  have h := (storedName_kept K _ _ _ (client_table K rd unknown_grfs p) grfid md5sum).1
    (by rw [hA]; exact fun h => hreal (Option.some.inj h))
  rw [hA] at h
  refine ⟨h, fun B hB hcon => ?_⟩
  rw [h] at hcon
  exact hB (Option.some.inj hcon).symm

/-- The witness of C6 as amended: the table holds the name `A` for the NewGRF
7 and the reply carries the name `B` for it. -/
theorem real_name_not_overwritten_witness :
    storedName [⟨7, 107, [65]⟩] 7 107 = some [65] ∧
    [65] ≠ sampleConstants.UNKNOWN_GRF_NAME_PLACEHOLDER ∧
    (storedName (Client_PACKET_UDP_SERVER_NEWGRFS sampleConstants fieldReader [⟨7, 107, [65]⟩]
        [.uint8 1, .uint32 7, .md5sum 107, .string [66]]).unknown_grfs 7 107 = some [65] ∧
      ∀ B : CString, B ≠ [65] →
        storedName (Client_PACKET_UDP_SERVER_NEWGRFS sampleConstants fieldReader [⟨7, 107, [65]⟩]
          [.uint8 1, .uint32 7, .md5sum 107, .string [66]]).unknown_grfs 7 107 ≠ some B) :=
  ⟨by decide, by decide,
    real_name_not_overwritten sampleConstants fieldReader [⟨7, 107, [65]⟩]
      [.uint8 1, .uint32 7, .md5sum 107, .string [66]] 7 107 [65] (by decide) (by decide)⟩

/-- The evaluation for C7: no retries are left, no request is pending, the
last attempt was at frame `2 ^ 32 - 6` and it is frame `2 ^ 32 - 1`, five ticks
later. The sum of line 504 wraps to 29994, which is not above the frame
counter, and so does the sum of line 509: `NetworkUDPAdvertise` reloads the
retries and starts a Register send. Whenever the sum of line 504 does not
wrap, a call with no retries left, no request pending and a frame counter
below that sum starts nothing and changes nothing, as at frame 450 after an
attempt at frame 100, where the retry interval has elapsed. -/
theorem normal_interval_wraps_evaluated :
    (wrappedServer 0)._network_advertise_retries = 0 ∧
    (wrappedServer 0)._network_need_advertise = false ∧
    (wrappedServer 0)._frame_counter <
      (wrappedServer 0)._network_last_advertise_frame + ADVERTISE_NORMAL_INTERVAL ∧
    ((wrappedServer 0)._network_last_advertise_frame + ADVERTISE_NORMAL_INTERVAL) % 2 ^ 32 =
      29994 ∧
    NetworkUDPAdvertise true (wrappedServer 0) =
      ({ wrappedServer 0 with
          _network_advertise_retries := 2, _network_last_advertise_frame := 4294967295 },
        [⟨.NetworkUDPAdvertiseThread, true⟩]) ∧
    (∀ (thread_ok : Bool) (g : Globals),
      g._network_advertise_retries = 0 → g._network_need_advertise = false →
      g._network_last_advertise_frame + ADVERTISE_NORMAL_INTERVAL < 2 ^ 32 →
      g._frame_counter < g._network_last_advertise_frame + ADVERTISE_NORMAL_INTERVAL →
      NetworkUDPAdvertise thread_ok g = (g, [])) ∧
    NetworkUDPAdvertise true waitingServer = (waitingServer, []) := by
  refine ⟨rfl, rfl, by decide, by decide, by decide, ?_, by decide⟩
  intro thread_ok g hretries hneed hwrap hframe
  unfold NetworkUDPAdvertise
  simp only [hneed, hretries]
  split
  · rfl
  · rw [Nat.mod_eq_of_lt hwrap]
    simp [hframe]

/-- The refutation of C8 as it is written: a tick that finds no retries left
once the normal interval has elapsed leaves 2 retries, and so does a tick
that finds the request flag set with 1 retry left. -/
theorem retries_grow_counterexample :
    (expiredServer._network_advertise_retries = 0 ∧
      (NetworkUDPAdvertise true expiredServer).1._network_advertise_retries = 2 ∧
      ¬ ((NetworkUDPAdvertise true expiredServer).1._network_advertise_retries ≤
        expiredServer._network_advertise_retries)) ∧
    ((requestedServer 1)._network_advertise_retries = 1 ∧
      (NetworkUDPAdvertise true (requestedServer 1)).1._network_advertise_retries = 2 ∧
      ¬ ((NetworkUDPAdvertise true (requestedServer 1)).1._network_advertise_retries ≤
        (requestedServer 1)._network_advertise_retries)) := by
  decide

/-- C8, amended: over every sequence of `NetworkUDPAdvertise` ticks, with any
frame counters and any settings of the request flag and of the other
variables between the ticks and no AckRegister, the retries after a tick are
at most the retries before it, unless the tick reloaded the counter: then it
found the request flag set or no retries left, and it leaves at most
`ADVERTISE_RETRY_TIMES`. While the frame of the last attempt plus
`ADVERTISE_NORMAL_INTERVAL` is within the 32 bits of the frame counters, a tick
that found no retries left reloads only with the normal interval elapsed, and
a reloading tick leaves `ADVERTISE_RETRY_TIMES - 1`. Each tick starts with the
retries that the tick before it left. -/
theorem retries_nonincreasing_unless_reloaded (g : Globals) (ticks : List (Bool × Globals)) :
    (∀ x ∈ advertiseRun g ticks,
      (x.2._network_advertise_retries ≤ x.1._network_advertise_retries ∨
        ((x.1._network_need_advertise = true ∨ x.1._network_advertise_retries = 0) ∧
          x.2._network_advertise_retries ≤ ADVERTISE_RETRY_TIMES)) ∧
      (x.1._network_last_advertise_frame + ADVERTISE_NORMAL_INTERVAL < 2 ^ 32 →
        x.2._network_advertise_retries ≤ x.1._network_advertise_retries ∨
        ((x.1._network_need_advertise = true ∨ (x.1._network_advertise_retries = 0 ∧
            x.1._network_last_advertise_frame + ADVERTISE_NORMAL_INTERVAL ≤ x.1._frame_counter)) ∧
          x.2._network_advertise_retries = ADVERTISE_RETRY_TIMES - 1))) ∧
    List.Chain (fun x y : Globals × Globals =>
        y.1._network_advertise_retries = x.2._network_advertise_retries)
      (g, g) (advertiseRun g ticks) := by
  induction ticks generalizing g with
  | nil => exact ⟨fun x hx => absurd hx (List.not_mem_nil x), List.Chain.nil⟩
  | cons t rest ih =>
    obtain ⟨thread_ok, e⟩ := t
    simp only [advertiseRun]
    refine ⟨fun x hx => ?_, List.Chain.cons rfl ?_⟩
    · rcases List.mem_cons.mp hx with h | h
      · rw [h]
        have hstep := advertise_retries_step thread_ok
          { e with _network_advertise_retries := g._network_advertise_retries }
        exact ⟨hstep.1.imp id (fun h2 => ⟨h2.1, h2.2.2⟩), hstep.2⟩
      · exact (ih _).1 x h
    · have h := (ih (NetworkUDPAdvertise thread_ok
        { e with _network_advertise_retries := g._network_advertise_retries }).1).2
      cases hr : advertiseRun (NetworkUDPAdvertise thread_ok
        { e with _network_advertise_retries := g._network_advertise_retries }).1 rest with
      | nil => exact List.Chain.nil
      | cons y ys =>
        rw [hr] at h
        cases h with
        | cons h1 h2 => exact List.Chain.cons h1 h2

/-- The witness of C8 as amended: a tick that finds no retries left once the
normal interval has elapsed, with a sum that does not wrap, leaves
`ADVERTISE_RETRY_TIMES - 1` retries. -/
theorem retries_nonincreasing_unless_reloaded_witness :
    advertiseRun expiredServer [(true, expiredServer)] =
      [(expiredServer,
        { expiredServer with
            _network_advertise_retries := 2, _network_last_advertise_frame := 30000 })] ∧
    expiredServer._network_last_advertise_frame + ADVERTISE_NORMAL_INTERVAL < 2 ^ 32 ∧
    ((2 : Nat) ≤ expiredServer._network_advertise_retries ∨
      ((expiredServer._network_need_advertise = true ∨
          (expiredServer._network_advertise_retries = 0 ∧
            expiredServer._network_last_advertise_frame + ADVERTISE_NORMAL_INTERVAL ≤
              expiredServer._frame_counter)) ∧
        (2 : Nat) = ADVERTISE_RETRY_TIMES - 1)) :=
  ⟨by decide, by decide,
    ((retries_nonincreasing_unless_reloaded expiredServer [(true, expiredServer)]).1
      (expiredServer,
        { expiredServer with
            _network_advertise_retries := 2, _network_last_advertise_frame := 30000 })
      (by decide)).2 (by decide)⟩

/-- The evaluation for C9: an advertising server with 2 retries left and no
request pending, the last attempt at frame `2 ^ 32 - 6` and the frame counter
at `2 ^ 32 - 1`, five ticks later. The sum of line 509 wraps to 294, which is
not above the frame counter: `NetworkUDPAdvertise` starts a Register send
although the retry interval has not elapsed. Whenever that sum does not wrap,
the send is started if and only if the frame counter is at least the frame of
the last attempt plus `ADVERTISE_RETRY_INTERVAL`; then the retries decrease by
one, the frame of the last attempt becomes the frame counter, nothing else
changes and the procedure hands one Register packet to the master socket if
that exists; otherwise nothing is started and nothing changes. With 2 retries
left and the last attempt at frame 100, the send is started at frame 400 and
not at frame 399. -/
theorem retry_interval_wraps_evaluated :
    (wrappedServer 2)._networking = true ∧ (wrappedServer 2)._network_server = true ∧
    (wrappedServer 2)._network_udp_server = true ∧ (wrappedServer 2).server_advertise = true ∧
    (wrappedServer 2)._network_need_advertise = false ∧
    (wrappedServer 2)._network_advertise_retries = 2 ∧
    (wrappedServer 2)._frame_counter <
      (wrappedServer 2)._network_last_advertise_frame + ADVERTISE_RETRY_INTERVAL ∧
    ((wrappedServer 2)._network_last_advertise_frame + ADVERTISE_RETRY_INTERVAL) % 2 ^ 32 = 294 ∧
    NetworkUDPAdvertise true (wrappedServer 2) =
      ({ wrappedServer 2 with
          _network_advertise_retries := 1, _network_last_advertise_frame := 4294967295 },
        [⟨.NetworkUDPAdvertiseThread, true⟩]) ∧
    (∀ (thread_ok : Bool) (g : Globals) (M : MasterServerConstants),
      g._networking = true → g._network_server = true → g._network_udp_server = true →
      g.server_advertise = true → g._network_need_advertise = false →
      0 < g._network_advertise_retries → g._network_advertise_retries < 2 ^ 8 →
      g._network_last_advertise_frame + ADVERTISE_RETRY_INTERVAL < 2 ^ 32 →
      ((NetworkUDPAdvertise thread_ok g).2 = [⟨.NetworkUDPAdvertiseThread, thread_ok⟩] ↔
        g._network_last_advertise_frame + ADVERTISE_RETRY_INTERVAL ≤ g._frame_counter) ∧
      (g._network_last_advertise_frame + ADVERTISE_RETRY_INTERVAL ≤ g._frame_counter →
        (NetworkUDPAdvertise thread_ok g).1._network_advertise_retries + 1 =
          g._network_advertise_retries ∧
        (NetworkUDPAdvertise thread_ok g).1._network_last_advertise_frame = g._frame_counter ∧
        (NetworkUDPAdvertise thread_ok g).1 =
          { g with _network_advertise_retries := g._network_advertise_retries - 1
                   _network_last_advertise_frame := g._frame_counter } ∧
        (g._udp_master_socket = true →
          NetworkUDPAdvertiseThread M (NetworkUDPAdvertise thread_ok g).1 =
            [(⟨.PACKET_UDP_SERVER_REGISTER,
              [.string M.NETWORK_MASTER_SERVER_WELCOME_MESSAGE,
                .uint8 M.NETWORK_MASTER_SERVER_VERSION, .uint16 g.server_port,
                .uint64 g._session_key]⟩, M.NETWORK_MASTER_SERVER_HOST)])) ∧
      (g._frame_counter < g._network_last_advertise_frame + ADVERTISE_RETRY_INTERVAL →
        NetworkUDPAdvertise thread_ok g = (g, []))) ∧
    NetworkUDPAdvertise true retryingServer =
      ({ retryingServer with
          _network_advertise_retries := 1, _network_last_advertise_frame := 400 },
        [⟨.NetworkUDPAdvertiseThread, true⟩]) ∧
    NetworkUDPAdvertise true { retryingServer with _frame_counter := 399 } =
      ({ retryingServer with _frame_counter := 399 }, []) := by
  refine ⟨rfl, rfl, rfl, rfl, rfl, rfl, by decide, by decide, by decide, ?_, by decide,
    by decide⟩
  intro thread_ok g M hnet hserver hudp hadv hneed hretries hbyte hwrap
  have hdec : (g._network_advertise_retries + 255) % 2 ^ 8 = g._network_advertise_retries - 1 := by
    omega
  have h := advertise_with_retries thread_ok g hnet hserver hudp hadv hneed hretries
  rw [Nat.mod_eq_of_lt hwrap, hdec] at h
  rw [h]
  by_cases hf : g._network_last_advertise_frame + ADVERTISE_RETRY_INTERVAL > g._frame_counter
  · rw [if_pos hf]
    refine ⟨⟨fun h2 => ?_, fun h2 => ?_⟩, fun h2 => ?_, fun _ => rfl⟩
    · exact absurd h2 (List.cons_ne_nil _ _).symm
    · omega
    · omega
  · rw [if_neg hf]
    refine ⟨⟨fun _ => ?_, fun _ => rfl⟩, fun _ => ⟨?_, rfl, rfl, ?_⟩, fun h2 => ?_⟩
    · omega
    · show g._network_advertise_retries - 1 + 1 = g._network_advertise_retries
      omega
    · intro hs
      exact advertiseThread_packet M _ hs
    · omega

/-- C10: when a fresh registration request is pending on an advertising
server (networking, server, UDP server role and the advertise setting all
on), a call of `NetworkUDPAdvertise` attempts at once, whatever the frame
counter, the frame of the last attempt and the retries are: it starts exactly
one Register send, clears the request flag, sets the frame of the last attempt
to the frame counter and leaves `ADVERTISE_RETRY_TIMES - 1` retries, the
counter being set to `ADVERTISE_RETRY_TIMES` and then decremented; nothing
else changes, and the started procedure hands exactly one Register packet to
the master socket if that exists. -/
theorem fresh_request_attempts_at_once (thread_ok : Bool) (g : Globals)
    (M : MasterServerConstants)
    (hnet : g._networking = true) (hserver : g._network_server = true)
    (hudp : g._network_udp_server = true) (hadv : g.server_advertise = true)
    (hneed : g._network_need_advertise = true) :
    (NetworkUDPAdvertise thread_ok g).2 = [⟨.NetworkUDPAdvertiseThread, thread_ok⟩] ∧
    (NetworkUDPAdvertise thread_ok g).1._network_need_advertise = false ∧
    (NetworkUDPAdvertise thread_ok g).1._network_last_advertise_frame = g._frame_counter ∧
    (NetworkUDPAdvertise thread_ok g).1._network_advertise_retries = ADVERTISE_RETRY_TIMES - 1 ∧
    (NetworkUDPAdvertise thread_ok g).1 =
      { g with _network_need_advertise := false
               _network_advertise_retries := ADVERTISE_RETRY_TIMES - 1
               _network_last_advertise_frame := g._frame_counter } ∧
    (g._udp_master_socket = true →
      NetworkUDPAdvertiseThread M (NetworkUDPAdvertise thread_ok g).1 =
        [(⟨.PACKET_UDP_SERVER_REGISTER,
          [.string M.NETWORK_MASTER_SERVER_WELCOME_MESSAGE,
            .uint8 M.NETWORK_MASTER_SERVER_VERSION, .uint16 g.server_port,
            .uint64 g._session_key]⟩, M.NETWORK_MASTER_SERVER_HOST)]) := by
  have h : NetworkUDPAdvertise thread_ok g =
      ({ g with _network_need_advertise := false
                _network_advertise_retries := ADVERTISE_RETRY_TIMES - 1
                _network_last_advertise_frame := g._frame_counter },
        [⟨.NetworkUDPAdvertiseThread, thread_ok⟩]) := by
    unfold NetworkUDPAdvertise advertiseAttempt startThread
    simp only [hnet, hserver, hudp, hadv, hneed]
    cases thread_ok <;> simp [ADVERTISE_RETRY_TIMES]
  rw [h]
  refine ⟨rfl, rfl, rfl, rfl, rfl, fun hs => ?_⟩
  simp [NetworkUDPAdvertiseThread, hs, Packet.new, Packet.Send_string, Packet.Send_uint8,
    Packet.Send_uint16, Packet.Send_uint64]

/-- The witness of C10: an advertising server with the request flag set, no
retries left and the last attempt one frame ago; `ThreadObject::New` fails
and the procedure is called in place. -/
theorem fresh_request_attempts_at_once_witness :
    (requestedServer 0)._networking = true ∧ (requestedServer 0)._network_server = true ∧
    (requestedServer 0)._network_udp_server = true ∧
    (requestedServer 0).server_advertise = true ∧
    (requestedServer 0)._network_need_advertise = true ∧
    (NetworkUDPAdvertise false (requestedServer 0)).1._network_advertise_retries = 2 ∧
    ((NetworkUDPAdvertise false (requestedServer 0)).2 = [⟨.NetworkUDPAdvertiseThread, false⟩] ∧
      (NetworkUDPAdvertise false (requestedServer 0)).1._network_need_advertise = false ∧
      (NetworkUDPAdvertise false (requestedServer 0)).1._network_last_advertise_frame =
        (requestedServer 0)._frame_counter ∧
      (NetworkUDPAdvertise false (requestedServer 0)).1._network_advertise_retries =
        ADVERTISE_RETRY_TIMES - 1 ∧
      (NetworkUDPAdvertise false (requestedServer 0)).1 =
        { requestedServer 0 with
            _network_need_advertise := false
            _network_advertise_retries := ADVERTISE_RETRY_TIMES - 1
            _network_last_advertise_frame := (requestedServer 0)._frame_counter } ∧
      ((requestedServer 0)._udp_master_socket = true →
        NetworkUDPAdvertiseThread sampleMaster (NetworkUDPAdvertise false (requestedServer 0)).1 =
          [(⟨.PACKET_UDP_SERVER_REGISTER,
            [.string sampleMaster.NETWORK_MASTER_SERVER_WELCOME_MESSAGE,
              .uint8 sampleMaster.NETWORK_MASTER_SERVER_VERSION,
              .uint16 (requestedServer 0).server_port,
              .uint64 (requestedServer 0)._session_key]⟩,
            sampleMaster.NETWORK_MASTER_SERVER_HOST)])) :=
  ⟨by decide, by decide, by decide, by decide, by decide, by decide,
    fresh_request_attempts_at_once false (requestedServer 0) sampleMaster (by decide) (by decide)
      (by decide) (by decide) (by decide)⟩

/-- C11: for every prior state, handling an AckRegister sets the retries to
zero and changes nothing else. When the advertise setting is off and the
process is a networked server with the UDP server role active, it starts
exactly one Unregister send, whose procedure hands one packet with the
protocol version and the server port to the master socket if that exists;
when the advertise setting is on, it starts nothing.
`NetworkUDPRemoveAdvertise` itself starts nothing unless networking, server
and UDP server role are all on. -/
theorem ack_register_resets_retries (thread_ok : Bool) (g : Globals) (M : MasterServerConstants) :
    (Master_PACKET_UDP_MASTER_ACK_REGISTER thread_ok g).1._network_advertise_retries = 0 ∧
    (Master_PACKET_UDP_MASTER_ACK_REGISTER thread_ok g).1 =
      { g with _network_advertise_retries := 0 } ∧
    (g.server_advertise = false → g._networking = true → g._network_server = true →
      g._network_udp_server = true →
      (Master_PACKET_UDP_MASTER_ACK_REGISTER thread_ok g).2 =
        [⟨.NetworkUDPRemoveAdvertiseThread, thread_ok⟩] ∧
      (g._udp_master_socket = true →
        NetworkUDPRemoveAdvertiseThread M (Master_PACKET_UDP_MASTER_ACK_REGISTER thread_ok g).1 =
          [(⟨.PACKET_UDP_SERVER_UNREGISTER,
            [.uint8 M.NETWORK_MASTER_SERVER_VERSION, .uint16 g.server_port]⟩,
            M.NETWORK_MASTER_SERVER_HOST)])) ∧
    (g.server_advertise = true → (Master_PACKET_UDP_MASTER_ACK_REGISTER thread_ok g).2 = []) ∧
    ((g._networking = false ∨ g._network_server = false ∨ g._network_udp_server = false) →
      NetworkUDPRemoveAdvertise thread_ok g = (g, []) ∧
      (Master_PACKET_UDP_MASTER_ACK_REGISTER thread_ok g).2 = []) ∧
    (g._networking = true → g._network_server = true → g._network_udp_server = true →
      NetworkUDPRemoveAdvertise thread_ok g =
        (g, [⟨.NetworkUDPRemoveAdvertiseThread, thread_ok⟩])) := by
  refine ⟨?_, ?_, ?_, ?_, ?_, ?_⟩
  · unfold Master_PACKET_UDP_MASTER_ACK_REGISTER NetworkUDPRemoveAdvertise
    simp only []
    split_ifs <;> rfl
  · unfold Master_PACKET_UDP_MASTER_ACK_REGISTER NetworkUDPRemoveAdvertise
    simp only []
    split_ifs <;> rfl
  · intro ha hn hs hu
    have h : Master_PACKET_UDP_MASTER_ACK_REGISTER thread_ok g =
        ({ g with _network_advertise_retries := 0 },
          [⟨.NetworkUDPRemoveAdvertiseThread, thread_ok⟩]) := by
      unfold Master_PACKET_UDP_MASTER_ACK_REGISTER NetworkUDPRemoveAdvertise startThread
      simp only [ha, hn, hs, hu]
      cases thread_ok <;> simp
    rw [h]
    refine ⟨rfl, fun hm => ?_⟩
    simp [NetworkUDPRemoveAdvertiseThread, hm, Packet.new, Packet.Send_uint8, Packet.Send_uint16]
  · intro ha
    simp [Master_PACKET_UDP_MASTER_ACK_REGISTER, ha]
  · intro h
    have h1 : ∀ g1 : Globals, g1._networking = g._networking →
        g1._network_server = g._network_server → g1._network_udp_server = g._network_udp_server →
        NetworkUDPRemoveAdvertise thread_ok g1 = (g1, []) := by
      intro g1 e1 e2 e3
      unfold NetworkUDPRemoveAdvertise
      rw [e1, e2, e3]
      rcases h with h | h | h <;> simp [h]
    refine ⟨h1 g rfl rfl rfl, ?_⟩
    unfold Master_PACKET_UDP_MASTER_ACK_REGISTER
    simp only []
    split
    · exact congrArg Prod.snd (h1 { g with _network_advertise_retries := 0 } rfl rfl rfl)
    · rfl
  · intro hn hs hu
    unfold NetworkUDPRemoveAdvertise startThread
    simp only [hn, hs, hu]
    cases thread_ok <;> simp

/-- The witness of C11: a server whose advertise setting was switched off and
which has one retry left handles an AckRegister: the retries are zero and one
Unregister packet with the version 2 and the port 3979 goes to the master
server; with the setting on, nothing is started. -/
theorem ack_register_resets_retries_witness :
    (Master_PACKET_UDP_MASTER_ACK_REGISTER true
      { advertisingServer with server_advertise := false, _network_advertise_retries := 1 }).1 =
      { advertisingServer with server_advertise := false, _network_advertise_retries := 0 } ∧
    (Master_PACKET_UDP_MASTER_ACK_REGISTER true
      { advertisingServer with server_advertise := false, _network_advertise_retries := 1 }).2 =
      [⟨.NetworkUDPRemoveAdvertiseThread, true⟩] ∧
    NetworkUDPRemoveAdvertiseThread sampleMaster
      { advertisingServer with server_advertise := false, _network_advertise_retries := 0 } =
      [(⟨.PACKET_UDP_SERVER_UNREGISTER, [.uint8 2, .uint16 3979]⟩, 1)] ∧
    (Master_PACKET_UDP_MASTER_ACK_REGISTER true
      { advertisingServer with _network_advertise_retries := 1 }).2 = [] :=
  ⟨(ack_register_resets_retries true
      { advertisingServer with server_advertise := false, _network_advertise_retries := 1 }
      sampleMaster).2.1,
    ((ack_register_resets_retries true
      { advertisingServer with server_advertise := false, _network_advertise_retries := 1 }
      sampleMaster).2.2.1 rfl rfl rfl rfl).1,
    ((ack_register_resets_retries true
      { advertisingServer with server_advertise := false, _network_advertise_retries := 1 }
      sampleMaster).2.2.1 rfl rfl rfl rfl).2 rfl,
    (ack_register_resets_retries true { advertisingServer with _network_advertise_retries := 1 }
      sampleMaster).2.2.2.1 rfl⟩

/-- C19: starting with the three sockets all NULL, after every sequence of
calls of `NetworkUDPInitialize` and of `NetworkUDPClose`, the latter made
while a socket exists, no call has failed (the assertion of
`NetworkUDPInitialize` included) and the three sockets are all NULL or all
exist. In the state reached, a call of `NetworkUDPInitialize` ends with the
three sockets created, a call of `NetworkUDPClose` made while a socket exists
ends with the three sockets NULL, and both leave the server role flag false
and the discovery window at zero. -/
theorem sockets_all_or_none (g : Globals) (calls : List SocketCall) (hnull : socketsNull g)
    (hcalls : closedWhileOpen g calls) :
    ∃ g1, runSocketCalls g calls = .ok g1 ∧ (socketsNull g1 ∨ socketsOpen g1) ∧
      (∃ g2, NetworkUDPInitialize g1 = .ok g2 ∧ socketsOpen g2 ∧
        g2._network_udp_server = false ∧ g2._network_udp_broadcast = 0) ∧
      ((g1._udp_client_socket || g1._udp_server_socket || g1._udp_master_socket) = true →
        ∃ g2, NetworkUDPClose g1 = .ok g2 ∧ socketsNull g2 ∧
          g2._network_udp_server = false ∧ g2._network_udp_broadcast = 0) := by
  obtain ⟨g1, hrun, hinv⟩ := runSocketCalls_all_or_none g calls (Or.inl hnull) hcalls
  exact ⟨g1, hrun, hinv, initialize_of_all_or_none g1 hinv,
    fun hsome => close_of_open g1 (open_of_some_socket g1 hinv hsome)⟩

/-- The witness of C19: the sockets are created, created again, closed and
created. -/
theorem sockets_all_or_none_witness :
    socketsNull closedServer ∧
    closedWhileOpen closedServer
      [.NetworkUDPInitialize, .NetworkUDPInitialize, .NetworkUDPClose, .NetworkUDPInitialize] ∧
    ∃ g1, runSocketCalls closedServer
        [.NetworkUDPInitialize, .NetworkUDPInitialize, .NetworkUDPClose, .NetworkUDPInitialize] =
          .ok g1 ∧
      (socketsNull g1 ∨ socketsOpen g1) ∧
      (∃ g2, NetworkUDPInitialize g1 = .ok g2 ∧ socketsOpen g2 ∧
        g2._network_udp_server = false ∧ g2._network_udp_broadcast = 0) ∧
      ((g1._udp_client_socket || g1._udp_server_socket || g1._udp_master_socket) = true →
        ∃ g2, NetworkUDPClose g1 = .ok g2 ∧ socketsNull g2 ∧
          g2._network_udp_server = false ∧ g2._network_udp_broadcast = 0) :=
  ⟨⟨rfl, rfl, rfl⟩, by simp [closedWhileOpen, runSocketCall, NetworkUDPInitialize, NetworkUDPClose,
      createSockets, closedServer, advertisingServer],
    sockets_all_or_none closedServer
      [.NetworkUDPInitialize, .NetworkUDPInitialize, .NetworkUDPClose, .NetworkUDPInitialize]
      ⟨rfl, rfl, rfl⟩
      (by simp [closedWhileOpen, runSocketCall, NetworkUDPInitialize, NetworkUDPClose,
        createSockets, closedServer, advertisingServer])⟩

/-- The refutation of C12 as it is written: a tick starts the Register send
in a thread; the procedure reads the port and then, at line 483, the session
key, which is 0; a SessionKey message with the key 6 is handled; then the
procedure takes the mutex and sends the packet that it assembled. The packet
carries the key 0, and the last SessionKey message handled before the send had
the key 6. -/
theorem register_key_stale_counterexample :
    udpRun sampleMaster ⟨{ requestedServer 0 with _session_key := 0 }, []⟩
        [.advertise true, .threadRuns 0, .threadRuns 0, .sessionKey 6] =
      .ok ⟨{ requestedServer 0 with
          _session_key := 6, _network_need_advertise := false, _network_advertise_retries := 2,
          _network_last_advertise_frame := 101 },
        [⟨.NetworkUDPAdvertiseThread, some 3979, some 0⟩]⟩ ∧
    udpStep sampleMaster ⟨{ requestedServer 0 with
          _session_key := 6, _network_need_advertise := false, _network_advertise_retries := 2,
          _network_last_advertise_frame := 101 },
        [⟨.NetworkUDPAdvertiseThread, some 3979, some 0⟩]⟩ (.threadRuns 0) =
      .ok (⟨{ requestedServer 0 with
          _session_key := 6, _network_need_advertise := false, _network_advertise_retries := 2,
          _network_last_advertise_frame := 101 }, []⟩,
        [(⟨.PACKET_UDP_SERVER_REGISTER,
          [.string [79, 112, 101, 110, 84, 84, 68], .uint8 2, .uint16 3979, .uint64 0]⟩, 1)]) ∧
    lastSessionKey [.advertise true, .threadRuns 0, .threadRuns 0, .sessionKey 6] = 6 ∧
    Field.uint64 0 ≠
      Field.uint64 (lastSessionKey [.advertise true, .threadRuns 0, .threadRuns 0, .sessionKey 6]) :=
  ⟨rfl, rfl, rfl, by decide⟩

/-- C12, amended: for every sequence of SessionKey and AckRegister messages,
advertise ticks, calls of `NetworkUDPInitialize` and `NetworkUDPClose`, changes
of the other global variables and statements of the procedures that run in a
thread, beginning with a session key of zero and no such procedure: the
session key is the 64-bit value of the last SessionKey message handled (zero
when there was none), nothing else writes it, and every Register packet sent
at the next event carries, in this order, the welcome string, the protocol
version, a server port and the session key as it was when the packet was
assembled, which is the value of the last SessionKey message handled by then,
and goes to the master server. A procedure that runs in place sends the
session key as it is at the send; a procedure in a thread reads at line 483
the session key as it is then, and sends the key that it has read. -/
theorem register_carries_key_of_assembly (M : MasterServerConstants) (s0 : UDPState)
    (evs : List UDPEvent) (e : UDPEvent) (s : UDPState)
    (r : UDPState × List (Packet × NetworkAddress))
    (hkey : s0.g._session_key = 0) (hstart : s0.pending = [])
    (hrun : udpRun M s0 evs = .ok s) (hstep : udpStep M s e = .ok r) :
    s.g._session_key = lastSessionKey evs ∧
    r.1.g._session_key = keyAfter (lastSessionKey evs) e ∧
    (∀ x ∈ r.2, x.1.type = .PACKET_UDP_SERVER_REGISTER →
      (∃ port n, n ≤ evs.length ∧
        x.1.fields = [.string M.NETWORK_MASTER_SERVER_WELCOME_MESSAGE,
          .uint8 M.NETWORK_MASTER_SERVER_VERSION, .uint16 port,
          .uint64 (lastSessionKey (evs.take n))] ∧
        x.2 = M.NETWORK_MASTER_SERVER_HOST) ∧
      ((∃ thread_ok, e = .advertise thread_ok ∨ e = .ackRegister thread_ok) →
        x.1.fields = [.string M.NETWORK_MASTER_SERVER_WELCOME_MESSAGE,
          .uint8 M.NETWORK_MASTER_SERVER_VERSION, .uint16 r.1.g.server_port,
          .uint64 (lastSessionKey evs)])) ∧
    (∀ (proc : ThreadProc) (port : Nat),
      threadStep M s.g ⟨.NetworkUDPAdvertiseThread, some port, none⟩ =
        (some ⟨.NetworkUDPAdvertiseThread, some port, some (lastSessionKey evs)⟩, []) ∧
      ∀ (key : Nat) (x : Packet × NetworkAddress),
        x ∈ (threadStep M s.g ⟨proc, some port, some key⟩).2 →
        x.1.type = .PACKET_UDP_SERVER_REGISTER →
        x.1.fields = [.string M.NETWORK_MASTER_SERVER_WELCOME_MESSAGE,
          .uint8 M.NETWORK_MASTER_SERVER_VERSION, .uint16 port, .uint64 key]) := by
  have hinv := udpRun_keysRead M evs s0 s hkey hstart hrun
  refine ⟨hinv.1, ?_, fun x hx ht => udpStep_register M evs s e r hinv.1 hinv.2 hstep x hx ht,
    fun proc port => ⟨?_, fun key x hx ht => ?_⟩⟩
  · rw [udpStep_session_key M s e r hstep, hinv.1]
  · rw [← hinv.1]
    rfl
  · obtain ⟨port1, key1, hp, hk, hf, -⟩ := threadStep_register M s.g _ x hx ht
    simp only [Option.some.injEq] at hp hk
    rw [hp, hk]
    exact hf

/-- The witness of C12 as amended: the session keys 5 and 6 arrive, then a tick
with a pending registration request, where no thread can be had, sends a
Register packet with the key 6. -/
theorem register_carries_key_of_assembly_witness :
    (UDPState.mk { requestedServer 0 with _session_key := 0 } []).g._session_key = 0 ∧
    (UDPState.mk { requestedServer 0 with _session_key := 0 } []).pending = [] ∧
    udpRun sampleMaster ⟨{ requestedServer 0 with _session_key := 0 }, []⟩
        [.sessionKey 5, .ackRegister true, .sessionKey 6] =
      .ok ⟨{ requestedServer 0 with _session_key := 6 }, []⟩ ∧
    udpStep sampleMaster ⟨{ requestedServer 0 with _session_key := 6 }, []⟩ (.advertise false) =
      .ok (⟨{ requestedServer 0 with
          _session_key := 6, _network_need_advertise := false, _network_advertise_retries := 2,
          _network_last_advertise_frame := 101 }, []⟩,
        [(⟨.PACKET_UDP_SERVER_REGISTER,
          [.string [79, 112, 101, 110, 84, 84, 68], .uint8 2, .uint16 3979, .uint64 6]⟩, 1)]) ∧
    ((UDPState.mk { requestedServer 0 with _session_key := 6 } []).g._session_key =
        lastSessionKey [.sessionKey 5, .ackRegister true, .sessionKey 6] ∧
      (UDPState.mk { requestedServer 0 with
          _session_key := 6, _network_need_advertise := false, _network_advertise_retries := 2,
          _network_last_advertise_frame := 101 } []).g._session_key =
        keyAfter (lastSessionKey [.sessionKey 5, .ackRegister true, .sessionKey 6])
          (.advertise false) ∧
      (∀ x ∈ [((⟨.PACKET_UDP_SERVER_REGISTER,
          [.string [79, 112, 101, 110, 84, 84, 68], .uint8 2, .uint16 3979, .uint64 6]⟩, 1) :
          Packet × NetworkAddress)],
        x.1.type = .PACKET_UDP_SERVER_REGISTER →
        (∃ port n, n ≤ [UDPEvent.sessionKey 5, .ackRegister true, .sessionKey 6].length ∧
          x.1.fields = [.string sampleMaster.NETWORK_MASTER_SERVER_WELCOME_MESSAGE,
            .uint8 sampleMaster.NETWORK_MASTER_SERVER_VERSION, .uint16 port,
            .uint64 (lastSessionKey
              ([UDPEvent.sessionKey 5, .ackRegister true, .sessionKey 6].take n))] ∧
          x.2 = sampleMaster.NETWORK_MASTER_SERVER_HOST) ∧
        ((∃ thread_ok, UDPEvent.advertise false = .advertise thread_ok ∨
            UDPEvent.advertise false = .ackRegister thread_ok) →
          x.1.fields = [.string sampleMaster.NETWORK_MASTER_SERVER_WELCOME_MESSAGE,
            .uint8 sampleMaster.NETWORK_MASTER_SERVER_VERSION, .uint16 3979,
            .uint64 (lastSessionKey [.sessionKey 5, .ackRegister true, .sessionKey 6])])) ∧
      (∀ (proc : ThreadProc) (port : Nat),
        threadStep sampleMaster { requestedServer 0 with _session_key := 6 }
            ⟨.NetworkUDPAdvertiseThread, some port, none⟩ =
          (some ⟨.NetworkUDPAdvertiseThread, some port,
            some (lastSessionKey [.sessionKey 5, .ackRegister true, .sessionKey 6])⟩, []) ∧
        ∀ (key : Nat) (x : Packet × NetworkAddress),
          x ∈ (threadStep sampleMaster { requestedServer 0 with _session_key := 6 }
            ⟨proc, some port, some key⟩).2 →
          x.1.type = .PACKET_UDP_SERVER_REGISTER →
          x.1.fields = [.string sampleMaster.NETWORK_MASTER_SERVER_WELCOME_MESSAGE,
            .uint8 sampleMaster.NETWORK_MASTER_SERVER_VERSION, .uint16 port, .uint64 key])) :=
  ⟨rfl, rfl, rfl, rfl,
    register_carries_key_of_assembly sampleMaster
      ⟨{ requestedServer 0 with _session_key := 0 }, []⟩
      [.sessionKey 5, .ackRegister true, .sessionKey 6] (.advertise false)
      ⟨{ requestedServer 0 with _session_key := 6 }, []⟩ _ rfl rfl rfl rfl⟩

/-- C20: the retries stay within 0 and `ADVERTISE_RETRY_TIMES` under
`NetworkUDPAdvertise`, for any frame counter, flags and settings, and under
the handler of AckRegister, which leaves them at zero. The decrement of line
513 is that of a `uint8`, which takes 0 to 255; it never meets a zero: a call
of `NetworkUDPAdvertise` changes nothing, or reloads the retries to
`ADVERTISE_RETRY_TIMES` and returns at line 510, or is the attempt of lines
513-518 made with a counter of at least 1, which it leaves one lower. A tick
of an advertising server that finds no retries left once the normal interval
has elapsed makes the attempt with `ADVERTISE_RETRY_TIMES` retries and leaves
`ADVERTISE_RETRY_TIMES - 1`. -/
theorem retries_stay_within_bounds (thread_ok : Bool) (g : Globals)
    (hbound : g._network_advertise_retries ≤ ADVERTISE_RETRY_TIMES) :
    (NetworkUDPAdvertise thread_ok g).1._network_advertise_retries ≤ ADVERTISE_RETRY_TIMES ∧
    (Master_PACKET_UDP_MASTER_ACK_REGISTER thread_ok g).1._network_advertise_retries = 0 ∧
    (advertiseAttempt thread_ok { g with _network_advertise_retries := 0 }).1._network_advertise_retries =
      255 ∧
    (NetworkUDPAdvertise thread_ok g = (g, []) ∨
      NetworkUDPAdvertise thread_ok g =
        ({ g with _network_advertise_retries := ADVERTISE_RETRY_TIMES }, []) ∨
      ∃ g1 : Globals, 1 ≤ g1._network_advertise_retries ∧
        g1._network_advertise_retries ≤ ADVERTISE_RETRY_TIMES ∧
        NetworkUDPAdvertise thread_ok g = advertiseAttempt thread_ok g1 ∧
        (NetworkUDPAdvertise thread_ok g).1._network_advertise_retries + 1 =
          g1._network_advertise_retries) ∧
    (g._networking = true → g._network_server = true → g._network_udp_server = true →
      g.server_advertise = true → g._network_need_advertise = false →
      g._network_advertise_retries = 0 → g._frame_counter < 2 ^ 32 →
      g._network_last_advertise_frame + ADVERTISE_NORMAL_INTERVAL ≤ g._frame_counter →
      NetworkUDPAdvertise thread_ok g =
        advertiseAttempt thread_ok { g with _network_advertise_retries := ADVERTISE_RETRY_TIMES } ∧
      (NetworkUDPAdvertise thread_ok g).1._network_advertise_retries =
        ADVERTISE_RETRY_TIMES - 1) := by
  have hcases := advertise_decrement_positive thread_ok g hbound
  have hdec : ∀ g1 : Globals, 1 ≤ g1._network_advertise_retries →
      g1._network_advertise_retries ≤ ADVERTISE_RETRY_TIMES →
      (advertiseAttempt thread_ok g1).1._network_advertise_retries + 1 =
        g1._network_advertise_retries := by
    intro g1 h1 h2
    show (g1._network_advertise_retries + 255) % 2 ^ 8 + 1 = g1._network_advertise_retries
    simp only [ADVERTISE_RETRY_TIMES] at h2
    omega
  refine ⟨?_, ?_, rfl, ?_, ?_⟩
  · rcases hcases with h | h | ⟨g1, h1, h2, h⟩
    · rw [h]; exact hbound
    · rw [h]
    · rw [h]
      have := hdec g1 h1 h2
      omega
  · unfold Master_PACKET_UDP_MASTER_ACK_REGISTER NetworkUDPRemoveAdvertise
    simp only []
    split_ifs <;> rfl
  · rcases hcases with h | h | ⟨g1, h1, h2, h⟩
    · exact Or.inl h
    · exact Or.inr (Or.inl h)
    · refine Or.inr (Or.inr ⟨g1, h1, h2, h, ?_⟩)
      rw [h]
      exact hdec g1 h1 h2
  · intro hn hs hu ha hneed h0 hrange hf
    have h : NetworkUDPAdvertise thread_ok g =
        advertiseAttempt thread_ok { g with _network_advertise_retries := ADVERTISE_RETRY_TIMES } := by
      unfold NetworkUDPAdvertise advertiseRetry
      simp only [hn, hs, hu, ha, hneed, h0]
      simp only [ADVERTISE_NORMAL_INTERVAL, ADVERTISE_RETRY_INTERVAL] at *
      have e1 : ¬ (g._frame_counter < (g._network_last_advertise_frame + 30000) % 4294967296) := by
        omega
      have e2 : ¬ (g._frame_counter < (g._network_last_advertise_frame + 300) % 4294967296) := by
        omega
      simp [e1, e2]
    rw [h]
    refine ⟨rfl, ?_⟩
    show (ADVERTISE_RETRY_TIMES + 255) % 2 ^ 8 = ADVERTISE_RETRY_TIMES - 1
    norm_num [ADVERTISE_RETRY_TIMES]

/-- The witness of C20: an advertising server with no retries left once the
normal interval has elapsed; the tick leaves 2 retries. -/
theorem retries_stay_within_bounds_witness :
    expiredServer._network_advertise_retries ≤ ADVERTISE_RETRY_TIMES ∧
    (NetworkUDPAdvertise true expiredServer).1._network_advertise_retries = 2 ∧
    ((NetworkUDPAdvertise true expiredServer).1._network_advertise_retries ≤
        ADVERTISE_RETRY_TIMES ∧
      (Master_PACKET_UDP_MASTER_ACK_REGISTER true expiredServer).1._network_advertise_retries = 0 ∧
      (advertiseAttempt true
        { expiredServer with _network_advertise_retries := 0 }).1._network_advertise_retries = 255 ∧
      (NetworkUDPAdvertise true expiredServer = (expiredServer, []) ∨
        NetworkUDPAdvertise true expiredServer =
          ({ expiredServer with _network_advertise_retries := ADVERTISE_RETRY_TIMES }, []) ∨
        ∃ g1 : Globals, 1 ≤ g1._network_advertise_retries ∧
          g1._network_advertise_retries ≤ ADVERTISE_RETRY_TIMES ∧
          NetworkUDPAdvertise true expiredServer = advertiseAttempt true g1 ∧
          (NetworkUDPAdvertise true expiredServer).1._network_advertise_retries + 1 =
            g1._network_advertise_retries) ∧
      (expiredServer._networking = true → expiredServer._network_server = true →
        expiredServer._network_udp_server = true → expiredServer.server_advertise = true →
        expiredServer._network_need_advertise = false →
        expiredServer._network_advertise_retries = 0 → expiredServer._frame_counter < 2 ^ 32 →
        expiredServer._network_last_advertise_frame + ADVERTISE_NORMAL_INTERVAL ≤
          expiredServer._frame_counter →
        NetworkUDPAdvertise true expiredServer =
          advertiseAttempt true
            { expiredServer with _network_advertise_retries := ADVERTISE_RETRY_TIMES } ∧
        (NetworkUDPAdvertise true expiredServer).1._network_advertise_retries =
          ADVERTISE_RETRY_TIMES - 1)) :=
  ⟨by decide, by decide, retries_stay_within_bounds true expiredServer (by decide)⟩

/-- The evaluation for C15: with the client socket NULL,
`NetworkUDPQueryMasterServer` calls `SendPacket` through the NULL pointer, and
so does `NetworkUDPSearchGame` when no discovery window is active and there
is a broadcast address. `NetworkUDPQueryServer` and the procedures that
`NetworkUDPAdvertise` and `NetworkUDPRemoveAdvertise` start test the pointer
and send nothing. -/
theorem torn_down_sockets_evaluated :
    (∀ (M : MasterServerConstants) (L : ListTypeConstants) (g : Globals),
      g._udp_client_socket = false →
      NetworkUDPQueryMasterServer M L g = .error .null_pointer_dereference) ∧
    (∀ (addr : NetworkAddress) (rest : List NetworkAddress) (g : Globals),
      g._udp_client_socket = false → g._network_udp_broadcast = 0 →
      NetworkUDPSearchGame (addr :: rest) g = .error .null_pointer_dereference) ∧
    (∀ (is_resolved thread_ok manually : Bool) (address : NetworkAddress) (g : Globals),
      g._udp_client_socket = false →
      (NetworkUDPQueryServer is_resolved thread_ok address manually g).1.sent = []) ∧
    (∀ (M : MasterServerConstants) (g : Globals) (proc : ThreadProc),
      g._udp_master_socket = false → runThreadProc M g proc = []) ∧
    NetworkUDPQueryMasterServer sampleMaster sampleListTypes closedServer =
      .error .null_pointer_dereference ∧
    NetworkUDPSearchGame [255] closedServer = .error .null_pointer_dereference := by
  refine ⟨?_, ?_, ?_, ?_, rfl, rfl⟩
  · intro M L g h
    simp [NetworkUDPQueryMasterServer, h]
  · intro addr rest g h hb
    simp [NetworkUDPSearchGame, NetworkUDPBroadCast, h, hb]
  · intro is_resolved thread_ok manually address g h
    unfold NetworkUDPQueryServer
    simp only []
    split_ifs <;> simp [NetworkUDPQueryServerThread, h]
  · intro M g proc h
    cases proc <;> simp [runThreadProc, NetworkUDPAdvertiseThread, NetworkUDPRemoveAdvertiseThread, h]

/-- C16: for every list of broadcast addresses, when no discovery window is
active and the client socket exists (or the list is empty),
`NetworkUDPSearchGame` hands exactly one FindServer packet for each broadcast
address to the client socket, in list order, and sets the discovery window
to 300 ticks; when a window is active it sends nothing and changes nothing, so
that a second call during the window does not restart or extend it. -/
theorem search_game_broadcasts_once (_broadcast_list : List NetworkAddress) (g : Globals) :
    (g._network_udp_broadcast = 0 → (g._udp_client_socket = true ∨ _broadcast_list = []) →
      NetworkUDPSearchGame _broadcast_list g =
        .ok ({ g with _network_udp_broadcast := 300 },
          _broadcast_list.map (fun addr => (⟨.PACKET_UDP_CLIENT_FIND_SERVER, []⟩, addr))) ∧
      NetworkUDPSearchGame _broadcast_list { g with _network_udp_broadcast := 300 } =
        .ok ({ g with _network_udp_broadcast := 300 }, [])) ∧
    (0 < g._network_udp_broadcast → NetworkUDPSearchGame _broadcast_list g = .ok (g, [])) := by
  have hb : ∀ l : List NetworkAddress, (g._udp_client_socket = true ∨ l = []) →
      NetworkUDPBroadCast g._udp_client_socket l =
        .ok (l.map (fun addr => (⟨.PACKET_UDP_CLIENT_FIND_SERVER, []⟩, addr))) := by
    intro l hl
    induction l with
    | nil => rfl
    | cons a l ih =>
      rcases hl with hs | hnil
      · simp only [NetworkUDPBroadCast, hs, Bool.not_true, Bool.false_eq_true, if_false,
          List.map_cons]
        rw [hs] at ih
        rw [ih (Or.inl rfl)]
        rfl
      · exact absurd hnil (List.cons_ne_nil _ _)
  refine ⟨fun h0 hs => ⟨?_, ?_⟩, fun hpos => ?_⟩
  · simp only [NetworkUDPSearchGame, h0, Nat.lt_irrefl, if_false, gt_iff_lt, hb _ hs]
  · simp [NetworkUDPSearchGame]
  · simp [NetworkUDPSearchGame, hpos]

/-- The witness of C16: with no window active and the broadcast addresses 255
and 511, one FindServer packet goes to each and the window is 300 ticks; with
a window of 5 ticks left, nothing is sent and the window stays. -/
theorem search_game_broadcasts_once_witness :
    NetworkUDPSearchGame [255, 511] advertisingServer =
      .ok ({ advertisingServer with _network_udp_broadcast := 300 },
        [(⟨.PACKET_UDP_CLIENT_FIND_SERVER, []⟩, 255),
          (⟨.PACKET_UDP_CLIENT_FIND_SERVER, []⟩, 511)]) ∧
    NetworkUDPSearchGame [255, 511] { advertisingServer with _network_udp_broadcast := 300 } =
      .ok ({ advertisingServer with _network_udp_broadcast := 300 }, []) ∧
    NetworkUDPSearchGame [255, 511] { advertisingServer with _network_udp_broadcast := 5 } =
      .ok ({ advertisingServer with _network_udp_broadcast := 5 }, []) :=
  ⟨((search_game_broadcasts_once [255, 511] advertisingServer).1 rfl (Or.inl rfl)).1,
    ((search_game_broadcasts_once [255, 511] advertisingServer).1 rfl (Or.inl rfl)).2,
    (search_game_broadcasts_once [255, 511]
      { advertisingServer with _network_udp_broadcast := 5 }).2 (by decide)⟩

/-- The refutation of C17 as it is written: a list with the type byte 0 and
two complete pairs. The byte gives the type `-1`, which is below `SLT_END`,
and the handler makes the two queries. -/
theorem list_type_zero_accepted_counterexample :
    (byteReader.Recv_uint8 zeroTypeList).1 = 0 ∧
    listTypeBelowEnd sampleListTypes (byteReader.Recv_uint8 zeroTypeList).1 = true ∧
    (Client_PACKET_UDP_MASTER_RESPONSE_LIST sampleListTypes byteReader id zeroTypeList).queries =
      [⟨addressOfIp 67305985 1541, false⟩, ⟨addressOfIp 168364039 3083, false⟩] ∧
    (Client_PACKET_UDP_MASTER_RESPONSE_LIST sampleListTypes byteReader id zeroTypeList).queries ≠
      [] := by
  decide

/-- C17, amended: for a Master ResponseList packet whose list type byte gives
a type below `SLT_END`, which the bytes from 0 to `SLT_END` do, the byte 0
with the type `-1` included, the
handler runs the rounds of its loop as long as the pairs are complete. When
all `n` pairs of the count are complete it calls `NetworkUDPQueryServer`
exactly `n` times, once per pair in packet order, with the address made of
that pair's address and port. When the packet ends in round `k`, it has
called it for the `k` pairs before and stops after the reads of that round,
reading nothing more. When the list type byte is above `SLT_END`, nothing
more is read and no query is made. -/
theorem master_list_queries_complete_pairs {P : Type} (L : ListTypeConstants)
    (rd : ListReader P) (TO_LE32 : Nat → Nat) (p : P) :
    (listTypeBelowEnd L (rd.Recv_uint8 p).1 = true →
      ((∀ r ∈ listRounds rd ((rd.Recv_uint16 (rd.Recv_uint8 p).2).1 % 65536)
            (rd.Recv_uint16 (rd.Recv_uint8 p).2).2, r.2 = false) →
        (Client_PACKET_UDP_MASTER_RESPONSE_LIST L rd TO_LE32 p).queries =
          (listRounds rd ((rd.Recv_uint16 (rd.Recv_uint8 p).2).1 % 65536)
            (rd.Recv_uint16 (rd.Recv_uint8 p).2).2).map
            (fun r => ⟨addressOfIp (TO_LE32 r.1.1) r.1.2, false⟩) ∧
        (Client_PACKET_UDP_MASTER_RESPONSE_LIST L rd TO_LE32 p).queries.length =
          (rd.Recv_uint16 (rd.Recv_uint8 p).2).1 % 65536 ∧
        (Client_PACKET_UDP_MASTER_RESPONSE_LIST L rd TO_LE32 p).p =
          afterRounds rd ((rd.Recv_uint16 (rd.Recv_uint8 p).2).1 % 65536)
            (rd.Recv_uint16 (rd.Recv_uint8 p).2).2) ∧
      (∀ k : Nat,
        (∀ r ∈ (listRounds rd ((rd.Recv_uint16 (rd.Recv_uint8 p).2).1 % 65536)
            (rd.Recv_uint16 (rd.Recv_uint8 p).2).2).take k, r.2 = false) →
        ((listRounds rd ((rd.Recv_uint16 (rd.Recv_uint8 p).2).1 % 65536)
            (rd.Recv_uint16 (rd.Recv_uint8 p).2).2).get? k).map Prod.snd = some true →
        (Client_PACKET_UDP_MASTER_RESPONSE_LIST L rd TO_LE32 p).queries =
          ((listRounds rd ((rd.Recv_uint16 (rd.Recv_uint8 p).2).1 % 65536)
            (rd.Recv_uint16 (rd.Recv_uint8 p).2).2).take k).map
            (fun r => ⟨addressOfIp (TO_LE32 r.1.1) r.1.2, false⟩) ∧
        (Client_PACKET_UDP_MASTER_RESPONSE_LIST L rd TO_LE32 p).queries.length = k ∧
        (Client_PACKET_UDP_MASTER_RESPONSE_LIST L rd TO_LE32 p).p =
          afterRounds rd (k + 1) (rd.Recv_uint16 (rd.Recv_uint8 p).2).2)) ∧
    (listTypeBelowEnd L (rd.Recv_uint8 p).1 = false →
      (Client_PACKET_UDP_MASTER_RESPONSE_LIST L rd TO_LE32 p).queries = [] ∧
      (Client_PACKET_UDP_MASTER_RESPONSE_LIST L rd TO_LE32 p).p = (rd.Recv_uint8 p).2) ∧
    ((listTypeBelowEnd L (rd.Recv_uint8 p).1 = true ↔ (rd.Recv_uint8 p).1 % 256 ≤ L.SLT_END) ∧
      listTypeBelowEnd L 0 = true) ∧
    ((Client_PACKET_UDP_MASTER_RESPONSE_LIST sampleListTypes byteReader TO_LE32 sampleList).queries =
        [⟨addressOfIp (TO_LE32 67305985) 1541, false⟩,
          ⟨addressOfIp (TO_LE32 168364039) 3083, false⟩] ∧
      (Client_PACKET_UDP_MASTER_RESPONSE_LIST sampleListTypes byteReader TO_LE32 cutList).queries =
        [⟨addressOfIp (TO_LE32 67305985) 1541, false⟩] ∧
      (Client_PACKET_UDP_MASTER_RESPONSE_LIST sampleListTypes byteReader TO_LE32 cutList).p =
        ⟨cutList.buffer, 13, true⟩ ∧
      (Client_PACKET_UDP_MASTER_RESPONSE_LIST sampleListTypes byteReader TO_LE32
        zeroTypeList).queries =
        [⟨addressOfIp (TO_LE32 67305985) 1541, false⟩,
          ⟨addressOfIp (TO_LE32 168364039) 3083, false⟩] ∧
      (Client_PACKET_UDP_MASTER_RESPONSE_LIST sampleListTypes byteReader TO_LE32
        aboveEndList).queries = []) := by
  refine ⟨fun ht => ⟨fun hall => ?_, fun k hk hcut => ?_⟩, fun hf => ?_, ?_,
    rfl, rfl, rfl, rfl, rfl⟩
  · have h := responseListLoop_complete rd TO_LE32 _ _ hall
    simp only [Client_PACKET_UDP_MASTER_RESPONSE_LIST, ht, if_true]
    refine ⟨h.2, ?_, h.1⟩
    rw [h.2, List.length_map]
    generalize (rd.Recv_uint16 (rd.Recv_uint8 p).2).1 % 65536 = n
    generalize (rd.Recv_uint16 (rd.Recv_uint8 p).2).2 = q
    induction n generalizing q with
    | zero => rfl
    | succ n ih => simp [listRounds, ih]
  · have h := responseListLoop_cut rd TO_LE32 _ k _ hk hcut
    simp only [Client_PACKET_UDP_MASTER_RESPONSE_LIST, ht, if_true]
    refine ⟨h.2, ?_, h.1⟩
    rw [h.2, List.length_map, List.length_take]
    cases hg : (listRounds rd ((rd.Recv_uint16 (rd.Recv_uint8 p).2).1 % 65536)
        (rd.Recv_uint16 (rd.Recv_uint8 p).2).2).get? k with
    | none => rw [hg] at hcut; simp at hcut
    | some r =>
      have := (List.get?_eq_some.mp hg).1
      omega
  · simp [Client_PACKET_UDP_MASTER_RESPONSE_LIST, hf]
  · exact ⟨listTypeBelowEnd_iff L _, (listTypeBelowEnd_iff L 0).mpr (Nat.zero_le _)⟩

/-- The witness of C17: a list of type 1 with two complete pairs gives two
queries and is read to its end; the same list without its last byte gives the
query of the first pair and is read no further than the second round. -/
theorem master_list_queries_complete_pairs_witness :
    listTypeBelowEnd sampleListTypes (byteReader.Recv_uint8 sampleList).1 = true ∧
    ((Client_PACKET_UDP_MASTER_RESPONSE_LIST sampleListTypes byteReader id sampleList).queries =
        [⟨addressOfIp 67305985 1541, false⟩, ⟨addressOfIp 168364039 3083, false⟩] ∧
      (Client_PACKET_UDP_MASTER_RESPONSE_LIST sampleListTypes byteReader id
        sampleList).queries.length = 2 ∧
      (Client_PACKET_UDP_MASTER_RESPONSE_LIST sampleListTypes byteReader id sampleList).p =
        ⟨sampleList.buffer, 15, false⟩) ∧
    ((Client_PACKET_UDP_MASTER_RESPONSE_LIST sampleListTypes byteReader id cutList).queries =
        [⟨addressOfIp 67305985 1541, false⟩] ∧
      (Client_PACKET_UDP_MASTER_RESPONSE_LIST sampleListTypes byteReader id
        cutList).queries.length = 1 ∧
      (Client_PACKET_UDP_MASTER_RESPONSE_LIST sampleListTypes byteReader id cutList).p =
        ⟨cutList.buffer, 13, true⟩) :=
  ⟨by decide,
    ((master_list_queries_complete_pairs sampleListTypes byteReader id sampleList).1
      (by decide)).1 (by decide),
    ((master_list_queries_complete_pairs sampleListTypes byteReader id cutList).1
      (by decide)).2 1 (by decide) (by decide)⟩

/-- The evaluation for C18: the table holds the placeholder for the pair
(0, 0); the reply announces three entries and ends after the first, which
names (9, 109) `C`, so that it has no entry for (0, 0). The second round of the
loop reads past the end of the packet: it reads the pair (0, 0), finds `C`
still in the array `name`, and the stored name of (0, 0) is `C` afterwards
and not the placeholder. In terms of the entries read in the rounds of the
loop, for a count of at most `NETWORK_MAX_GRF_COUNT`, a placeholder shorter
than `NETWORK_GRF_NAME_LENGTH - 1` bytes and a pair whose stored name is the
placeholder: the stored name afterwards is the name of the first entry read
for that pair whose name is not empty and not the placeholder, cut to at most
`NETWORK_GRF_NAME_LENGTH - 1` bytes, and the placeholder when no such entry
was read; the entries read with an empty name change nothing and do not stop
the later ones. -/
theorem truncated_reply_resolves_evaluated :
    storedName [⟨0, 0, sampleConstants.UNKNOWN_GRF_NAME_PLACEHOLDER⟩] 0 0 =
      some sampleConstants.UNKNOWN_GRF_NAME_PLACEHOLDER ∧
    shortReply.fields = [.uint8 3, .uint32 9, .md5sum 109, .string [67]] ∧
    replyEntries sampleConstants cutReader 3 (cutReader.Recv_uint8 shortReply).2 =
      [(⟨9, 109⟩, [67]), (⟨0, 0⟩, [67]), (⟨0, 0⟩, [67])] ∧
    storedName (Client_PACKET_UDP_SERVER_NEWGRFS sampleConstants cutReader
      [⟨0, 0, sampleConstants.UNKNOWN_GRF_NAME_PLACEHOLDER⟩] shortReply).unknown_grfs 0 0 =
      some [67] ∧
    storedName (Client_PACKET_UDP_SERVER_NEWGRFS sampleConstants fieldReader
      [⟨7, 107, sampleConstants.UNKNOWN_GRF_NAME_PLACEHOLDER⟩] fourNames).unknown_grfs 7 107 =
      some [66] ∧
    (∀ (P : Type) (K : Constants) (rd : PacketReader P) (unknown_grfs : List UnknownGRF) (p : P)
        (grfid md5sum : Nat),
      (rd.Recv_uint8 p).1 % 256 ≤ K.NETWORK_MAX_GRF_COUNT →
      K.UNKNOWN_GRF_NAME_PLACEHOLDER.length < K.NETWORK_GRF_NAME_LENGTH - 1 →
      storedName unknown_grfs grfid md5sum = some K.UNKNOWN_GRF_NAME_PLACEHOLDER →
      storedName (Client_PACKET_UDP_SERVER_NEWGRFS K rd unknown_grfs p).unknown_grfs
          grfid md5sum =
        (match (replyEntries K rd ((rd.Recv_uint8 p).1 % 256) (rd.Recv_uint8 p).2).find?
            (fun e => decide (e.1 = ⟨grfid, md5sum⟩ ∧ e.2 ≠ [] ∧
              e.2 ≠ K.UNKNOWN_GRF_NAME_PLACEHOLDER)) with
         | some e => some (e.2.take (K.NETWORK_GRF_NAME_LENGTH - 1))
         | none => some K.UNKNOWN_GRF_NAME_PLACEHOLDER) ∧
      (Client_PACKET_UDP_SERVER_NEWGRFS K rd unknown_grfs p).unknown_grfs =
        ((replyEntries K rd ((rd.Recv_uint8 p).1 % 256) (rd.Recv_uint8 p).2).filter
          (fun e => !StrEmpty e.2)).foldl (resolveOne K) unknown_grfs) := by
  refine ⟨by decide, rfl, by decide, by decide, by decide, ?_⟩
  intro P K rd unknown_grfs p grfid md5sum hcount hph hstored
  have htable : (Client_PACKET_UDP_SERVER_NEWGRFS K rd unknown_grfs p).unknown_grfs =
      (replyEntries K rd ((rd.Recv_uint8 p).1 % 256) (rd.Recv_uint8 p).2).foldl (resolveOne K)
        unknown_grfs := by
    unfold Client_PACKET_UDP_SERVER_NEWGRFS
    simp only [if_neg (Nat.not_lt.mpr hcount), clientNewGRFsLoop_table]
  refine ⟨?_, ?_⟩
  · rw [htable]
    exact storedName_foldl K _ unknown_grfs grfid md5sum hph hstored
  · rw [htable]
    exact resolveOne_foldl_filter K _ unknown_grfs

/-- C14: for every ServerResponse handled by a process that is not in the
server role, the entry ends with `compatible` true if and only if
`IsNetworkCompatibleVersion` accepts the received revision and no entry of the
received content list has the status `GCS_NOT_FOUND`; `version_compatible` is
the revision check alone, and the entry is marked online. The content list is
one that the handler can scan: its entries that are not found have a name, as
`HandleIncomingNetworkGameInfoGRFConfig` leaves them, and at most
`NETWORK_MAX_GRF_COUNT` of them still have the placeholder as name. -/
theorem compatible_iff_revision_and_content (K : Constants)
    (IsNetworkCompatibleVersion : CString → Bool) (sizeof_hostname : Nat)
    (item : NetworkGameList) (client_hostname : CString)
    (hnames : ∀ c ∈ item.info.grfconfig, c.status = .GCS_NOT_FOUND → c.name ≠ none)
    (hfit : (toRequest K item.info.grfconfig).length ≤ K.NETWORK_MAX_GRF_COUNT) :
    ∃ r, Client_PACKET_UDP_SERVER_RESPONSE K IsNetworkCompatibleVersion sizeof_hostname false
        item client_hostname = .ok (some r) ∧
      (r.item.info.compatible = true ↔
        IsNetworkCompatibleVersion item.info.server_revision = true ∧
        ∀ c ∈ item.info.grfconfig, c.status ≠ .GCS_NOT_FOUND) ∧
      r.item.info.version_compatible = IsNetworkCompatibleVersion item.info.server_revision ∧
      r.item.online = true ∧
      r.item.info.grfconfig = item.info.grfconfig ∧
      r.item.info.server_revision = item.info.server_revision ∧
      r.item.address = item.address := by
  refine ⟨_, server_response_fits K IsNetworkCompatibleVersion sizeof_hostname item
    client_hostname hnames hfit, ?_, rfl, rfl, rfl, rfl, rfl⟩
  simp only [Bool.and_eq_true, List.all_eq_true, decide_eq_true_eq, ne_eq]
  exact ⟨fun h => ⟨h.2, h.1⟩, fun h => ⟨h.2, h.1⟩⟩

/-- The witness of C14: a game of an accepted revision whose only NewGRF is
known is compatible; with a second NewGRF that is not found it is not. -/
theorem compatible_iff_revision_and_content_witness :
    (∀ c ∈ (sampleItem [foundListed]).info.grfconfig,
      c.status = .GCS_NOT_FOUND → c.name ≠ none) ∧
    (toRequest sampleConstants (sampleItem [foundListed]).info.grfconfig).length ≤
      sampleConstants.NETWORK_MAX_GRF_COUNT ∧
    Client_PACKET_UDP_SERVER_RESPONSE sampleConstants (fun r => r == [49]) 64 false
        (sampleItem [foundListed, unknownListed 9]) [104] =
      .ok (some ⟨{ (sampleItem [foundListed, unknownListed 9]) with
          info := { (sampleItem [foundListed, unknownListed 9]).info with
            hostname := [104], version_compatible := true, compatible := false }
          online := true },
        [(⟨.PACKET_UDP_CLIENT_GET_NEWGRFS, [.uint8 1, .uint32 9, .md5sum 109]⟩, 77)]⟩) ∧
    ∃ r, Client_PACKET_UDP_SERVER_RESPONSE sampleConstants (fun r => r == [49]) 64 false
        (sampleItem [foundListed]) [104] = .ok (some r) ∧
      (r.item.info.compatible = true ↔
        (fun r : CString => r == [49]) (sampleItem [foundListed]).info.server_revision = true ∧
        ∀ c ∈ (sampleItem [foundListed]).info.grfconfig, c.status ≠ .GCS_NOT_FOUND) ∧
      r.item.info.version_compatible =
        (fun r : CString => r == [49]) (sampleItem [foundListed]).info.server_revision ∧
      r.item.online = true ∧
      r.item.info.grfconfig = (sampleItem [foundListed]).info.grfconfig ∧
      r.item.info.server_revision = (sampleItem [foundListed]).info.server_revision ∧
      r.item.address = (sampleItem [foundListed]).address :=
  ⟨by decide, by decide, rfl,
    compatible_iff_revision_and_content sampleConstants (fun r => r == [49]) 64
      (sampleItem [foundListed]) [104] (by decide) (by decide)⟩

end NetworkUDP
